import Mathlib

/-!
# Property valuation service

A shallow embedding of the valuation core of the mobile application:
`services/PropertyService.ts`, the distance functions of
`services/GeocodingService.ts` and the gazetteer of `types/location.ts`.

Conventions of the embedding.

* A JavaScript `number` is read in two ways. In the exact reading it is a
  rational; where an expression of the source can leave the rationals (a
  division by zero, arithmetic on a value that is not a number) the embedding
  makes this explicit with `Option`, `none` then standing for the
  non-rational outcome named at the definition. In the double-precision
  reading it is a `Js.Number`, an IEEE 754 binary64 value, and every
  operation rounds; the definitions of this reading carry the suffix `64`.
  The similarity that `findSimilarProperties` compares with its threshold is
  the double-precision one.
* `rooms`, `floor` and `totalFloors` are integers, as the form that creates
  the records enforces.
* A string is a `String` (a sequence of code points).
* A distance is a real number in the exact reading: `calculateDistance` of
  `services/GeocodingService.ts` is built from the sine, the cosine, the
  square root and `atan2`, so it and the methods that compare distances are
  not computable; coordinates of stored records are rationals, read as reals.
  In the double-precision reading these four functions are those of a
  `Js.MathLibrary`, the language leaving their results to the implementation.
* An array is a list, and `Array.prototype.sort` is a stable sort.
* The object kept in the local storage is the list of its entries; its keys
  are taken not to name a member of `Object.prototype`. Reading it and
  writing it back can both fail: `getSavedProperties` returns the empty
  object when the read fails. A method that reads the storage more than once
  is taken to read the same object each time. `saveProperty` is the only
  writer of the storage, so the objects that it can hold are the `Reachable`
  ones.
* An asynchronous method is a function of the outcomes of its requests; the
  mutual recursion of `getValuation` and `getLocalValuation` is bounded by a
  fuel argument, `none` meaning that the fuel ran out before the promise
  settled.
-/

set_option autoImplicit false

namespace Location

/-- The `type` field of a `District`. -/
inductive DistrictType where
  | district
  | microdistrict
  | neighborhood
  deriving DecidableEq, Repr

/-- Interface `District` of `types/location.ts` (the centroid and the
description, which the valuation does not read, are left out). -/
structure District where
  id : String
  name : String
  type : DistrictType
  averagePricePerSqm : Option ℚ
  deriving DecidableEq

/-- Interface `City` of `types/location.ts`, without the coordinates. -/
structure City where
  id : String
  name : String
  region : String
  districts : List District
  averagePricePerSqm : ℚ

/-- The entries of `KHARKIV_CITY.districts`, in source order. -/
def kharkivDistricts : List District := [
  District.mk "6310430000" "Основ'янський" .district (some 1150),
  District.mk "6310460000" "Слобідський" .district (some 1100),
  District.mk "6310490000" "Немишлянський" .district (some 1050),
  District.mk "6310520000" "Шевченківський" .district (some 1250),
  District.mk "6310550000" "Холодногірський" .district (some 1000),
  District.mk "6310580000" "Індустріальний" .district (some 950),
  District.mk "6310610000" "Київський" .district (some 1300),
  District.mk "6310640000" "Салтівський" .district (some 900),
  District.mk "6310670000" "Новобаварський" .district (some 850),
  District.mk "micro_kharkiv_centr" "Центр" .microdistrict (some 1400),
  District.mk "micro_kharkiv_saltivka" "Салтівка" .microdistrict (some 850),
  District.mk "micro_kharkiv_oleksiivka" "Олексіївка" .microdistrict (some 1300),
  District.mk "micro_kharkiv_kholodna_gora" "Холодна Гора" .microdistrict (some 950),
  District.mk "micro_kharkiv_nova_bavaria" "Нова Баварія" .microdistrict (some 800),
  District.mk "micro_kharkiv_pavlove_pole" "Павлове Поле" .microdistrict (some 1000),
  District.mk "micro_kharkiv_sortuvannya" "Сортування" .microdistrict (some 900),
  District.mk "micro_kharkiv_levada" "Левада" .microdistrict (some 1050),
  District.mk "micro_kharkiv_zhukovskogo" "Жуковського" .microdistrict (some 1200),
  District.mk "micro_kharkiv_derzhprom" "Держпром" .microdistrict (some 1350),
  District.mk "micro_kharkiv_aeroport" "Аеропорт" .microdistrict (some 850),
  District.mk "micro_kharkiv_artema" "Артема" .microdistrict (some 800),
  District.mk "micro_kharkiv_botsad" "Ботсад" .microdistrict (some 1100),
  District.mk "micro_kharkiv_balashivka" "Балашівка" .microdistrict (some 750),
  District.mk "micro_kharkiv_goryzont" "Горизонт" .microdistrict (some 950),
  District.mk "micro_kharkiv_goncharivka" "Гончарівка" .microdistrict (some 1000),
  District.mk "micro_kharkiv_hryhorivka" "Григорівка" .microdistrict (some 700),
  District.mk "micro_kharkiv_dalna_zhuravlivka" "Дальня Журавлівка" .microdistrict (some 650),
  District.mk "micro_kharkiv_dacha_55" "Дача №55" .microdistrict (some 1200),
  District.mk "micro_kharkiv_dzherela" "Джерела" .microdistrict (some 1050),
  District.mk "micro_kharkiv_zhuravlivka" "Журавлівка" .microdistrict (some 700),
  District.mk "micro_kharkiv_zalyutine" "Залютине" .microdistrict (some 600),
  District.mk "micro_kharkiv_zaikivka" "Заїківка" .microdistrict (some 650),
  District.mk "micro_kharkiv_ivanivka" "Іванівка" .microdistrict (some 700),
  District.mk "micro_kharkiv_lysa_gora" "Лиса Гора" .microdistrict (some 750),
  District.mk "micro_kharkiv_lazkovka" "Лазьковка" .microdistrict (some 680),
  District.mk "micro_kharkiv_5" "5-ий мікрорайон" .microdistrict (some 900),
  District.mk "micro_kharkiv_522" "522-ий мікрорайон" .microdistrict (some 850),
  District.mk "micro_kharkiv_339" "339-ий мікрорайон" .microdistrict (some 820),
  District.mk "micro_kharkiv_6" "6-ий мікрорайон" .microdistrict (some 880),
  District.mk "micro_kharkiv_521" "521-ий мікрорайон" .microdistrict (some 840),
  District.mk "micro_kharkiv_337" "337-ий мікрорайон" .microdistrict (some 810),
  District.mk "micro_kharkiv_moskalivka" "Москалівка" .microdistrict (some 780),
  District.mk "micro_kharkiv_2" "2-ий мікрорайон" .microdistrict (some 870),
  District.mk "micro_kharkiv_1" "1-ий мікрорайон" .microdistrict (some 860),
  District.mk "micro_kharkiv_625" "625-ий мікрорайон" .microdistrict (some 830),
  District.mk "micro_kharkiv_mzhk_internatsionalist" "МЖК Інтернаціоналіст" .microdistrict (some 800),
  District.mk "micro_kharkiv_626" "626-ий мікрорайон" .microdistrict (some 820),
  District.mk "micro_kharkiv_624" "624-ий мікрорайон" .microdistrict (some 840),
  District.mk "micro_kharkiv_603" "603-ий мікрорайон" .microdistrict (some 800),
  District.mk "micro_kharkiv_608" "608-ий мікрорайон" .microdistrict (some 810),
  District.mk "micro_kharkiv_520" "520-й мікрорайон" .microdistrict (some 850),
  District.mk "micro_kharkiv_604" "604-ий мікрорайон" .microdistrict (some 790),
  District.mk "micro_kharkiv_759" "759-ий мікрорайон" .microdistrict (some 780),
  District.mk "micro_kharkiv_524" "524-ий мікрорайон" .microdistrict (some 860),
  District.mk "micro_kharkiv_602" "602-ий мікрорайон" .microdistrict (some 810),
  District.mk "micro_kharkiv_335" "335-ий мікрорайон" .microdistrict (some 820),
  District.mk "micro_kharkiv_sonyachny" "Сонячний (761 мікрорайон)" .microdistrict (some 770),
  District.mk "micro_kharkiv_531" "531-ий мікрорайон" .microdistrict (some 840),
  District.mk "micro_kharkiv_605" "605-ий мікрорайон" .microdistrict (some 800),
  District.mk "micro_kharkiv_607" "607-ий мікрорайон" .microdistrict (some 815),
  District.mk "micro_kharkiv_627" "627-ий мікрорайон" .microdistrict (some 810),
  District.mk "micro_kharkiv_nagirny" "Нагірний (Київський)" .microdistrict (some 1250),
  District.mk "micro_kharkiv_novi_doma" "Нові Дома" .microdistrict (some 720),
  District.mk "micro_kharkiv_novoselivka" "Новоселівка" .microdistrict (some 700),
  District.mk "micro_kharkiv_novozhanovo" "Новожаново" .microdistrict (some 680),
  District.mk "micro_kharkiv_odeska" "Одеська" .microdistrict (some 850),
  District.mk "micro_kharkiv_osnova" "Основа" .microdistrict (some 750),
  District.mk "micro_kharkiv_pivnichna_saltivka" "Північна Салтівка" .microdistrict (some 800),
  District.mk "micro_kharkiv_pavlivka" "Павлівка" .microdistrict (some 650),
  District.mk "micro_kharkiv_pisky" "Піски" .microdistrict (some 620),
  District.mk "micro_kharkiv_panasivka" "Панасівка" .microdistrict (some 680),
  District.mk "micro_kharkiv_pyatyhatky" "П'ятихатки" .microdistrict (some 640),
  District.mk "micro_kharkiv_rubanivka" "Рубанівка" .microdistrict (some 600),
  District.mk "micro_kharkiv_rohansky" "Роганський" .microdistrict (some 580),
  District.mk "micro_kharkiv_sokilnyky" "Сокільники" .microdistrict (some 1150),
  District.mk "micro_kharkiv_skhidny" "Східний" .microdistrict (some 950),
  District.mk "micro_kharkiv_sosnova_girka" "Соснова Гірка" .microdistrict (some 1200),
  District.mk "micro_kharkiv_selyshche_zhukovskogo" "Селище Жуковського" .microdistrict (some 1100),
  District.mk "micro_kharkiv_kholodna_gora" "Холодна Гора" .microdistrict (some 950),
  District.mk "micro_kharkiv_khtz" "ХТЗ" .microdistrict (some 720),
  District.mk "micro_kharkiv_chervony_promin" "Червоний промінь" .microdistrict (some 780),
  District.mk "micro_kharkiv_shatylivka" "Шатилівка" .microdistrict (some 680),
  District.mk "micro_kharkiv_shyshkovka" "Шишковка" .microdistrict (some 700),
  District.mk "micro_kharkiv_shevchenky" "Шевченки" .microdistrict (some 720)
]

/-- The constant `KHARKIV_CITY`. -/
def KHARKIV_CITY : City where
  id := "6310400000"
  name := "Харків"
  region := "Харківська"
  districts := kharkivDistricts
  averagePricePerSqm := 1200

end Location

namespace Js

/-- Lower-case mapping of one code point, as `String.prototype.toLowerCase`
performs it on Basic Latin and on the Cyrillic letters U+0400 to U+042F and
U+0490 (the Ukrainian and Russian alphabets); every other code point is
returned unchanged. -/
def lowerChar (c : Char) : Char :=
  let n := c.toNat
  if 0x41 ≤ n ∧ n ≤ 0x5A then Char.ofNat (n + 32)
  else if 0x410 ≤ n ∧ n ≤ 0x42F then Char.ofNat (n + 32)
  else if 0x400 ≤ n ∧ n ≤ 0x40F then Char.ofNat (n + 80)
  else if n = 0x490 then Char.ofNat 0x491
  else c

/-- The method `String.prototype.toLowerCase`. -/
def toLowerCase (s : String) : String :=
  String.mk (s.data.map lowerChar)

/-- Whether `pat` occurs in `s` as a block of consecutive characters. -/
def includesChars : List Char → List Char → Bool
  | [], pat => pat.isEmpty
  | c :: cs, pat => pat.isPrefixOf (c :: cs) || includesChars cs pat

/-- The method `String.prototype.includes` with its default start position. -/
def includes (s pat : String) : Bool :=
  includesChars s.data pat.data

/-- The function `Math.round`: the nearest integer, a half rounding up. -/
def round (x : ℚ) : ℤ :=
  ⌊x + 1 / 2⌋

/-! ### Double-precision numbers

A value of the type `number` is an IEEE 754 binary64 value. A finite one is
given by the rational it denotes, the two zeros not being told apart. The
arithmetic operations, and the reading of a numeric literal, return the
binary64 value nearest to the exact result, a tie going to the even
significand; a result of magnitude 2^1024 or more is an infinity. -/

/-- The integer nearest to `q`, a tie going to the even one. -/
def roundHalfEven (q : ℚ) : ℤ :=
  if q - ⌊q⌋ < 1 / 2 then ⌊q⌋
  else if 1 / 2 < q - ⌊q⌋ then ⌊q⌋ + 1
  else if ⌊q⌋ % 2 = 0 then ⌊q⌋
  else ⌊q⌋ + 1

/-- The exponent of the spacing of the binary64 values around `x`: the
significand has 53 bits, and the spacing is never finer than that of the
subnormal values. -/
def ulpExponent (x : ℚ) : ℤ :=
  max (Int.log 2 |x| - 52) (-1074)

/-- The binary64 value nearest to `x`, the exponent being taken as unbounded
above; overflow is decided in `Number.ofRat`. -/
def fl (x : ℚ) : ℚ :=
  roundHalfEven (x / 2 ^ ulpExponent x) * 2 ^ ulpExponent x

/-- A rational that a binary64 value denotes, the exponent being taken as
unbounded above: a significand of at most 53 bits and an exponent of at least
−1074. -/
def Representable (d : ℚ) : Prop :=
  ∃ m e : ℤ, |m| < 2 ^ 53 ∧ -1074 ≤ e ∧ d = m * 2 ^ e

/-- A value of the type `number`: `NaN`, an infinity with its sign, or a
finite value. -/
inductive Number where
  | nan
  | infinity (negative : Bool)
  | finite (value : ℚ)
  deriving DecidableEq

namespace Number

/-- The number that a rational rounds to: the value of a numeric literal, and
the result of an operation whose exact result is `x`. -/
def ofRat (x : ℚ) : Number :=
  if 2 ^ 1024 ≤ fl x then infinity false
  else if fl x ≤ -2 ^ 1024 then infinity true
  else finite (fl x)

/-- The operator `*`. -/
def mul : Number → Number → Number
  | nan, _ => nan
  | _, nan => nan
  | infinity s, infinity t => infinity (s != t)
  | infinity s, finite b => if b = 0 then nan else infinity (s != decide (b < 0))
  | finite a, infinity t => if a = 0 then nan else infinity (decide (a < 0) != t)
  | finite a, finite b => ofRat (a * b)

/-- The operator `+`. -/
def add : Number → Number → Number
  | nan, _ => nan
  | _, nan => nan
  | infinity s, infinity t => if s = t then infinity s else nan
  | infinity s, finite _ => infinity s
  | finite _, infinity t => infinity t
  | finite a, finite b => ofRat (a + b)

/-- The unary operator `-`. -/
def neg : Number → Number
  | nan => nan
  | infinity s => infinity (!s)
  | finite a => finite (-a)

/-- The binary operator `-`. -/
def sub (a b : Number) : Number :=
  add a (neg b)

/-- The function `Math.abs`. -/
def abs : Number → Number
  | nan => nan
  | infinity _ => infinity false
  | finite a => finite |a|

/-- The function `Math.max` of two arguments. -/
def max : Number → Number → Number
  | nan, _ => nan
  | _, nan => nan
  | infinity false, _ => infinity false
  | _, infinity false => infinity false
  | infinity true, b => b
  | a, infinity true => a
  | finite a, finite b => finite (Max.max a b)

/-- The operator `/`; a zero divisor counts as positive. -/
def div : Number → Number → Number
  | nan, _ => nan
  | _, nan => nan
  | infinity _, infinity _ => nan
  | infinity s, finite b => infinity (s != decide (b < 0))
  | finite _, infinity _ => finite 0
  | finite a, finite b =>
    if b = 0 then (if a = 0 then nan else infinity (decide (a < 0))) else ofRat (a / b)

/-- The operator `<`. -/
def lt : Number → Number → Bool
  | nan, _ => false
  | _, nan => false
  | infinity s, infinity t => s && !t
  | infinity s, finite _ => s
  | finite _, infinity t => !t
  | finite a, finite b => decide (a < b)

/-- The operator `<=`. -/
def le : Number → Number → Bool
  | nan, _ => false
  | _, nan => false
  | infinity s, infinity t => s || !t
  | infinity s, finite _ => s
  | finite _, infinity t => !t
  | finite a, finite b => decide (a ≤ b)

/-- The function `Math.round`: the nearest integer, a half rounding up; `NaN`
and the infinities are returned as they are. -/
def round : Number → Number
  | finite a => finite (⌊a + 1 / 2⌋ : ℤ)
  | x => x

end Number

/-- What a product of non-negative numbers can be: `Infinity`, or a finite
value that is not negative. -/
def NonNegative (n : Number) : Prop :=
  n = .infinity false ∨ ∃ v : ℚ, n = .finite v ∧ 0 ≤ v ∧ Representable v ∧ v < 2 ^ 1024

end Js

namespace PropertyService

open Location

/-- The union type of `PropertyData.buildingType`. -/
inductive BuildingType where
  | brick
  | panel
  | monolithic
  | wood
  deriving DecidableEq, Repr

/-- The union type of `PropertyData.condition`. -/
inductive Condition where
  | excellent
  | good
  | fair
  | poor
  deriving DecidableEq, Repr

/-- The union type of `PropertyData.heating`. -/
inductive Heating where
  | central
  | individual
  | none
  deriving DecidableEq, Repr

/-- The string literal that a value of the union type `condition` is. -/
def Condition.toString : Condition → String
  | .excellent => "excellent"
  | .good => "good"
  | .fair => "fair"
  | .poor => "poor"

/-- The optional field `coordinates`. -/
structure Coordinates where
  latitude : ℚ
  longitude : ℚ
  deriving DecidableEq

/-- The element type of `PropertyData.similarProperties`. -/
structure SimilarEntry where
  id : String
  address : String
  price : ℚ
  area : ℚ
  distance : ℚ
  similarity : ℚ
  deriving DecidableEq

/-- Interface `PropertyData`. -/
structure PropertyData where
  id : Option String
  city : String
  district : String
  address : String
  fullAddress : Option String
  area : ℚ
  rooms : ℤ
  floor : ℤ
  totalFloors : ℤ
  buildingType : BuildingType
  yearBuilt : Option ℤ
  condition : Condition
  hasBalcony : Bool
  hasElevator : Bool
  heating : Heating
  description : Option String
  coordinates : Option Coordinates
  pricePerSqm : Option ℚ
  distanceToCenter : Option ℚ
  similarProperties : Option (List SimilarEntry)
  deriving DecidableEq

/-- The union type of `marketTrends.demandLevel`. -/
inductive DemandLevel where
  | high
  | medium
  | low
  deriving DecidableEq, Repr

/-- The field `priceRange` of a valuation; `none` is `NaN`. -/
structure PriceRange where
  min : Option ℤ
  max : Option ℤ
  deriving DecidableEq

/-- The field `factors` of a valuation; in `condition`, `none` is a value
that is not a number. -/
structure Factors where
  location : ℚ
  area : ℚ
  condition : Option ℚ
  building : ℚ
  floor : ℚ
  deriving DecidableEq

/-- The element type of `PropertyValuation.comparableProperties`. -/
structure Comparable where
  address : String
  price : ℚ
  area : ℚ
  distance : ℚ
  deriving DecidableEq

/-- The field `marketTrends` of a valuation. -/
structure MarketTrends where
  averagePricePerSqm : ℚ
  priceChangeLastMonth : ℚ
  demandLevel : DemandLevel
  deriving DecidableEq

/-- Interface `PropertyValuation`; in `estimatedValue`, `none` is `NaN`. -/
structure PropertyValuation where
  propertyId : String
  estimatedValue : Option ℤ
  priceRange : PriceRange
  confidence : ℚ
  factors : Factors
  comparableProperties : List Comparable
  marketTrends : MarketTrends
  deriving DecidableEq

/-- The predicate given to `find` in `getBasePricePerSqm`. -/
def districtMatches (district : String) (d : District) : Bool :=
  decide (Js.toLowerCase d.name = Js.toLowerCase district) ||
    Js.includes (Js.toLowerCase d.name) (Js.toLowerCase district)

/-- Method `getBasePricePerSqm`. A string is truthy when it is not empty, an
optional price when it is present and not zero. -/
def getBasePricePerSqm (city district : String) : ℚ :=
  if Js.toLowerCase city ≠ "харків" then 1000
  else
    let fallback := KHARKIV_CITY.averagePricePerSqm
    if district ≠ "" then
      match (KHARKIV_CITY.districts.find? (districtMatches district)).bind
          (fun d => d.averagePricePerSqm) with
      | some price => if price ≠ 0 then price else fallback
      | none => fallback
    else fallback

/-- The names that every object literal inherits from `Object.prototype`:
indexing an object literal with one of them yields the inherited function or
object, which is truthy and is not a number. -/
def objectPrototypeKeys : List String :=
  ["constructor", "hasOwnProperty", "isPrototypeOf", "propertyIsEnumerable",
   "toLocaleString", "toString", "valueOf", "__proto__", "__defineGetter__",
   "__defineSetter__", "__lookupGetter__", "__lookupSetter__"]

/-- The expression `table[key] || dflt` for an object literal `table` whose
own entries are non-zero numbers. The result is the own entry when there is
one, `none` (a value that is not a number) when `key` names an inherited
member, and `dflt` otherwise. -/
def lookupOr (table : List (String × ℚ)) (key : String) (dflt : ℚ) : Option ℚ :=
  match table.lookup key with
  | some v => if v ≠ 0 then some v else some dflt
  | none => if key ∈ objectPrototypeKeys then none else some dflt

/-- Method `getConditionMultiplier`. -/
def getConditionMultiplier (condition : String) : Option ℚ :=
  lookupOr [("excellent", 1.2), ("good", 1.0), ("fair", 0.8), ("poor", 0.6)] condition 1.0

/-- Method `getConditionScore`. -/
def getConditionScore (condition : String) : Option ℚ :=
  lookupOr [("excellent", 0.95), ("good", 0.85), ("fair", 0.7), ("poor", 0.5)] condition 0.7

/-- Method `getFloorScore`. -/
def getFloorScore (floor totalFloors : ℤ) : ℚ :=
  if floor = 1 then 0.8
  else if floor = totalFloors then 0.9
  else if floor ≤ 3 then 0.95
  else if floor ≥ totalFloors - 2 then 0.85
  else 1.0

/-- The product `area * basePricePerSqm * multiplier` rounded by `Math.round`,
in the exact reading of numbers (the product itself is not rounded;
`estimatedValue64` is the double-precision reading); `NaN` when the multiplier
is not a number. -/
def roundedProduct (area basePricePerSqm : ℚ) (multiplier : Option ℚ) : Option ℤ :=
  multiplier.map (fun m => Js.round (area * basePricePerSqm * m))

/-- The expression `Math.round(estimatedValue * factor)`, in the exact reading
of numbers (`priceRange64` is the double-precision reading). -/
def roundedShare (estimatedValue : Option ℤ) (factor : ℚ) : Option ℤ :=
  estimatedValue.map (fun v => Js.round ((v : ℚ) * factor))

/-- The fallback of `getLocalValuation` (the statements after the attempt on
the server): the valuation computed from the stored record alone. -/
def localValuation (propertyId : String) (property : PropertyData) : PropertyValuation :=
  let basePricePerSqm := getBasePricePerSqm property.city property.district
  let estimatedValue :=
    roundedProduct property.area basePricePerSqm
      (getConditionMultiplier property.condition.toString)
  { propertyId := propertyId
    estimatedValue := estimatedValue
    priceRange :=
      { min := roundedShare estimatedValue 0.85
        max := roundedShare estimatedValue 1.15 }
    confidence := 0.7
    factors :=
      { location := 0.8
        area := 0.9
        condition := getConditionScore property.condition.toString
        building := 0.8
        floor := getFloorScore property.floor property.totalFloors }
    comparableProperties := []
    marketTrends :=
      { averagePricePerSqm := basePricePerSqm
        priceChangeLastMonth := 0.5
        demandLevel := .medium } }

/-- The expression `Math.round(property.area * basePricePerSqm * multiplier)`
of `getLocalValuation` in double-precision arithmetic: the area, the price and
the multiplier are numbers of the language, and a multiplier that is not a
number (`none`) makes the product `NaN`. -/
def estimatedValue64 (area basePricePerSqm : ℚ) (multiplier : Option ℚ) : Js.Number :=
  match multiplier with
  | some m => (((Js.Number.ofRat area).mul (.ofRat basePricePerSqm)).mul (.ofRat m)).round
  | none => .nan

/-- The field `estimatedValue` of the fallback of `getLocalValuation` in
double-precision arithmetic. -/
def localEstimate64 (property : PropertyData) : Js.Number :=
  estimatedValue64 property.area (getBasePricePerSqm property.city property.district)
    (getConditionMultiplier property.condition.toString)

/-- The field `priceRange` of a valuation in double-precision arithmetic. -/
structure PriceRange64 where
  min : Js.Number
  max : Js.Number

/-- The object `priceRange` that `getLocalValuation` builds from the
estimate: `Math.round(estimatedValue * 0.85)` and
`Math.round(estimatedValue * 1.15)`. -/
def priceRange64 (estimatedValue : Js.Number) : PriceRange64 where
  min := (estimatedValue.mul (.ofRat 0.85)).round
  max := (estimatedValue.mul (.ofRat 1.15)).round

/-- The quotient `Math.abs(a1 - a2) / Math.max(a1, a2)` of
`calculateSimilarity`. When the larger area is zero the numerator is not
negative and the quotient is `NaN` or `Infinity`: that is `none`, and every
`<` comparison with it is false. -/
def areaDiff (area1 area2 : ℚ) : Option ℚ :=
  if max area1 area2 = 0 then none else some (|area1 - area2| / max area1 area2)

/-- The contribution of the number of rooms in `calculateSimilarity`. -/
def roomsCredit (rooms1 rooms2 : ℤ) : ℚ :=
  if rooms1 = rooms2 then 0.25
  else if |rooms1 - rooms2| = 1 then 0.15
  else 0

/-- The contribution of the area in `calculateSimilarity`. -/
def areaCredit (area1 area2 : ℚ) : ℚ :=
  match areaDiff area1 area2 with
  | none => 0
  | some d =>
    if d < 0.1 then 0.20
    else if d < 0.2 then 0.15
    else if d < 0.3 then 0.10
    else 0

/-- The contribution of the building type in `calculateSimilarity`. -/
def buildingTypeCredit (t1 t2 : BuildingType) : ℚ :=
  if t1 = t2 then 0.15 else 0

/-- The contribution of the condition in `calculateSimilarity`. -/
def conditionCredit (c1 c2 : Condition) : ℚ :=
  if c1 = c2 then 0.15 else 0

/-- The contribution of the floor in `calculateSimilarity`. -/
def floorCredit (floor1 floor2 : ℤ) : ℚ :=
  let floorDiff := |floor1 - floor2|
  if floorDiff = 0 then 0.10
  else if floorDiff ≤ 2 then 0.05
  else 0

/-- The contribution of the number of floors in `calculateSimilarity`. -/
def totalFloorsCredit (totalFloors1 totalFloors2 : ℤ) : ℚ :=
  let totalFloorsDiff := |totalFloors1 - totalFloors2|
  if totalFloorsDiff = 0 then 0.10
  else if totalFloorsDiff ≤ 3 then 0.05
  else 0

/-- The contribution of the balcony in `calculateSimilarity`. -/
def balconyCredit (b1 b2 : Bool) : ℚ :=
  if b1 = b2 then 0.05 else 0

/-- Method `calculateSimilarity`, in the exact reading of numbers: the
accumulator `similarity` starts at zero and receives the seven contributions
in source order (the accumulator `factors` is never read). The
double-precision reading is `calculateSimilarity64`. -/
def calculateSimilarity (property1 property2 : PropertyData) : ℚ :=
  0 + roomsCredit property1.rooms property2.rooms
    + areaCredit property1.area property2.area
    + buildingTypeCredit property1.buildingType property2.buildingType
    + conditionCredit property1.condition property2.condition
    + floorCredit property1.floor property2.floor
    + totalFloorsCredit property1.totalFloors property2.totalFloors
    + balconyCredit property1.hasBalcony property2.hasBalcony

/-- The seven weights of `calculateSimilarity`, in source order: rooms, area,
building type, condition, floor, number of floors, balcony. -/
def similarityWeights : List ℚ :=
  [0.25, 0.20, 0.15, 0.15, 0.10, 0.10, 0.05]

/-- The quotient `Math.abs(area1 - area2) / Math.max(area1, area2)` of
`calculateSimilarity` in double-precision arithmetic. -/
def areaDiff64 (area1 area2 : ℚ) : Js.Number :=
  (((Js.Number.ofRat area1).sub (.ofRat area2)).abs).div
    ((Js.Number.ofRat area1).max (.ofRat area2))

/-- The literal that `calculateSimilarity` adds for the area, the quotient
being the double-precision one; 0 when none of the three comparisons holds. -/
def areaCredit64 (area1 area2 : ℚ) : ℚ :=
  let areaDiff := areaDiff64 area1 area2
  if areaDiff.lt (.ofRat 0.1) then 0.20
  else if areaDiff.lt (.ofRat 0.2) then 0.15
  else if areaDiff.lt (.ofRat 0.3) then 0.10
  else 0

/-- The statement `similarity += credit` in double-precision arithmetic,
`credit` being the literal of the branch taken; a `credit` of 0 stands for no
branch taken, which leaves `similarity` as it is. -/
def addCredit (similarity credit : ℚ) : ℚ :=
  if credit = 0 then similarity else Js.fl (similarity + Js.fl credit)

/-- Method `calculateSimilarity` in double-precision arithmetic: the
accumulator `similarity` starts at zero and receives, in source order, the
literal of the branch taken in each of the seven comparisons, every sum being
rounded to a double. -/
def calculateSimilarity64 (property1 property2 : PropertyData) : ℚ :=
  addCredit (addCredit (addCredit (addCredit (addCredit (addCredit (addCredit 0
    (roomsCredit property1.rooms property2.rooms))
    (areaCredit64 property1.area property2.area))
    (buildingTypeCredit property1.buildingType property2.buildingType))
    (conditionCredit property1.condition property2.condition))
    (floorCredit property1.floor property2.floor))
    (totalFloorsCredit property1.totalFloors property2.totalFloors))
    (balconyCredit property1.hasBalcony property2.hasBalcony)

/-- The remote service as the methods see it: the outcome of the request
number `n` made since the start, `none` when that request fails (network
error, status that is not a success, timeout). -/
structure Remote where
  valuation : ℕ → String → Option PropertyValuation
  property : ℕ → String → Option PropertyData

/-- The object kept under the key `savedProperties` of the local storage, as
a list of entries. -/
abbrev Store := List (String × PropertyData)

/-- Method `getSavedProperties` followed by `savedProperties[propertyId] ||
null`, for an id that does not name a member of `Object.prototype`. -/
def getSaved (store : Store) (propertyId : String) : Option PropertyData :=
  store.lookup propertyId

/-- Method `getProperty` started when `clock` requests have been made: the
record (`none` is `null`) and the number of requests made afterwards. -/
def getProperty (remote : Remote) (store : Store) (clock : ℕ) (propertyId : String) :
    Option PropertyData × ℕ :=
  match remote.property clock propertyId with
  | some data => (some data, clock + 1)
  | none => (getSaved store propertyId, clock + 1)

/-- How a promise of a valuation settles: fulfilled with a value or rejected
with an `Error` carrying a message. -/
abbrev Settled := Except String PropertyValuation

mutual

/-- Method `getValuation` started when `clock` requests have been made. The
inner `catch` returns the promise of `getLocalValuation` without awaiting
it, so a rejection of that promise passes to the caller as it is. -/
def getValuation (remote : Remote) (store : Store) :
    ℕ → ℕ → String → Option (Settled × ℕ)
  | 0, _, _ => none
  | fuel + 1, clock, propertyId =>
    match remote.valuation clock propertyId with
    | some data => some (.ok data, clock + 1)
    | none => getLocalValuation remote store fuel (clock + 1) propertyId

/-- Method `getLocalValuation` started when `clock` requests have been
made. -/
def getLocalValuation (remote : Remote) (store : Store) :
    ℕ → ℕ → String → Option (Settled × ℕ)
  | 0, _, _ => none
  | fuel + 1, clock, propertyId =>
    match getProperty remote store clock propertyId with
    | (none, clock1) => some (.error "Дані про нерухомість не знайдені", clock1)
    | (some property, clock1) =>
      match getValuation remote store fuel clock1 propertyId with
      | none => none
      | some (.ok serverValuation, clock2) => some (.ok serverValuation, clock2)
      | some (.error _, clock2) => some (.ok (localValuation propertyId property), clock2)

end

/-- The names of the four conditions that the tables of the service list. -/
def conditionNames : List String :=
  ["excellent", "good", "fair", "poor"]

/-- The condition multiplier as the specification tabulates it: excellent
1.20, good 1.00, fair 0.80, poor 0.60. -/
def specConditionMultiplier : Condition → ℚ
  | .excellent => 1.20
  | .good => 1.00
  | .fair => 0.80
  | .poor => 0.60

/-- A remote service whose every request fails. -/
def unreachableRemote : Remote where
  valuation := fun _ _ => none
  property := fun _ _ => none

/-- A record of 60 square metres in good condition in Kharkiv, in a district
that the gazetteer does not list. -/
def sampleProperty : PropertyData where
  id := some "prop_1"
  city := "Харків"
  district := "Невідомий"
  address := "вул. Сумська, 1"
  fullAddress := none
  area := 60
  rooms := 2
  floor := 5
  totalFloors := 10
  buildingType := .brick
  yearBuilt := none
  condition := .good
  hasBalcony := true
  hasElevator := true
  heating := .central
  description := none
  coordinates := none
  pricePerSqm := none
  distanceToCenter := none
  similarProperties := none

/-- A local store that holds `sampleProperty` under its id. -/
def sampleStore : Store :=
  [("prop_1", sampleProperty)]

/-- A record of 45 square metres in good condition in the district
«Основ'янський» of Kharkiv. -/
def bandProperty : PropertyData :=
  { sampleProperty with id := some "prop_3", district := "Основ'янський", area := 45 }

/-- The gazetteer names under whose exact spelling `getBasePricePerSqm`
finds an earlier entry that merely contains them. -/
def shadowedNames : List String :=
  ["Журавлівка", "2-ий мікрорайон", "1-ий мікрорайон"]

end PropertyService

namespace Js

/-- The call `Array.prototype.slice(0, end)` for an integer `end`: a negative
`end` counts from the end of the array. -/
def sliceTo {α : Type} (xs : List α) (stop : ℤ) : List α :=
  if stop < 0 then xs.take ((xs.length : ℤ) + stop).toNat else xs.take stop.toNat

/-- The function `Math.atan2` on real numbers: the angle of the point
`(x, y)`, zero at the origin. -/
noncomputable def atan2 (y x : ℝ) : ℝ :=
  Complex.arg ⟨x, y⟩

/-- The constant `Math.PI`: the binary64 value nearest to π. -/
def PI : ℚ :=
  884279719003555 / 281474976710656

/-- The functions of `Math` whose results the language leaves to the
implementation, which is to return an approximation of the exact result: the
sine, the cosine and the square root at a finite argument (the square root at
one that is not negative), and `atan2` at arguments that are not `NaN`. -/
structure MathLibrary where
  sin : ℚ → ℚ
  cos : ℚ → ℚ
  sqrt : ℚ → ℚ
  atan2 : Number → Number → Number

namespace Number

/-- The function `Math.sin`: `NaN` at `NaN` and at an infinity. -/
def sin (math : MathLibrary) : Number → Number
  | finite x => finite (math.sin x)
  | _ => nan

/-- The function `Math.cos`: `NaN` at `NaN` and at an infinity. -/
def cos (math : MathLibrary) : Number → Number
  | finite x => finite (math.cos x)
  | _ => nan

/-- The function `Math.sqrt`: `NaN` at `NaN` and at a negative argument. -/
def sqrt (math : MathLibrary) : Number → Number
  | nan => nan
  | infinity s => if s then nan else infinity false
  | finite x => if x < 0 then nan else finite (math.sqrt x)

/-- The function `Math.atan2`: `NaN` when an argument is `NaN`. -/
def atan2 (math : MathLibrary) : Number → Number → Number
  | nan, _ => nan
  | _, nan => nan
  | y, x => math.atan2 y x

end Number

end Js

namespace GeocodingService

/-- Method `calculateDistance`, over the reals (the exact reading; the
double-precision reading is `calculateDistance64`). -/
noncomputable def calculateDistance (lat1 lon1 lat2 lon2 : ℝ) : ℝ :=
  let R : ℝ := 6371000
  let φ1 := lat1 * Real.pi / 180
  let φ2 := lat2 * Real.pi / 180
  let Δφ := (lat2 - lat1) * Real.pi / 180
  let Δl := (lon2 - lon1) * Real.pi / 180
  let a := Real.sin (Δφ / 2) * Real.sin (Δφ / 2) +
    Real.cos φ1 * Real.cos φ2 * Real.sin (Δl / 2) * Real.sin (Δl / 2)
  let c := 2 * Js.atan2 (Real.sqrt a) (Real.sqrt (1 - a))
  R * c

/-- The element type of the argument `properties` of `findNearbyProperties`;
an `id` that is `undefined` is `none`. -/
structure Candidate where
  latitude : ℝ
  longitude : ℝ
  id : Option String

/-- The element type of the result of `findNearbyProperties`. -/
structure Nearby where
  id : Option String
  distance : ℝ

/-- The callback of `map` in `findNearbyProperties`. -/
noncomputable def toNearby (latitude longitude : ℝ) (property : Candidate) : Nearby where
  id := property.id
  distance := calculateDistance latitude longitude property.latitude property.longitude

/-- The order that the comparator `a.distance - b.distance` induces. -/
def byDistance (a b : Nearby) : Prop :=
  a.distance ≤ b.distance

noncomputable instance : DecidableRel byDistance :=
  fun a b => inferInstanceAs (Decidable (a.distance ≤ b.distance))

/-- Method `findNearbyProperties`. The method `Array.prototype.sort` is
stable, so it returns what the insertion sort returns. -/
noncomputable def findNearbyProperties (latitude longitude : ℝ) (properties : List Candidate)
    (radiusMeters : ℝ) : List Nearby :=
  (((properties.map (toNearby latitude longitude)).filter
    (fun property => decide (property.distance ≤ radiusMeters))).insertionSort byDistance)

instance : IsTotal Nearby byDistance :=
  ⟨fun a b => le_total a.distance b.distance⟩

instance : IsTrans Nearby byDistance :=
  ⟨fun _ _ _ hab hbc => le_trans hab hbc⟩

end GeocodingService

namespace PropertyService

/-- An element of the result of `findSimilarProperties`: the fields of the
stored record (the spread `...p`) with `distance` and `similarity`; a
`distance` of `Infinity` is `⊤`. -/
structure SimilarProperty where
  property : PropertyData
  distance : WithTop ℝ
  similarity : ℚ

/-- Method `calculateDistanceToProperty`. -/
noncomputable def calculateDistanceToProperty (property1 property2 : PropertyData) :
    WithTop ℝ :=
  match property1.coordinates, property2.coordinates with
  | some c1, some c2 =>
    ((GeocodingService.calculateDistance c1.latitude c1.longitude c2.latitude c2.longitude : ℝ) :
      WithTop ℝ)
  | _, _ => ⊤

/-- The property key that an `id` used as an index denotes: `undefined`
is converted to the string `undefined`. -/
def storeKey (id : Option String) : String :=
  id.getD "undefined"

/-- The expression `Object.values(savedProperties)`, the store being listed
in its enumeration order. -/
def storeValues (store : Store) : List PropertyData :=
  store.map Prod.snd

/-- The callback that turns a record with coordinates into an argument of
`findNearbyProperties`. -/
def toCandidate (p : PropertyData) : Option GeocodingService.Candidate :=
  p.coordinates.map (fun c => ⟨(c.latitude : ℝ), (c.longitude : ℝ), p.id⟩)

/-- The order that the comparator `b.similarity - a.similarity` induces. -/
def bySimilarityDesc (a b : SimilarProperty) : Prop :=
  a.similarity ≥ b.similarity

instance : DecidableRel bySimilarityDesc :=
  fun a b => inferInstanceAs (Decidable (a.similarity ≥ b.similarity))

/-- The array `allProperties` of `findSimilarProperties`. -/
def otherPropertiesWithCoordinates (store : Store) (propertyId : String) : List PropertyData :=
  (storeValues store).filter (fun p => decide (p.id ≠ some propertyId) && p.coordinates.isSome)

/-- The array `nearbyProperties` of `findSimilarProperties`, before the call
of `slice`. -/
noncomputable def nearbyOf (store : Store) (propertyId : String) (origin : Coordinates)
    (radiusMeters : ℝ) : List GeocodingService.Nearby :=
  GeocodingService.findNearbyProperties origin.latitude origin.longitude
    ((otherPropertiesWithCoordinates store propertyId).filterMap toCandidate) radiusMeters

/-- The records `savedProperties[id]` for the entries of `nearbyProperties`;
`none` when one of them is `undefined`, on which `calculateSimilarity`
throws. -/
def fetchRecords (store : Store) : List GeocodingService.Nearby → Option (List PropertyData)
  | [] => some []
  | entry :: rest =>
    match getSaved store (storeKey entry.id), fetchRecords store rest with
    | some p, some ps => some (p :: ps)
    | _, _ => none

/-- The chain `filter`, `map`, `sort` that ends `findSimilarProperties`; the
similarity is the double that `calculateSimilarity` returns, and it is
compared with the double 0.6. -/
noncomputable def rankSimilar (property : PropertyData) (records : List PropertyData) :
    List SimilarProperty :=
  (((records.filter (fun p => decide (calculateSimilarity64 property p > Js.fl 0.6))).map
    (fun p => (⟨p, calculateDistanceToProperty property p, calculateSimilarity64 property p⟩ :
      SimilarProperty))).insertionSort bySimilarityDesc)

/-- Method `findSimilarProperties`, started when `clock` requests have been
made. An exception raised on the way is caught and gives the empty array. -/
noncomputable def findSimilarProperties (remote : Remote) (store : Store) (clock : ℕ)
    (propertyId : String) (radiusMeters : ℝ) (maxResults : ℤ) : List SimilarProperty :=
  match (getProperty remote store clock propertyId).1 with
  | none => []
  | some property =>
    match property.coordinates with
    | none => []
    | some origin =>
      match fetchRecords store
          (Js.sliceTo (nearbyOf store propertyId origin radiusMeters) maxResults) with
      | none => []
      | some records => rankSimilar property records

/-- Method `getPropertiesInRadius`; an element `undefined` of the result is
`none`. -/
noncomputable def getPropertiesInRadius (store : Store) (latitude longitude radiusMeters : ℝ)
    (limit : ℤ) : List (Option PropertyData) :=
  (Js.sliceTo
    (GeocodingService.findNearbyProperties latitude longitude
      (((storeValues store).filter (fun p => p.coordinates.isSome)).filterMap toCandidate)
      radiusMeters) limit).map (fun entry => getSaved store (storeKey entry.id))

instance : IsTotal SimilarProperty bySimilarityDesc :=
  ⟨fun a b => le_total b.similarity a.similarity⟩

instance : IsTrans SimilarProperty bySimilarityDesc :=
  ⟨fun _ _ _ hab hbc => le_trans hbc hab⟩

/-- The record `a` of the fixture: two rooms and 50 square metres. -/
def twoRoomProperty : PropertyData :=
  { sampleProperty with id := some "prop_2", rooms := 2, area := 50 }

/-- The record `b` of the fixture: as `twoRoomProperty` but with three
rooms. -/
def threeRoomProperty : PropertyData :=
  { twoRoomProperty with rooms := 3 }

/-- The array that `getPropertiesInRadius` passes to `slice`. -/
noncomputable def nearbyInRadius (store : Store) (latitude longitude radiusMeters : ℝ) :
    List GeocodingService.Nearby :=
  GeocodingService.findNearbyProperties latitude longitude
    (((storeValues store).filter (fun p => p.coordinates.isSome)).filterMap toCandidate)
    radiusMeters

/-- The distance from an origin to an element of the result of
`getPropertiesInRadius`; `⊤` when the element is `undefined` or has no
coordinates. -/
noncomputable def distanceFromOrigin (latitude longitude : ℝ) (record : Option PropertyData) :
    WithTop ℝ :=
  match record.bind (fun p => p.coordinates) with
  | some c =>
    ((GeocodingService.calculateDistance latitude longitude c.latitude c.longitude : ℝ) :
      WithTop ℝ)
  | none => ⊤

/-- A subject with coordinates, stored under the key `s`. -/
def mapSubject : PropertyData :=
  { sampleProperty with id := some "s", coordinates := some ⟨50, 36⟩ }

/-- A record like `mapSubject`, at the same place, with the id `a`. -/
def mapNeighbourA : PropertyData :=
  { mapSubject with id := some "a" }

/-- A record like `mapSubject`, at the same place, with the id `b`. -/
def mapNeighbourB : PropertyData :=
  { mapSubject with id := some "b" }

/-- A store of three records at one place, each under its own id. -/
def mapStore : Store :=
  [("s", mapSubject), ("a", mapNeighbourA), ("b", mapNeighbourB)]

/-- The subject of the fixture as `saveProperty` stores it: `mapSubject` with
its address as full address. -/
def storedSubject : PropertyData :=
  { mapSubject with fullAddress := some "вул. Сумська, 1" }

/-- A stored record equal to `storedSubject` but for its id `a`. -/
def storedTwin : PropertyData :=
  { storedSubject with id := some "a" }

/-- A stored record with the id `u` at the place of `storedSubject`: a panel
building of 12 floors in poor condition, without balcony. Against the subject
it takes the branches that add 0.25, 0.20, 0.10 and 0.05. -/
def storedBoundary : PropertyData :=
  { storedSubject with
    id := some "u", buildingType := .panel, condition := .poor, totalFloors := 12,
    hasBalcony := false }

/-- A stored record with the id `v` at the place of `storedSubject`: in poor
condition, on floor 9 of 16, without balcony. Against the subject it takes
the branches that add 0.25, 0.20 and 0.15. -/
def storedBelow : PropertyData :=
  { storedSubject with
    id := some "v", condition := .poor, floor := 9, totalFloors := 16, hasBalcony := false }

/-- A store that holds the four stored records of the fixture, each under its
id, in the order in which they were saved. -/
def savedStore : Store :=
  [("s", storedSubject), ("a", storedTwin), ("u", storedBoundary), ("v", storedBelow)]

end PropertyService

namespace GeocodingService

/-- The haversine term `a` of `calculateDistance`. -/
noncomputable def haversineTerm (lat1 lon1 lat2 lon2 : ℝ) : ℝ :=
  let φ1 := lat1 * Real.pi / 180
  let φ2 := lat2 * Real.pi / 180
  let Δφ := (lat2 - lat1) * Real.pi / 180
  let Δl := (lon2 - lon1) * Real.pi / 180
  Real.sin (Δφ / 2) * Real.sin (Δφ / 2) +
    Real.cos φ1 * Real.cos φ2 * Real.sin (Δl / 2) * Real.sin (Δl / 2)

/-- The haversine term `a` of `calculateDistance`, in the double-precision
arithmetic of the language. -/
def haversineTerm64 (math : Js.MathLibrary) (lat1 lon1 lat2 lon2 : Js.Number) : Js.Number :=
  let pi := Js.Number.finite Js.PI
  let φ1 := (lat1.mul pi).div (.ofRat 180)
  let φ2 := (lat2.mul pi).div (.ofRat 180)
  let Δφ := ((lat2.sub lat1).mul pi).div (.ofRat 180)
  let Δl := ((lon2.sub lon1).mul pi).div (.ofRat 180)
  (((Δφ.div (.ofRat 2)).sin math).mul ((Δφ.div (.ofRat 2)).sin math)).add
    (((((φ1.cos math).mul (φ2.cos math))).mul ((Δl.div (.ofRat 2)).sin math)).mul
      ((Δl.div (.ofRat 2)).sin math))

/-- Method `calculateDistance`, in the double-precision arithmetic of the
language. -/
def calculateDistance64 (math : Js.MathLibrary) (lat1 lon1 lat2 lon2 : Js.Number) : Js.Number :=
  let R := Js.Number.ofRat 6371000
  let a := haversineTerm64 math lat1 lon1 lat2 lon2
  let c := (Js.Number.ofRat 2).mul
    (Js.Number.atan2 math (a.sqrt math) (((Js.Number.ofRat 1).sub a).sqrt math))
  R.mul c

/-- A library that returns the binary64 values nearest to the exact sine and
cosine at the arguments that `calculateDistance(87.5, 0, -87.5, 180)` passes
to it. -/
def sampleLibrary : Js.MathLibrary where
  sin x :=
    if x = -(6877731147805427 / 4503599627370496) then
      -(8998626396882423 / 9007199254740992)
    else if x = 884279719003555 / 562949953421312 then 1
    else 0
  cos x :=
    if x = 6877731147805427 / 4503599627370496 ∨ x = -(6877731147805427 / 4503599627370496) then
      3143108106954521 / 72057594037927936
    else 1
  sqrt x := x
  atan2 _ _ := .finite 0

end GeocodingService

namespace PropertyService

/-- The rank of a condition in the order excellent > good > fair > poor. -/
def Condition.rank : Condition → ℕ
  | .excellent => 3
  | .good => 2
  | .fair => 1
  | .poor => 0

/-- A record like `sampleProperty` with an area of −5. -/
def negativeAreaProperty : PropertyData :=
  { sampleProperty with area := -5 }

/-- The geocoder as `saveProperty` sees it: the coordinates that
`GeocodingService.geocodeAddress` finds for an address and a city, `none`
when it returns `null` (no result, or a failed request, which it catches). -/
abbrev Geocoder := String → String → Option Coordinates

/-- The id under which `saveProperty` stores a record: its own `id` when that
is truthy, otherwise the id that `generateId` has produced. -/
def saveId (propertyData : PropertyData) (generatedId : String) : String :=
  match propertyData.id with
  | some id => if id ≠ "" then id else generatedId
  | none => generatedId

/-- The expression `propertyData.fullAddress || alternative`. -/
def fullAddressOr (propertyData : PropertyData) (alternative : String) : String :=
  match propertyData.fullAddress with
  | some full => if full ≠ "" then full else alternative
  | none => alternative

/-- The value of `coordinates` when `saveProperty` builds the record: the
coordinates of the input when it has some; otherwise, when the address or the
full address is not empty, what the geocoder finds. -/
def saveCoordinates (geocode : Geocoder) (propertyData : PropertyData) : Option Coordinates :=
  match propertyData.coordinates with
  | some c => some c
  | none =>
    if propertyData.address ≠ "" ∨ fullAddressOr propertyData "" ≠ "" then
      geocode (fullAddressOr propertyData (propertyData.address ++ ", " ++ propertyData.city))
        propertyData.city
    else none

/-- The object `propertyToSave` of `saveProperty`, without its property
`createdAt`, which is not a field of `PropertyData` and which no method
reads. -/
def propertyToSave (geocode : Geocoder) (propertyData : PropertyData) (propertyId : String) :
    PropertyData :=
  { propertyData with
    id := some propertyId
    coordinates := saveCoordinates geocode propertyData
    fullAddress := some (fullAddressOr propertyData propertyData.address) }

/-- The assignment `savedProperties[key] = value`, for a key that does not
name a member of `Object.prototype`: an entry under `key` is replaced where
it stands, a new entry comes last (the ids of the application are not array
indices, which would be enumerated first). -/
def setEntry (store : Store) (key : String) (value : PropertyData) : Store :=
  if store.any (fun entry => entry.1 == key) then
    store.map (fun entry => if entry.1 = key then (key, value) else entry)
  else store ++ [(key, value)]

/-- Method `saveProperty`, `store` being the object that its call of
`getSavedProperties` returns: the id returned and the object written, or the
`Error` thrown when writing the local storage fails (`writeOk` false). The
request that posts the record to the server changes nothing here, failed or
not. -/
def saveProperty (geocode : Geocoder) (store : Store) (propertyData : PropertyData)
    (generatedId : String) (writeOk : Bool) : Except String (String × Store) :=
  let propertyId := saveId propertyData generatedId
  if writeOk then
    .ok (propertyId, setEntry store propertyId (propertyToSave geocode propertyData propertyId))
  else .error "Не вдалося зберегти дані про нерухомість"

/-- A geocoder that finds nothing. -/
def noGeocoder : Geocoder :=
  fun _ _ => none

/-- Method `getSavedProperties`: the object parsed from the item
`savedProperties` of the local storage, whose entries are `contents`; the
empty object when reading the item fails (`readOk` false), which the method
catches. -/
def getSavedProperties (contents : Store) (readOk : Bool) : Store :=
  if readOk then contents else []

/-- The objects that the item `savedProperties` of the local storage can
hold. The item is absent at first, and again after the settings screen has
cleared the storage, which reads as the empty object; `saveProperty` is the
only method that writes it, with the object that it has read, or the empty
object when reading failed, and the new entry. -/
inductive Reachable : Store → Prop where
  | empty : Reachable []
  | save (geocode : Geocoder) (contents : Store) (readOk : Bool) (propertyData : PropertyData)
      (generatedId propertyId : String) (stored : Store) :
      Reachable contents →
      saveProperty geocode (getSavedProperties contents readOk) propertyData generatedId true =
        .ok (propertyId, stored) →
      Reachable stored

/-- The record `savedProperties[id]` that `findSimilarProperties` fetches for
an entry of `nearbyProperties`. -/
def fetched (store : Store) (entry : GeocodingService.Nearby) : Option PropertyData :=
  getSaved store (storeKey entry.id)

end PropertyService

/-! ## Properties of the embedding -/

namespace Js

/-! ### Rounding to a double -/

theorem roundHalfEven_le {q : ℚ} {j : ℤ} (h : q ≤ j) : roundHalfEven q ≤ j := by
  have hfl : (⌊q⌋ : ℚ) ≤ q := Int.floor_le q
  have h1 : ⌊q⌋ ≤ j := by exact_mod_cast hfl.trans h
  unfold roundHalfEven
  split_ifs with h2 h3 h4
  · exact h1
  · have : (⌊q⌋ : ℚ) < j := by linarith
    have : ⌊q⌋ < j := by exact_mod_cast this
    omega
  · exact h1
  · have hq : q - ⌊q⌋ = 1 / 2 := le_antisymm (not_lt.mp h3) (not_lt.mp h2)
    have : (⌊q⌋ : ℚ) < j := by linarith
    have : ⌊q⌋ < j := by exact_mod_cast this
    omega

theorem le_roundHalfEven {q : ℚ} {j : ℤ} (h : (j : ℚ) ≤ q) : j ≤ roundHalfEven q := by
  have h1 : j ≤ ⌊q⌋ := Int.le_floor.mpr h
  unfold roundHalfEven
  split_ifs <;> omega

theorem roundHalfEven_intCast (n : ℤ) : roundHalfEven (n : ℚ) = n :=
  le_antisymm (roundHalfEven_le le_rfl) (le_roundHalfEven le_rfl)

theorem roundHalfEven_eq_of_lt (q : ℚ) (n : ℤ) (h1 : (n : ℚ) - 1 / 2 < q)
    (h2 : q < n + 1 / 2) : roundHalfEven q = n := by
  unfold roundHalfEven
  have hfl := Int.floor_le q
  have hlt := Int.lt_floor_add_one q
  have hn1 : n - 1 < ⌊q⌋ + 1 := by
    have : ((n - 1 : ℤ) : ℚ) < ((⌊q⌋ + 1 : ℤ) : ℚ) := by push_cast; linarith
    exact_mod_cast this
  have hn2 : ⌊q⌋ < n + 1 := by
    have : ((⌊q⌋ : ℤ) : ℚ) < ((n + 1 : ℤ) : ℚ) := by push_cast; linarith
    exact_mod_cast this
  have hcase : ⌊q⌋ = n ∨ ⌊q⌋ = n - 1 := by omega
  rcases hcase with h | h
  · have : q - ⌊q⌋ < 1 / 2 := by rw [h]; linarith
    rw [if_pos this, h]
  · have h3 : ¬ q - ⌊q⌋ < 1 / 2 := by rw [h]; push_cast; linarith
    have h4 : 1 / 2 < q - ⌊q⌋ := by rw [h]; push_cast; linarith
    rw [if_neg h3, if_pos h4, h]
    ring

theorem two_zpow_pos (e : ℤ) : (0 : ℚ) < 2 ^ e :=
  zpow_pos (by norm_num) e

theorem exists_grid (m e' e : ℤ) (h : e ≤ e') : ∃ j : ℤ, (m : ℚ) * 2 ^ e' = j * 2 ^ e := by
  refine ⟨m * 2 ^ (e' - e).toNat, ?_⟩
  have h1 : e' = ((e' - e).toNat : ℤ) + e := by
    rw [Int.toNat_of_nonneg (by omega)]; ring
  have h2 : (2 : ℚ) ^ e' = 2 ^ (e' - e).toNat * 2 ^ e := by
    conv_lhs => rw [h1]
    rw [zpow_add₀ (by norm_num), zpow_natCast]
  rw [h2]
  push_cast
  ring

theorem ulpExponent_le {x : ℚ} (hx : 0 < x) {m e' : ℤ} (hm : |m| < 2 ^ 53) (he : -1074 ≤ e')
    (h : x ≤ m * 2 ^ e') : ulpExponent x ≤ e' := by
  unfold ulpExponent
  apply max_le _ he
  have hm2 : (m : ℚ) < 2 ^ 53 := by
    have : m < 2 ^ 53 := lt_of_le_of_lt (le_abs_self m) hm
    exact_mod_cast this
  have hlt : |x| < ((2 : ℕ) : ℚ) ^ (e' + 53) := by
    rw [abs_of_pos hx, Nat.cast_ofNat, zpow_add₀ (by norm_num)]
    calc x ≤ m * 2 ^ e' := h
      _ < 2 ^ 53 * 2 ^ e' := by
        apply mul_lt_mul_of_pos_right hm2 (two_zpow_pos e')
      _ = 2 ^ e' * 2 ^ (53 : ℤ) := by
        rw [mul_comm]; norm_num
  have := (Int.lt_zpow_iff_log_lt (by norm_num : 1 < 2) (abs_pos.mpr hx.ne')).mp hlt
  omega

theorem fl_le_of_le {x d : ℚ} (hx : 0 < x) (hd : Representable d) (h : x ≤ d) : fl x ≤ d := by
  obtain ⟨m, e', hm, he, rfl⟩ := hd
  obtain ⟨j, hj⟩ := exists_grid m e' (ulpExponent x) (ulpExponent_le hx hm he h)
  rw [hj] at h ⊢
  unfold fl
  apply mul_le_mul_of_nonneg_right _ (two_zpow_pos _).le
  have : roundHalfEven (x / 2 ^ ulpExponent x) ≤ j := by
    apply roundHalfEven_le
    rwa [div_le_iff₀ (two_zpow_pos _)]
  exact_mod_cast this

theorem fl_nonneg {x : ℚ} (hx : 0 ≤ x) : 0 ≤ fl x := by
  unfold fl
  apply mul_nonneg _ (two_zpow_pos _).le
  have : (0 : ℤ) ≤ roundHalfEven (x / 2 ^ ulpExponent x) := by
    apply le_roundHalfEven
    simpa using div_nonneg hx (two_zpow_pos _).le
  exact_mod_cast this

theorem zpow_log_le {x : ℚ} (hx : 0 < x) : (2 : ℚ) ^ Int.log 2 |x| ≤ x := by
  have := Int.zpow_log_le_self (by norm_num : 1 < 2) (abs_pos.mpr hx.ne')
  rw [Nat.cast_ofNat] at this
  exact this.trans (abs_of_pos hx).le

theorem lt_zpow_log_succ {x : ℚ} (_hx : 0 < x) : x < (2 : ℚ) ^ (Int.log 2 |x| + 1) := by
  have := Int.lt_zpow_succ_log_self (by norm_num : 1 < 2) |x|
  rw [Nat.cast_ofNat] at this
  exact lt_of_le_of_lt (le_abs_self x) this

theorem le_fl_of_le {x d : ℚ} (hd0 : 0 < d) (hd : Representable d) (h : d ≤ x) : d ≤ fl x := by
  have hx : 0 < x := lt_of_lt_of_le hd0 h
  obtain ⟨m, e', hm, he, rfl⟩ := hd
  by_cases hcase : ulpExponent x ≤ e'
  · obtain ⟨j, hj⟩ := exists_grid m e' (ulpExponent x) hcase
    rw [hj] at h ⊢
    unfold fl
    apply mul_le_mul_of_nonneg_right _ (two_zpow_pos _).le
    have : j ≤ roundHalfEven (x / 2 ^ ulpExponent x) := by
      apply le_roundHalfEven
      rwa [le_div_iff₀ (two_zpow_pos _)]
    exact_mod_cast this
  · have hk : ulpExponent x = Int.log 2 |x| - 52 := by
      unfold ulpExponent at hcase ⊢
      rcases max_cases (Int.log 2 |x| - 52) (-1074) with ⟨h1, -⟩ | ⟨h1, -⟩
      · exact h1
      · rw [h1] at hcase; omega
    have hm2 : (m : ℚ) < 2 ^ 53 := by
      have : m < 2 ^ 53 := lt_of_le_of_lt (le_abs_self m) hm
      exact_mod_cast this
    have h1 : (m : ℚ) * 2 ^ e' < 2 ^ (ulpExponent x + 52) := by
      calc (m : ℚ) * 2 ^ e' < 2 ^ 53 * 2 ^ e' :=
            mul_lt_mul_of_pos_right hm2 (two_zpow_pos e')
        _ = 2 ^ (e' + 53) := by
            rw [zpow_add₀ (by norm_num), mul_comm]; norm_num
        _ ≤ 2 ^ (ulpExponent x + 52) := zpow_le_zpow_right₀ (by norm_num) (by omega)
    have h2 : (2 : ℚ) ^ (ulpExponent x + 52) ≤ fl x := by
      unfold fl
      rw [zpow_add₀ (by norm_num), mul_comm]
      apply mul_le_mul_of_nonneg_right _ (two_zpow_pos _).le
      have h3 : ((2 : ℤ) ^ 52 : ℤ) ≤ roundHalfEven (x / 2 ^ ulpExponent x) := by
        apply le_roundHalfEven
        rw [le_div_iff₀ (two_zpow_pos _)]
        have h4 := zpow_log_le hx
        have h5 : Int.log 2 |x| = ulpExponent x + 52 := by omega
        rw [h5, zpow_add₀ (by norm_num), mul_comm] at h4
        push_cast
        norm_num at h4 ⊢
        linarith
      have h6 : (((2 : ℤ) ^ 52 : ℤ) : ℚ) ≤ (roundHalfEven (x / 2 ^ ulpExponent x) : ℚ) := by
        exact_mod_cast h3
      push_cast at h6
      norm_num at h6 ⊢
      exact h6
    linarith

theorem fl_eq_self {d : ℚ} (hd0 : 0 ≤ d) (hd : Representable d) : fl d = d := by
  rcases hd0.eq_or_lt with h | h
  · subst h
    simp [fl, roundHalfEven]
  · exact le_antisymm (fl_le_of_le h hd le_rfl) (le_fl_of_le h hd le_rfl)

theorem representable_fl {y : ℚ} (hy : 0 ≤ y) : Representable (fl y) := by
  rcases hy.eq_or_lt with h | h
  · subst h
    exact ⟨0, 0, by norm_num, by norm_num, by simp [fl, roundHalfEven]⟩
  · have he : -1074 ≤ ulpExponent y := le_max_right _ _
    have hk : Int.log 2 |y| - 52 ≤ ulpExponent y := le_max_left _ _
    have hn0 : 0 ≤ roundHalfEven (y / 2 ^ ulpExponent y) := by
      apply le_roundHalfEven
      simpa using div_nonneg h.le (two_zpow_pos _).le
    have hn1 : roundHalfEven (y / 2 ^ ulpExponent y) ≤ 2 ^ 53 := by
      apply roundHalfEven_le
      rw [div_le_iff₀ (two_zpow_pos _)]
      have h1 := lt_zpow_log_succ h
      have h2 : (2 : ℚ) ^ (Int.log 2 |y| + 1) ≤ 2 ^ (ulpExponent y + 53) :=
        zpow_le_zpow_right₀ (by norm_num) (by omega)
      have h3 : (2 : ℚ) ^ (ulpExponent y + 53) = 2 ^ 53 * 2 ^ ulpExponent y := by
        rw [zpow_add₀ (by norm_num), mul_comm]; norm_num
      rw [h3] at h2
      push_cast
      linarith
    rcases hn1.eq_or_lt with heq | hlt
    · refine ⟨2 ^ 52, ulpExponent y + 1, by norm_num, by omega, ?_⟩
      unfold fl
      rw [heq, zpow_add₀ (by norm_num)]
      push_cast
      ring
    · exact ⟨_, ulpExponent y, by rw [abs_of_nonneg hn0]; exact hlt, he, rfl⟩

theorem representable_round {t : ℚ} (ht0 : 0 ≤ t) (ht : Representable t) :
    Representable (⌊t + 1 / 2⌋ : ℚ) ∧ (((⌊t + 1 / 2⌋ : ℤ) : ℚ) = t ∨ ⌊t + 1 / 2⌋ ≤ 2 ^ 52) := by
  obtain ⟨m, e, hm, he, rfl⟩ := ht
  by_cases hcase : 0 ≤ e
  · have h1 : ((m : ℚ) * 2 ^ e) = ((m * 2 ^ e.toNat : ℤ) : ℚ) := by
      conv_lhs => rw [← Int.toNat_of_nonneg hcase, zpow_natCast]
      push_cast
      ring
    have h2 : ⌊(m : ℚ) * 2 ^ e + 1 / 2⌋ = m * 2 ^ e.toNat := by
      rw [h1, Int.floor_eq_iff]
      constructor <;> linarith
    rw [h2]
    exact ⟨⟨m, e, hm, he, h1.symm⟩, Or.inl h1.symm⟩
  · have hm2 : (m : ℚ) < 2 ^ 53 := by
      have : m < 2 ^ 53 := lt_of_le_of_lt (le_abs_self m) hm
      exact_mod_cast this
    have h1 : (m : ℚ) * 2 ^ e < 2 ^ 52 := by
      calc (m : ℚ) * 2 ^ e < 2 ^ 53 * 2 ^ e := mul_lt_mul_of_pos_right hm2 (two_zpow_pos e)
        _ ≤ 2 ^ 53 * 2 ^ (-1 : ℤ) := by
            apply mul_le_mul_of_nonneg_left _ (by norm_num)
            exact zpow_le_zpow_right₀ (by norm_num) (by omega)
        _ = 2 ^ 52 := by norm_num
    have h2 : ⌊(m : ℚ) * 2 ^ e + 1 / 2⌋ ≤ 2 ^ 52 := by
      have : ⌊(m : ℚ) * 2 ^ e + 1 / 2⌋ < 2 ^ 52 + 1 := by
        rw [Int.floor_lt]
        push_cast
        linarith
      omega
    have h3 : 0 ≤ ⌊(m : ℚ) * 2 ^ e + 1 / 2⌋ := by
      apply Int.floor_nonneg.mpr
      linarith
    refine ⟨⟨⌊(m : ℚ) * 2 ^ e + 1 / 2⌋, 0, ?_, by norm_num, by simp⟩, Or.inr h2⟩
    rw [abs_of_nonneg h3]
    omega


theorem nonNegative_ofRat {x : ℚ} (hx : 0 ≤ x) : NonNegative (Number.ofRat x) := by
  unfold Number.ofRat
  split_ifs with h1 h2
  · exact Or.inl rfl
  · have := fl_nonneg hx
    have h3 : (0 : ℚ) < 2 ^ 1024 := by positivity
    linarith
  · exact Or.inr ⟨_, rfl, fl_nonneg hx, representable_fl hx, not_le.mp h1⟩

theorem nonNegative_mul {n : Number} {c : ℚ} (hn : NonNegative n) (hc : 0 < c) :
    NonNegative (n.mul (.finite c)) := by
  rcases hn with rfl | ⟨v, rfl, hv, -, -⟩
  · left
    simp [Number.mul, hc.ne', not_lt.mpr hc.le]
  · simp only [Number.mul]
    exact nonNegative_ofRat (mul_nonneg hv hc.le)

theorem nonNegative_round {n : Number} (hn : NonNegative n) :
    n.round = .infinity false ∨
      ∃ z : ℤ, n.round = .finite z ∧ 0 ≤ z ∧ Representable (z : ℚ) ∧ (z : ℚ) < 2 ^ 1024 := by
  rcases hn with rfl | ⟨v, rfl, hv, hrep, hlt⟩
  · exact Or.inl rfl
  · right
    obtain ⟨h1, h2⟩ := representable_round hv hrep
    refine ⟨⌊v + 1 / 2⌋, rfl, Int.floor_nonneg.mpr (by linarith), h1, ?_⟩
    rcases h2 with h2 | h2
    · rw [h2]; exact hlt
    · have : ((⌊v + 1 / 2⌋ : ℤ) : ℚ) ≤ ((2 ^ 52 : ℤ) : ℚ) := by exact_mod_cast h2
      have h3 : (((2 : ℤ) ^ 52 : ℤ) : ℚ) < 2 ^ 1024 := by norm_num
      linarith

theorem representable_one : Representable 1 :=
  ⟨1, 0, by norm_num, by norm_num, by norm_num⟩

theorem representable_half : Representable (1 / 2) :=
  ⟨1, -1, by norm_num, by norm_num, by norm_num⟩

theorem representable_two : Representable 2 :=
  ⟨2, 0, by norm_num, by norm_num, by norm_num⟩

theorem ofRat_near_one {x : ℚ} (h1 : 1 / 2 ≤ x) (h2 : x ≤ 2) :
    ∃ c : ℚ, Number.ofRat x = .finite c ∧ 0 < c ∧ (x ≤ 1 → c ≤ 1) ∧ (1 ≤ x → 1 ≤ c) := by
  have hx : 0 < x := by linarith
  have hlo : 1 / 2 ≤ fl x := le_fl_of_le (by norm_num) representable_half h1
  have hhi : fl x ≤ 2 := fl_le_of_le hx representable_two h2
  refine ⟨fl x, ?_, by linarith, fun h => fl_le_of_le hx representable_one h,
    fun h => le_fl_of_le (by norm_num) representable_one h⟩
  unfold Number.ofRat
  have h3 : (2 : ℚ) < 2 ^ 1024 := by norm_num
  rw [if_neg (by linarith), if_neg (by linarith)]

theorem round_mul_le {z : ℤ} {c : ℚ} (hz : 0 ≤ z) (hrep : Representable (z : ℚ))
    (hlt : (z : ℚ) < 2 ^ 1024) (hc0 : 0 < c) (hc : c ≤ 1) :
    (((Number.finite z).mul (.finite c)).round).le (.finite z) = true := by
  have hzq : (0 : ℚ) ≤ z := by exact_mod_cast hz
  have hprod : (z : ℚ) * c ≤ z := by nlinarith
  have hfl : fl ((z : ℚ) * c) ≤ z := by
    rcases (mul_nonneg hzq hc0.le).eq_or_lt with h | h
    · rw [← h]
      simpa [fl, roundHalfEven] using hzq
    · exact fl_le_of_le h hrep hprod
  have hfl0 : 0 ≤ fl ((z : ℚ) * c) := fl_nonneg (mul_nonneg hzq hc0.le)
  have h3 : (0 : ℚ) < 2 ^ 1024 := by positivity
  simp only [Number.mul, Number.ofRat]
  rw [if_neg (by linarith), if_neg (by linarith)]
  simp only [Number.round, Number.le, decide_eq_true_eq]
  have : ⌊fl ((z : ℚ) * c) + 1 / 2⌋ ≤ z := by
    rw [← Int.lt_add_one_iff, Int.floor_lt]
    push_cast
    linarith
  exact_mod_cast this

theorem le_round_mul {z : ℤ} {c : ℚ} (hz : 0 ≤ z) (hrep : Representable (z : ℚ))
    (hc : 1 ≤ c) :
    (Number.finite z).le (((Number.finite z).mul (.finite c)).round) = true := by
  have hzq : (0 : ℚ) ≤ z := by exact_mod_cast hz
  have hprod : (z : ℚ) ≤ z * c := by nlinarith
  have hfl : (z : ℚ) ≤ fl ((z : ℚ) * c) := by
    rcases hzq.eq_or_lt with h | h
    · rw [← h]
      simp [fl, roundHalfEven]
    · exact le_fl_of_le h hrep hprod
  have h3 : (0 : ℚ) < 2 ^ 1024 := by positivity
  simp only [Number.mul, Number.ofRat]
  split_ifs with h1 h2
  · rfl
  · linarith
  · simp only [Number.round, Number.le, decide_eq_true_eq]
    have : z ≤ ⌊fl ((z : ℚ) * c) + 1 / 2⌋ := by
      rw [Int.le_floor]
      linarith
    exact_mod_cast this


theorem log_eq_of {x : ℚ} (k : ℤ) (hx : 0 < x) (hlo : (2 : ℚ) ^ k ≤ x) (hhi : x < 2 ^ (k + 1)) :
    Int.log 2 x = k := by
  have h1 : k ≤ Int.log 2 x :=
    (Int.zpow_le_iff_le_log (by norm_num : 1 < 2) hx).mp (by rwa [Nat.cast_ofNat])
  have h2 : Int.log 2 x < k + 1 :=
    (Int.lt_zpow_iff_log_lt (by norm_num : 1 < 2) hx).mp (by rwa [Nat.cast_ofNat])
  omega

theorem fl_eq_of_pos {x v : ℚ} (k n : ℤ) (hk : -1022 ≤ k) (hlo : (2 : ℚ) ^ k ≤ x)
    (hhi : x < 2 ^ (k + 1)) (h1 : (n : ℚ) - 1 / 2 < x / 2 ^ (k - 52))
    (h2 : x / 2 ^ (k - 52) < n + 1 / 2) (hv : v = n * 2 ^ (k - 52)) : fl x = v := by
  have hx : 0 < x := lt_of_lt_of_le (two_zpow_pos k) hlo
  have he : ulpExponent x = k - 52 := by
    unfold ulpExponent
    rw [abs_of_pos hx, log_eq_of k hx hlo hhi]
    exact max_eq_left (by omega)
  unfold fl
  rw [he, roundHalfEven_eq_of_lt _ n h1 h2, hv]

theorem fl_eq_of_neg {x v : ℚ} (k n : ℤ) (hk : -1022 ≤ k) (hlo : (2 : ℚ) ^ k ≤ -x)
    (hhi : -x < 2 ^ (k + 1)) (h1 : (n : ℚ) - 1 / 2 < x / 2 ^ (k - 52))
    (h2 : x / 2 ^ (k - 52) < n + 1 / 2) (hv : v = n * 2 ^ (k - 52)) : fl x = v := by
  have hx : 0 < -x := lt_of_lt_of_le (two_zpow_pos k) hlo
  have he : ulpExponent x = k - 52 := by
    unfold ulpExponent
    rw [abs_of_neg (by linarith), log_eq_of k hx hlo hhi]
    exact max_eq_left (by omega)
  unfold fl
  rw [he, roundHalfEven_eq_of_lt _ n h1 h2, hv]

theorem ofRat_eq_of_pos {x v : ℚ} (k n : ℤ) (hk : -1022 ≤ k) (hlo : (2 : ℚ) ^ k ≤ x)
    (hhi : x < 2 ^ (k + 1)) (h1 : (n : ℚ) - 1 / 2 < x / 2 ^ (k - 52))
    (h2 : x / 2 ^ (k - 52) < n + 1 / 2) (hv : v = n * 2 ^ (k - 52)) (hmax : v < 2 ^ 1024) :
    Number.ofRat x = .finite v := by
  have hx : 0 < x := lt_of_lt_of_le (two_zpow_pos k) hlo
  have hfl : fl x = v := fl_eq_of_pos k n hk hlo hhi h1 h2 hv
  have h0 : 0 ≤ v := hfl ▸ fl_nonneg hx.le
  have h3 : (0 : ℚ) < 2 ^ 1024 := by positivity
  unfold Number.ofRat
  rw [hfl, if_neg (not_le.mpr hmax), if_neg (by linarith)]

theorem fl_zero : fl 0 = 0 := by
  simp [fl, roundHalfEven]

theorem ofRat_zero : Number.ofRat 0 = .finite 0 := by
  unfold Number.ofRat
  rw [fl_zero]
  norm_num

theorem ofRat_eq_self {d : ℚ} (hd0 : 0 ≤ d) (hd : Representable d) (hmax : d < 2 ^ 1024) :
    Number.ofRat d = .finite d := by
  have h3 : (0 : ℚ) < 2 ^ 1024 := by positivity
  unfold Number.ofRat
  rw [fl_eq_self hd0 hd, if_neg (not_le.mpr hmax), if_neg (by linarith)]

theorem representable_of_whole {q : ℚ} (hden : q.den = 1) (h0 : 0 ≤ q) (h : q ≤ 2 ^ 52) :
    Representable q := by
  have hq : (q.num : ℚ) = q := Rat.coe_int_num_of_den_eq_one hden
  have hn0 : 0 ≤ q.num := Rat.num_nonneg.mpr h0
  have hn1 : q.num ≤ 2 ^ 52 := by
    have : (q.num : ℚ) ≤ ((2 ^ 52 : ℤ) : ℚ) := by rw [hq]; push_cast; exact h
    exact_mod_cast this
  refine ⟨q.num, 0, ?_, by norm_num, by simp [hq]⟩
  rw [abs_of_nonneg hn0]
  omega

theorem ofRat_eq_of_neg {x v : ℚ} (k n : ℤ) (hk : -1022 ≤ k) (hlo : (2 : ℚ) ^ k ≤ -x)
    (hhi : -x < 2 ^ (k + 1)) (h1 : (n : ℚ) - 1 / 2 < x / 2 ^ (k - 52))
    (h2 : x / 2 ^ (k - 52) < n + 1 / 2) (hv : v = n * 2 ^ (k - 52)) (hmin : -2 ^ 1024 < v)
    (hneg : v ≤ 0) : Number.ofRat x = .finite v := by
  have hfl : fl x = v := fl_eq_of_neg k n hk hlo hhi h1 h2 hv
  have h3 : (0 : ℚ) < 2 ^ 1024 := by positivity
  unfold Number.ofRat
  rw [hfl, if_neg (by linarith), if_neg (not_le.mpr hmin)]

theorem Number.div_finite (a b : ℚ) (hb : b ≠ 0) :
    (Number.finite a).div (.finite b) = Number.ofRat (a / b) := by
  simp [Number.div, hb]

theorem Number.sin_finite (math : MathLibrary) (x : ℚ) :
    (Number.finite x).sin math = .finite (math.sin x) := rfl

theorem Number.cos_finite (math : MathLibrary) (x : ℚ) :
    (Number.finite x).cos math = .finite (math.cos x) := rfl

end Js

namespace PropertyService

open Location

/-! ### Strings -/

/-- The test `includesChars s pat` holds exactly when `pat` is a block of
consecutive elements of `s`. -/
theorem includesChars_iff_infix (s pat : List Char) :
    Js.includesChars s pat = true ↔ pat <:+: s := by
  induction s with
  | nil => simp [Js.includesChars, List.isEmpty_iff]
  | cons c cs ih =>
    rw [Js.includesChars, Bool.or_eq_true, ih, List.infix_cons_iff, List.isPrefixOf_iff_prefix]

/-! ### Base price -/

theorem getBasePricePerSqm_elsewhere (city district : String)
    (h : Js.toLowerCase city ≠ "харків") : getBasePricePerSqm city district = 1000 := by
  simp [getBasePricePerSqm, h]

theorem getBasePricePerSqm_unmatched (city district : String)
    (hc : Js.toLowerCase city = "харків")
    (hd : district = "" ∨ ∀ d ∈ KHARKIV_CITY.districts, districtMatches district d = false) :
    getBasePricePerSqm city district = 1200 := by
  unfold getBasePricePerSqm
  rw [if_neg (not_not.mpr hc)]
  rcases hd with hd | hd
  · simp [hd, KHARKIV_CITY]
  · have hnone : KHARKIV_CITY.districts.find? (districtMatches district) = none := by
      rw [List.find?_eq_none]
      intro d hmem
      simp [hd d hmem]
    rw [hnone]
    simp [KHARKIV_CITY]

theorem getBasePricePerSqm_matched (city district : String) (d : District) (q : ℚ)
    (hc : Js.toLowerCase city = "харків") (hd : district ≠ "")
    (hf : KHARKIV_CITY.districts.find? (districtMatches district) = some d)
    (hq : d.averagePricePerSqm = some q) (h0 : q ≠ 0) :
    getBasePricePerSqm city district = q := by
  unfold getBasePricePerSqm
  rw [if_neg (not_not.mpr hc), hf]
  simp [hd, hq, h0]

theorem kharkiv_prices_pos :
    ∀ d ∈ kharkivDistricts, ∀ q, d.averagePricePerSqm = some q → 0 < q := by
  decide

theorem getBasePricePerSqm_pos (city district : String) :
    0 < getBasePricePerSqm city district := by
  unfold getBasePricePerSqm
  split_ifs with h1 h2
  · norm_num
  · split
    · rename_i price hprice
      split_ifs with h3
      · cases hfind : KHARKIV_CITY.districts.find? (districtMatches district) with
        | none => simp [hfind] at hprice
        | some d =>
          rw [hfind] at hprice
          exact kharkiv_prices_pos d (List.mem_of_find?_eq_some hfind) price hprice
      · simp [KHARKIV_CITY]
    · simp [KHARKIV_CITY]
  · simp [KHARKIV_CITY]

theorem sampleProperty_basePrice :
    getBasePricePerSqm sampleProperty.city sampleProperty.district = 1200 :=
  getBasePricePerSqm_unmatched _ _ (by decide) (Or.inr (by decide))

/-! ### Rounding -/

theorem round_intCast_add (n : ℤ) (r : ℚ) (h0 : -(1 / 2) ≤ r) (h1 : r < 1 / 2) :
    Js.round ((n : ℚ) + r) = n := by
  unfold Js.round
  rw [Int.floor_eq_iff]
  constructor <;> linarith

theorem round_intCast (n : ℤ) : Js.round (n : ℚ) = n := by
  have h := round_intCast_add n 0 (by norm_num) (by norm_num)
  simpa using h

/-! ### Condition multiplier -/

theorem getConditionMultiplier_toString (c : Condition) :
    getConditionMultiplier c.toString = some (specConditionMultiplier c) := by
  cases c <;>
    simp [getConditionMultiplier, lookupOr, Condition.toString, List.lookup,
      specConditionMultiplier] <;> norm_num

theorem getConditionMultiplier_default (s : String) (hs : s ∉ conditionNames)
    (hk : s ∉ objectPrototypeKeys) : getConditionMultiplier s = some 1.0 := by
  simp only [conditionNames, List.mem_cons, List.mem_singleton, not_or, List.not_mem_nil,
    or_false] at hs
  obtain ⟨h1, h2, h3, h4⟩ := hs
  have e1 : (s == "excellent") = false := by simpa using h1
  have e2 : (s == "good") = false := by simpa using h2
  have e3 : (s == "fair") = false := by simpa using h3
  have e4 : (s == "poor") = false := by simpa using h4
  simp [getConditionMultiplier, lookupOr, List.lookup, e1, e2, e3, e4, hk]

theorem specConditionMultiplier_pos (c : Condition) : 0 < specConditionMultiplier c := by
  cases c <;> simp [specConditionMultiplier] <;> norm_num

theorem localValuation_estimatedValue (propertyId : String) (p : PropertyData) :
    (localValuation propertyId p).estimatedValue =
      some (Js.round (p.area * getBasePricePerSqm p.city p.district *
        specConditionMultiplier p.condition)) := by
  simp [localValuation, roundedProduct, getConditionMultiplier_toString]

theorem sampleProperty_estimatedValue :
    (localValuation "prop_1" sampleProperty).estimatedValue = some 72000 := by
  rw [localValuation_estimatedValue, sampleProperty_basePrice]
  have h := round_intCast 72000
  norm_num [sampleProperty, specConditionMultiplier] at h ⊢
  exact h

/-! ### The two-tier resolution -/

theorem valuation_unsettled (remote : Remote) (store : Store) (propertyId : String)
    (property : PropertyData)
    (hv : ∀ n, remote.valuation n propertyId = none)
    (hp : ∀ n, remote.property n propertyId = none)
    (hs : getSaved store propertyId = some property) :
    ∀ fuel clock, getValuation remote store fuel clock propertyId = none ∧
      getLocalValuation remote store fuel clock propertyId = none := by
  intro fuel
  induction fuel with
  | zero => intro clock; simp [getValuation, getLocalValuation]
  | succ n ih =>
    intro clock
    constructor
    · rw [getValuation, hv]
      exact (ih (clock + 1)).2
    · rw [getLocalValuation]
      simp [getProperty, hp, hs, (ih (clock + 1)).1]

/-- C1: with the record of `prop_1` stored and every remote request failing,
`getValuation` is expected to settle with the local fallback valuation (an
estimate of 72000 here). It does not: `getLocalValuation` asks
`getValuation` again before it reaches the fallback, and whatever the fuel
the call has not settled. -/
theorem C1_getValuation_never_settles :
    getSaved sampleStore "prop_1" = some sampleProperty ∧
      (localValuation "prop_1" sampleProperty).estimatedValue = some 72000 ∧
      ∀ fuel, getValuation unreachableRemote sampleStore fuel 0 "prop_1" = none := by
  refine ⟨by decide, sampleProperty_estimatedValue, ?_⟩
  intro fuel
  exact (valuation_unsettled unreachableRemote sampleStore "prop_1" sampleProperty
    (fun _ => rfl) (fun _ => rfl) (by decide) fuel 0).1

/-! ### The fallback estimate in double-precision arithmetic -/

theorem kharkiv_prices_whole :
    ∀ d ∈ kharkivDistricts, ∀ q, d.averagePricePerSqm = some q → q.den = 1 ∧ q ≤ 2000 := by
  decide

theorem getBasePricePerSqm_whole (city district : String) :
    (getBasePricePerSqm city district).den = 1 ∧ getBasePricePerSqm city district ≤ 2000 := by
  unfold getBasePricePerSqm
  split_ifs with h1 h2
  · exact ⟨rfl, by norm_num⟩
  · split
    · rename_i price hprice
      split_ifs with h3
      · cases hfind : KHARKIV_CITY.districts.find? (districtMatches district) with
        | none => simp [hfind] at hprice
        | some d =>
          rw [hfind] at hprice
          exact kharkiv_prices_whole d (List.mem_of_find?_eq_some hfind) price hprice
      · exact ⟨rfl, by norm_num [KHARKIV_CITY]⟩
    · exact ⟨rfl, by norm_num [KHARKIV_CITY]⟩
  · exact ⟨rfl, by norm_num [KHARKIV_CITY]⟩

theorem ofRat_basePrice (city district : String) :
    Js.Number.ofRat (getBasePricePerSqm city district) =
      .finite (getBasePricePerSqm city district) := by
  obtain ⟨hden, hle⟩ := getBasePricePerSqm_whole city district
  have hpos := getBasePricePerSqm_pos city district
  exact Js.ofRat_eq_self hpos.le
    (Js.representable_of_whole hden hpos.le (by norm_num at hle ⊢; linarith))
    (lt_of_le_of_lt hle (by norm_num))

theorem localEstimate64_cases (p : PropertyData) (harea : 0 ≤ p.area) :
    localEstimate64 p = .infinity false ∨
      ∃ z : ℤ, localEstimate64 p = .finite z ∧ 0 ≤ z ∧ Js.Representable (z : ℚ) ∧
        (z : ℚ) < 2 ^ 1024 := by
  have hm := getConditionMultiplier_toString p.condition
  have hmb : 1 / 2 ≤ specConditionMultiplier p.condition ∧
      specConditionMultiplier p.condition ≤ 2 := by
    cases p.condition <;> simp [specConditionMultiplier] <;> norm_num
  obtain ⟨c, hc, hc0, -, -⟩ := Js.ofRat_near_one hmb.1 hmb.2
  unfold localEstimate64 estimatedValue64
  rw [hm]
  simp only
  rw [ofRat_basePrice, hc]
  exact Js.nonNegative_round (Js.nonNegative_mul
    (Js.nonNegative_mul (Js.nonNegative_ofRat harea) (getBasePricePerSqm_pos _ _)) hc0)

theorem bandProperty_basePrice :
    getBasePricePerSqm bandProperty.city bandProperty.district = 1150 :=
  getBasePricePerSqm_matched _ _ (District.mk "6310430000" "Основ'янський" .district (some 1150))
    1150 (by decide) (by decide) (by decide) rfl (by norm_num)

theorem ofRat_whole {c : ℚ} (hden : c.den = 1) (h0 : 0 ≤ c) (h : c ≤ 2 ^ 52) :
    Js.Number.ofRat c = .finite c :=
  Js.ofRat_eq_self h0 (Js.representable_of_whole hden h0 h) (lt_of_le_of_lt h (by norm_num))

theorem mul_whole {a b c : ℚ} (hc : a * b = c) (hden : c.den = 1) (h0 : 0 ≤ c)
    (h : c ≤ 2 ^ 52) : (Js.Number.finite a).mul (.finite b) = .finite c := by
  simp only [Js.Number.mul]
  rw [hc]
  exact ofRat_whole hden h0 h

theorem round_eq_of {a c : ℚ} (z : ℤ) (h1 : (z : ℚ) ≤ a + 1 / 2) (h2 : a + 1 / 2 < z + 1)
    (hc : c = z) : (Js.Number.finite a).round = .finite c := by
  have : ⌊a + 1 / 2⌋ = z := by
    rw [Int.floor_eq_iff]
    exact ⟨h1, h2⟩
  simp only [Js.Number.round]
  rw [this, hc]

theorem round_whole {c : ℚ} (hden : c.den = 1) : (Js.Number.finite c).round = .finite c := by
  have hq : (c.num : ℚ) = c := Rat.coe_int_num_of_den_eq_one hden
  simp only [Js.Number.round]
  congr 1
  have : ⌊c + 1 / 2⌋ = c.num := by
    rw [Int.floor_eq_iff, hq]
    constructor <;> linarith
  rw [this, hq]

theorem ofRat_share_high :
    Js.Number.ofRat 1.15 = .finite (2589569785738035 / 2251799813685248) :=
  Js.ofRat_eq_of_pos 0 5179139571476070 (by norm_num) (by norm_num) (by norm_num) (by norm_num)
    (by norm_num) (by norm_num) (by norm_num)

/-- C2: for a condition string that is none of the four listed ones the
fallback estimate is expected to be `round(area × price × 1.0)`, which is
72000 for 60 square metres at 1200. For the string `constructor` it is not:
the table of `getConditionMultiplier` inherits a member of that name, the
multiplier is not a number and the estimate is `NaN`; for the unlisted string
`renovated` the multiplier is 1.0 and the estimate is 72000. -/
theorem C2_inherited_member_not_a_number :
    "constructor" ∉ conditionNames ∧ getConditionMultiplier "constructor" = none ∧
      estimatedValue64 60 1200 (getConditionMultiplier "constructor") = .nan ∧
      getConditionMultiplier "renovated" = some 1.0 ∧
      estimatedValue64 60 1200 (getConditionMultiplier "renovated") = .finite 72000 ∧
      Js.round (60 * 1200 * 1.0) = 72000 := by
  have h1 : getConditionMultiplier "constructor" = none := by
    simp [getConditionMultiplier, lookupOr, List.lookup, objectPrototypeKeys]
  have h2 : getConditionMultiplier "renovated" = some 1.0 :=
    getConditionMultiplier_default "renovated" (by decide) (by decide)
  refine ⟨by decide, h1, by rw [h1]; rfl, h2, ?_, ?_⟩
  · rw [h2]
    have a1 : Js.Number.ofRat 60 = .finite 60 := ofRat_whole rfl (by norm_num) (by norm_num)
    have a2 : Js.Number.ofRat 1200 = .finite 1200 :=
      ofRat_whole rfl (by norm_num) (by norm_num)
    have a3 : Js.Number.ofRat 1.0 = .finite 1 := by
      rw [show (1.0 : ℚ) = 1 by norm_num]
      exact ofRat_whole rfl (by norm_num) (by norm_num)
    have m1 : (Js.Number.finite 60).mul (.finite 1200) = .finite 72000 :=
      mul_whole (by norm_num) rfl (by norm_num) (by norm_num)
    have m2 : (Js.Number.finite 72000).mul (.finite 1) = .finite 72000 :=
      mul_whole (by norm_num) rfl (by norm_num) (by norm_num)
    simp only [estimatedValue64, a1, a2, a3, m1, m2, round_whole (rfl : (72000 : ℚ).den = 1)]
  · have h := round_intCast 72000
    norm_num at h ⊢
    exact h

/-- C3, as stated, fails: the record of 45 square metres in good condition in
the district «Основ'янський», at 1150 per square metre, is valued at 51750;
its `priceRange.max` is 59512, the double-precision product 51750 × 1.15 being
59512.49999999999, whereas `round(1.15 × 51750)` is 59513. -/
theorem C3_band_rounding_counterexample :
    (0 : ℚ) ≤ bandProperty.area ∧ localEstimate64 bandProperty = .finite 51750 ∧
      (priceRange64 (localEstimate64 bandProperty)).max = .finite 59512 ∧
      Js.round (1.15 * 51750) = 59513 := by
  have hest : localEstimate64 bandProperty = .finite 51750 := by
    have a1 : Js.Number.ofRat 45 = .finite 45 := ofRat_whole rfl (by norm_num) (by norm_num)
    have a2 : Js.Number.ofRat 1150 = .finite 1150 :=
      ofRat_whole rfl (by norm_num) (by norm_num)
    have a3 : Js.Number.ofRat 1.0 = .finite 1 := by
      rw [show (1.0 : ℚ) = 1 by norm_num]
      exact ofRat_whole rfl (by norm_num) (by norm_num)
    have m1 : (Js.Number.finite 45).mul (.finite 1150) = .finite 51750 :=
      mul_whole (by norm_num) rfl (by norm_num) (by norm_num)
    have m2 : (Js.Number.finite 51750).mul (.finite 1) = .finite 51750 :=
      mul_whole (by norm_num) rfl (by norm_num) (by norm_num)
    have hm : getConditionMultiplier bandProperty.condition.toString = some 1.0 := by
      rw [getConditionMultiplier_toString]
      show some (specConditionMultiplier .good) = some 1.0
      norm_num [specConditionMultiplier]
    unfold localEstimate64
    rw [bandProperty_basePrice, hm]
    have harea : bandProperty.area = 45 := rfl
    simp only [estimatedValue64, harea, a1, a2, a3, m1, m2,
      round_whole (rfl : (51750 : ℚ).den = 1)]
  refine ⟨by norm_num [bandProperty], hest, ?_, ?_⟩
  · rw [hest]
    have b1 : Js.Number.ofRat (51750 * (2589569785738035 / 2251799813685248)) =
        .finite (8179335718502399 / 137438953472) :=
      Js.ofRat_eq_of_pos 15 8179335718502399 (by norm_num) (by norm_num) (by norm_num)
        (by norm_num) (by norm_num) (by norm_num) (by norm_num)
    simp only [priceRange64, ofRat_share_high, Js.Number.mul, b1]
    exact round_eq_of 59512 (by norm_num) (by norm_num) (by norm_num)
  · unfold Js.round
    rw [Int.floor_eq_iff]
    constructor <;> norm_num

/-- C3, amended: for every property record with a non-negative area the
fallback estimate is a non-negative integer, or `Infinity` when the product
overflows; `priceRange.min` and `priceRange.max` are `Math.round` of the
double-precision products of the estimate with 0.85 and with 1.15; and
`priceRange.min ≤ estimatedValue ≤ priceRange.max`. -/
theorem C3_estimate_within_band (p : PropertyData) (harea : 0 ≤ p.area) :
    (localEstimate64 p = .infinity false ∨ ∃ z : ℤ, 0 ≤ z ∧ localEstimate64 p = .finite z) ∧
      (priceRange64 (localEstimate64 p)).min =
        ((localEstimate64 p).mul (.ofRat 0.85)).round ∧
      (priceRange64 (localEstimate64 p)).max =
        ((localEstimate64 p).mul (.ofRat 1.15)).round ∧
      (priceRange64 (localEstimate64 p)).min.le (localEstimate64 p) = true ∧
      (localEstimate64 p).le (priceRange64 (localEstimate64 p)).max = true := by
  obtain ⟨c85, h85, h85pos, h85le, -⟩ :=
    Js.ofRat_near_one (by norm_num : (1 : ℚ) / 2 ≤ 0.85) (by norm_num)
  obtain ⟨c115, h115, h115pos, -, h115le⟩ :=
    Js.ofRat_near_one (by norm_num : (1 : ℚ) / 2 ≤ 1.15) (by norm_num)
  rcases localEstimate64_cases p harea with h | ⟨z, h, hz, hrep, hlt⟩
  · refine ⟨Or.inl h, rfl, rfl, ?_, ?_⟩
    · rw [h]
      simp [priceRange64, h85, Js.Number.mul, h85pos.ne', not_lt.mpr h85pos.le,
        Js.Number.round, Js.Number.le]
    · rw [h]
      simp [priceRange64, h115, Js.Number.mul, h115pos.ne', not_lt.mpr h115pos.le,
        Js.Number.round, Js.Number.le]
  · refine ⟨Or.inr ⟨z, hz, h⟩, rfl, rfl, ?_, ?_⟩
    · rw [h]
      simp only [priceRange64, h85]
      exact Js.round_mul_le hz hrep hlt h85pos (h85le (by norm_num))
    · rw [h]
      simp only [priceRange64, h115]
      exact Js.le_round_mul hz hrep (h115le (by norm_num))

/-- C3, amended, at the record `bandProperty`, whose area is 45: the estimate
is 51750 and lies between the bounds of its price range. -/
theorem C3_estimate_within_band_witness :
    (0 : ℚ) ≤ bandProperty.area ∧
      (priceRange64 (localEstimate64 bandProperty)).min.le (localEstimate64 bandProperty) =
        true ∧
      (localEstimate64 bandProperty).le (priceRange64 (localEstimate64 bandProperty)).max =
        true :=
  ⟨by norm_num [bandProperty],
    (C3_estimate_within_band bandProperty (by norm_num [bandProperty])).2.2.2.1,
    (C3_estimate_within_band bandProperty (by norm_num [bandProperty])).2.2.2.2⟩

/-- C4: for all integers `floor` and `totalFloors`, `getFloorScore` is the
first rule that applies among: floor 1 gives 0.80, the top floor 0.90, a floor
up to 3 gives 0.95, a floor from `totalFloors − 2` on gives 0.85, any other
1.00; so (1,5) gives 0.80, (5,5) 0.90, (2,10) 0.95, (9,10) 0.85, (5,10) 1.00,
and (1,1) gives 0.80 since the ground-floor rule comes first. -/
theorem C4_getFloorScore_rules (floor totalFloors : ℤ) :
    getFloorScore floor totalFloors =
        (if floor = 1 then 0.80
         else if floor = totalFloors then 0.90
         else if floor ≤ 3 then 0.95
         else if floor ≥ totalFloors - 2 then 0.85
         else 1.00) ∧
      getFloorScore 1 5 = 0.80 ∧ getFloorScore 5 5 = 0.90 ∧ getFloorScore 2 10 = 0.95 ∧
      getFloorScore 9 10 = 0.85 ∧ getFloorScore 5 10 = 1.00 ∧ getFloorScore 1 1 = 0.80 := by
  refine ⟨?_, ?_, ?_, ?_, ?_, ?_, ?_⟩ <;> simp [getFloorScore] <;> norm_num

/-! ### District lookup -/

theorem find_zhuravlivka :
    KHARKIV_CITY.districts.find? (districtMatches "Журавлівка") =
      some ⟨"micro_kharkiv_dalna_zhuravlivka", "Дальня Журавлівка", .microdistrict,
        some 650⟩ := by
  decide

theorem own_entry_found :
    ∀ d ∈ KHARKIV_CITY.districts, d.name ∉ shadowedNames →
      ∃ e, KHARKIV_CITY.districts.find? (districtMatches d.name) = some e ∧
        e.name = d.name ∧ e.averagePricePerSqm = d.averagePricePerSqm := by
  decide

/-- C5: the gazetteer has one entry named `Журавлівка`, priced 700, and the
lookup is expected to return that price for the district `Журавлівка`. The
single `find` stops at the entry `Дальня Журавлівка`, listed earlier, whose
name contains the string, and returns 650. For every gazetteer name other
than the three of `shadowedNames` the entry found does carry that name. -/
theorem C5_exact_name_shadowed :
    (∃ d ∈ KHARKIV_CITY.districts, d.name = "Журавлівка") ∧
      (∀ d ∈ KHARKIV_CITY.districts, d.name = "Журавлівка" →
        d.averagePricePerSqm = some 700) ∧
      (KHARKIV_CITY.districts.find? (districtMatches "Журавлівка")).map (fun d => d.name) =
        some "Дальня Журавлівка" ∧
      getBasePricePerSqm "Харків" "Журавлівка" = 650 ∧
      (∀ d ∈ KHARKIV_CITY.districts, d.name ∉ shadowedNames →
        ∃ e, KHARKIV_CITY.districts.find? (districtMatches d.name) = some e ∧
          e.name = d.name ∧ e.averagePricePerSqm = d.averagePricePerSqm) := by
  refine ⟨by decide, by decide, ?_, ?_, own_entry_found⟩
  · rw [find_zhuravlivka]; rfl
  · exact getBasePricePerSqm_matched _ _ _ 650 (by decide) (by decide) find_zhuravlivka rfl
      (by norm_num)

/-- C6: for every city whose lower-cased name is not `харків` the base price
is 1000 whatever the district; for a city whose lower-cased name is `харків`
it is the city average 1200 when the district is empty or when no gazetteer
entry has a name that equals or contains it, letter case ignored. -/
theorem C6_fallback_constants (otherCity anyDistrict city district : String)
    (hother : Js.toLowerCase otherCity ≠ "харків")
    (hcity : Js.toLowerCase city = "харків")
    (hdistrict : district = "" ∨ ∀ d ∈ KHARKIV_CITY.districts,
      ¬ (Js.toLowerCase d.name = Js.toLowerCase district ∨
        Js.includes (Js.toLowerCase d.name) (Js.toLowerCase district) = true)) :
    getBasePricePerSqm otherCity anyDistrict = 1000 ∧
      getBasePricePerSqm city district = 1200 := by
  refine ⟨getBasePricePerSqm_elsewhere _ _ hother, getBasePricePerSqm_unmatched _ _ hcity ?_⟩
  rcases hdistrict with h | h
  · exact Or.inl h
  · refine Or.inr (fun d hd => ?_)
    have hd2 := h d hd
    simpa [districtMatches] using hd2

/-- C6 at the city `Київ` with the gazetteer name `Центр`, and at the city
`ХАРКІВ` with a district that no gazetteer name contains. -/
theorem C6_fallback_constants_witness :
    Js.toLowerCase "Київ" ≠ "харків" ∧ Js.toLowerCase "ХАРКІВ" = "харків" ∧
      (∃ d ∈ KHARKIV_CITY.districts, d.name = "Центр") ∧
      getBasePricePerSqm "Київ" "Центр" = 1000 ∧
      getBasePricePerSqm "ХАРКІВ" "Невідомий" = 1200 :=
  ⟨by decide, by decide, by decide,
    C6_fallback_constants "Київ" "Центр" "ХАРКІВ" "Невідомий" (by decide) (by decide)
      (Or.inr (by decide))⟩

/-! ### Similarity -/

theorem roomsCredit_bounds (r1 r2 : ℤ) :
    0 ≤ roomsCredit r1 r2 ∧ roomsCredit r1 r2 ≤ 0.25 := by
  unfold roomsCredit; split_ifs <;> norm_num

theorem areaCredit_bounds (a1 a2 : ℚ) : 0 ≤ areaCredit a1 a2 ∧ areaCredit a1 a2 ≤ 0.20 := by
  unfold areaCredit
  split
  · norm_num
  · split_ifs <;> norm_num

theorem buildingTypeCredit_bounds (t1 t2 : BuildingType) :
    0 ≤ buildingTypeCredit t1 t2 ∧ buildingTypeCredit t1 t2 ≤ 0.15 := by
  unfold buildingTypeCredit; split_ifs <;> norm_num

theorem conditionCredit_bounds (c1 c2 : Condition) :
    0 ≤ conditionCredit c1 c2 ∧ conditionCredit c1 c2 ≤ 0.15 := by
  unfold conditionCredit; split_ifs <;> norm_num

theorem floorCredit_bounds (f1 f2 : ℤ) :
    0 ≤ floorCredit f1 f2 ∧ floorCredit f1 f2 ≤ 0.10 := by
  unfold floorCredit; dsimp only; split_ifs <;> norm_num

theorem totalFloorsCredit_bounds (f1 f2 : ℤ) :
    0 ≤ totalFloorsCredit f1 f2 ∧ totalFloorsCredit f1 f2 ≤ 0.10 := by
  unfold totalFloorsCredit; dsimp only; split_ifs <;> norm_num

theorem balconyCredit_bounds (b1 b2 : Bool) :
    0 ≤ balconyCredit b1 b2 ∧ balconyCredit b1 b2 ≤ 0.05 := by
  unfold balconyCredit; split_ifs <;> norm_num

theorem calculateSimilarity_bounds (a b : PropertyData) :
    0 ≤ calculateSimilarity a b ∧ calculateSimilarity a b ≤ 1 := by
  have h1 := roomsCredit_bounds a.rooms b.rooms
  have h2 := areaCredit_bounds a.area b.area
  have h3 := buildingTypeCredit_bounds a.buildingType b.buildingType
  have h4 := conditionCredit_bounds a.condition b.condition
  have h5 := floorCredit_bounds a.floor b.floor
  have h6 := totalFloorsCredit_bounds a.totalFloors b.totalFloors
  have h7 := balconyCredit_bounds a.hasBalcony b.hasBalcony
  unfold calculateSimilarity
  constructor
  · linarith [h1.1, h2.1, h3.1, h4.1, h5.1, h6.1, h7.1]
  · norm_num at h1 h2 h3 h4 h5 h6 h7
    linarith [h1.2, h2.2, h3.2, h4.2, h5.2, h6.2, h7.2]

theorem areaDiff_comm (a1 a2 : ℚ) : areaDiff a1 a2 = areaDiff a2 a1 := by
  unfold areaDiff
  rw [max_comm a1 a2, abs_sub_comm a1 a2]

theorem similarityWeights_sum : similarityWeights.sum = 1 := by
  norm_num [similarityWeights]

theorem areaCredit_self (x : ℚ) (hx : 0 < x) : areaCredit x x = 0.20 := by
  unfold areaCredit areaDiff
  simp [hx.ne']
  norm_num

theorem calculateSimilarity_self (a : PropertyData) (ha : 0 < a.area) :
    calculateSimilarity a a = 1 := by
  unfold calculateSimilarity
  rw [areaCredit_self _ ha]
  simp [roomsCredit, buildingTypeCredit, conditionCredit, floorCredit, totalFloorsCredit,
    balconyCredit]
  norm_num

/-- C7: for every pair of property records `a` and `b`,
`calculateSimilarity(a, b)` lies in the closed interval from 0 to 1. -/
theorem C7_similarity_in_unit_interval (a b : PropertyData) :
    calculateSimilarity a b ∈ Set.Icc (0 : ℚ) 1 :=
  Set.mem_Icc.mpr (calculateSimilarity_bounds a b)

/-- C8: `calculateSimilarity` is symmetric: for every pair of property
records, `calculateSimilarity(a, b) = calculateSimilarity(b, a)`. -/
theorem C8_similarity_symmetric (a b : PropertyData) :
    calculateSimilarity a b = calculateSimilarity b a := by
  unfold calculateSimilarity roomsCredit areaCredit buildingTypeCredit conditionCredit
    floorCredit totalFloorsCredit balconyCredit
  rw [areaDiff_comm a.area b.area, abs_sub_comm a.rooms b.rooms, abs_sub_comm a.floor b.floor,
    abs_sub_comm a.totalFloors b.totalFloors]
  simp only [eq_comm (a := a.rooms), eq_comm (a := a.buildingType), eq_comm (a := a.condition),
    eq_comm (a := a.hasBalcony)]

/-- C9: for every property record `a` with a positive area,
`calculateSimilarity(a, a)` is the sum of the seven weights 0.25, 0.20, 0.15,
0.15, 0.10, 0.10, 0.05, and no pair of records scores more than that. -/
theorem C9_self_similarity_is_maximum (a : PropertyData) (ha : 0 < a.area) :
    calculateSimilarity a a = similarityWeights.sum ∧
      similarityWeights = [0.25, 0.20, 0.15, 0.15, 0.10, 0.10, 0.05] ∧
      ∀ b c : PropertyData, calculateSimilarity b c ≤ calculateSimilarity a a := by
  refine ⟨?_, rfl, fun b c => ?_⟩
  · rw [calculateSimilarity_self a ha, similarityWeights_sum]
  · rw [calculateSimilarity_self a ha]
    exact (calculateSimilarity_bounds b c).2

/-- C9 at the record `sampleProperty`, whose area is 60. -/
theorem C9_self_similarity_is_maximum_witness :
    0 < sampleProperty.area ∧
      calculateSimilarity sampleProperty sampleProperty = similarityWeights.sum ∧
      ∀ b c : PropertyData,
        calculateSimilarity b c ≤ calculateSimilarity sampleProperty sampleProperty :=
  ⟨by norm_num [sampleProperty],
    (C9_self_similarity_is_maximum sampleProperty (by norm_num [sampleProperty])).1,
    (C9_self_similarity_is_maximum sampleProperty (by norm_num [sampleProperty])).2.2⟩

/-- C10, as stated, fails: there are no property records `a`, `b` with
`calculateSimilarity(a, b) > 1.0`. -/
theorem C10_no_score_above_one :
    ¬ ∃ a b : PropertyData, calculateSimilarity a b > 1.0 := by
  rintro ⟨a, b, h⟩
  have h2 := (calculateSimilarity_bounds a b).2
  norm_num at h
  linarith

/-- C10, amended: the seven weights of `calculateSimilarity` sum to exactly
1.00, the six without the balcony weight to 0.95; no pair of records scores
above 1.0, and the score 1.0 is reached. -/
theorem C10_weights_sum_to_one :
    similarityWeights.sum = 1.0 ∧ (similarityWeights.take 6).sum = 0.95 ∧
      similarityWeights.drop 6 = [0.05] ∧
      (∀ a b : PropertyData, calculateSimilarity a b ≤ 1.0) ∧
      ∃ a b : PropertyData, calculateSimilarity a b = 1.0 := by
  refine ⟨by norm_num [similarityWeights], by norm_num [similarityWeights],
    by simp [similarityWeights], fun a b => ?_, sampleProperty, sampleProperty, ?_⟩
  · have h := (calculateSimilarity_bounds a b).2
    norm_num
    exact h
  · rw [calculateSimilarity_self sampleProperty (by norm_num [sampleProperty])]
    norm_num

/-! ### Similarity in double-precision arithmetic -/

theorem fl_quarter : Js.fl (0.25) = 1 / 4 :=
  Js.fl_eq_of_pos (-2) 4503599627370496 (by norm_num) (by norm_num) (by norm_num) (by norm_num)
    (by norm_num) (by norm_num)

theorem fl_fifth : Js.fl (0.20) = 3602879701896397 / 18014398509481984 :=
  Js.fl_eq_of_pos (-3) 7205759403792794 (by norm_num) (by norm_num) (by norm_num) (by norm_num)
    (by norm_num) (by norm_num)

theorem fl_fifteen : Js.fl (0.15) = 5404319552844595 / 36028797018963968 :=
  Js.fl_eq_of_pos (-3) 5404319552844595 (by norm_num) (by norm_num) (by norm_num) (by norm_num)
    (by norm_num) (by norm_num)

theorem fl_tenth : Js.fl (0.10) = 3602879701896397 / 36028797018963968 :=
  Js.fl_eq_of_pos (-4) 7205759403792794 (by norm_num) (by norm_num) (by norm_num) (by norm_num)
    (by norm_num) (by norm_num)

theorem fl_twentieth : Js.fl (0.05) = 3602879701896397 / 72057594037927936 :=
  Js.fl_eq_of_pos (-5) 7205759403792794 (by norm_num) (by norm_num) (by norm_num) (by norm_num)
    (by norm_num) (by norm_num)

theorem fl_threshold : Js.fl (0.6) = 5404319552844595 / 9007199254740992 :=
  Js.fl_eq_of_pos (-1) 5404319552844595 (by norm_num) (by norm_num) (by norm_num) (by norm_num)
    (by norm_num) (by norm_num)

theorem sum_full_1 : Js.fl (0 + (1 / 4)) = 1 / 4 :=
  Js.fl_eq_of_pos (-2) 4503599627370496 (by norm_num) (by norm_num) (by norm_num) (by norm_num)
    (by norm_num) (by norm_num)

theorem sum_full_2 : Js.fl ((1 / 4) + (3602879701896397 / 18014398509481984)) = 8106479329266893 / 18014398509481984 :=
  Js.fl_eq_of_pos (-2) 8106479329266893 (by norm_num) (by norm_num) (by norm_num) (by norm_num)
    (by norm_num) (by norm_num)

theorem sum_full_3 : Js.fl ((8106479329266893 / 18014398509481984) + (5404319552844595 / 36028797018963968)) = 5404319552844595 / 9007199254740992 :=
  Js.fl_eq_of_pos (-1) 5404319552844595 (by norm_num) (by norm_num) (by norm_num) (by norm_num)
    (by norm_num) (by norm_num)

theorem sum_full_4 : Js.fl ((5404319552844595 / 9007199254740992) + (5404319552844595 / 36028797018963968)) = 3 / 4 :=
  Js.fl_eq_of_pos (-1) 6755399441055744 (by norm_num) (by norm_num) (by norm_num) (by norm_num)
    (by norm_num) (by norm_num)

theorem sum_full_5 : Js.fl ((3 / 4) + (3602879701896397 / 36028797018963968)) = 7656119366529843 / 9007199254740992 :=
  Js.fl_eq_of_pos (-1) 7656119366529843 (by norm_num) (by norm_num) (by norm_num) (by norm_num)
    (by norm_num) (by norm_num)

theorem sum_full_6 : Js.fl ((7656119366529843 / 9007199254740992) + (3602879701896397 / 36028797018963968)) = 4278419646001971 / 4503599627370496 :=
  Js.fl_eq_of_pos (-1) 8556839292003942 (by norm_num) (by norm_num) (by norm_num) (by norm_num)
    (by norm_num) (by norm_num)

theorem sum_full_7 : Js.fl ((4278419646001971 / 4503599627370496) + (3602879701896397 / 72057594037927936)) = 1 :=
  Js.fl_eq_of_pos (-1) 9007199254740992 (by norm_num) (by norm_num) (by norm_num) (by norm_num)
    (by norm_num) (by norm_num)

theorem sum_boundary_1 : Js.fl (0 + (1 / 4)) = 1 / 4 :=
  Js.fl_eq_of_pos (-2) 4503599627370496 (by norm_num) (by norm_num) (by norm_num) (by norm_num)
    (by norm_num) (by norm_num)

theorem sum_boundary_2 : Js.fl ((1 / 4) + (3602879701896397 / 18014398509481984)) = 8106479329266893 / 18014398509481984 :=
  Js.fl_eq_of_pos (-2) 8106479329266893 (by norm_num) (by norm_num) (by norm_num) (by norm_num)
    (by norm_num) (by norm_num)

theorem sum_boundary_3 : Js.fl ((8106479329266893 / 18014398509481984) + (3602879701896397 / 36028797018963968)) = 2476979795053773 / 4503599627370496 :=
  Js.fl_eq_of_pos (-1) 4953959590107546 (by norm_num) (by norm_num) (by norm_num) (by norm_num)
    (by norm_num) (by norm_num)

theorem sum_boundary_4 : Js.fl ((2476979795053773 / 4503599627370496) + (3602879701896397 / 72057594037927936)) = 1351079888211149 / 2251799813685248 :=
  Js.fl_eq_of_pos (-1) 5404319552844596 (by norm_num) (by norm_num) (by norm_num) (by norm_num)
    (by norm_num) (by norm_num)

theorem sum_below_1 : Js.fl (0 + (1 / 4)) = 1 / 4 :=
  Js.fl_eq_of_pos (-2) 4503599627370496 (by norm_num) (by norm_num) (by norm_num) (by norm_num)
    (by norm_num) (by norm_num)

theorem sum_below_2 : Js.fl ((1 / 4) + (3602879701896397 / 18014398509481984)) = 8106479329266893 / 18014398509481984 :=
  Js.fl_eq_of_pos (-2) 8106479329266893 (by norm_num) (by norm_num) (by norm_num) (by norm_num)
    (by norm_num) (by norm_num)

theorem sum_below_3 : Js.fl ((8106479329266893 / 18014398509481984) + (5404319552844595 / 36028797018963968)) = 5404319552844595 / 9007199254740992 :=
  Js.fl_eq_of_pos (-1) 5404319552844595 (by norm_num) (by norm_num) (by norm_num) (by norm_num)
    (by norm_num) (by norm_num)


theorem addCredit_zero (s : ℚ) : addCredit s 0 = s := by
  simp [addCredit]

theorem addCredit_eq {s c l v : ℚ} (hc : c ≠ 0) (hl : Js.fl c = l) (hv : Js.fl (s + l) = v) :
    addCredit s c = v := by
  unfold addCredit
  rw [if_neg hc, hl, hv]

theorem areaCredit64_nonneg (a1 a2 : ℚ) : 0 ≤ areaCredit64 a1 a2 := by
  unfold areaCredit64
  simp only
  split_ifs <;> norm_num

theorem addCredit_double {s c : ℚ} (hs : Js.Representable s) (hs0 : 0 ≤ s) (hc : 0 ≤ c) :
    Js.Representable (addCredit s c) ∧ 0 ≤ addCredit s c := by
  unfold addCredit
  split_ifs
  · exact ⟨hs, hs0⟩
  · have h : 0 ≤ s + Js.fl c := add_nonneg hs0 (Js.fl_nonneg hc)
    exact ⟨Js.representable_fl h, Js.fl_nonneg h⟩

theorem calculateSimilarity64_double (a b : PropertyData) :
    Js.Representable (calculateSimilarity64 a b) ∧ 0 ≤ calculateSimilarity64 a b := by
  have h0 : Js.Representable 0 ∧ (0 : ℚ) ≤ 0 :=
    ⟨⟨0, 0, by norm_num, by norm_num, by norm_num⟩, le_rfl⟩
  have h1 := addCredit_double h0.1 h0.2 (roomsCredit_bounds a.rooms b.rooms).1
  have h2 := addCredit_double h1.1 h1.2 (areaCredit64_nonneg a.area b.area)
  have h3 := addCredit_double h2.1 h2.2 (buildingTypeCredit_bounds a.buildingType b.buildingType).1
  have h4 := addCredit_double h3.1 h3.2 (conditionCredit_bounds a.condition b.condition).1
  have h5 := addCredit_double h4.1 h4.2 (floorCredit_bounds a.floor b.floor).1
  have h6 := addCredit_double h5.1 h5.2 (totalFloorsCredit_bounds a.totalFloors b.totalFloors).1
  exact addCredit_double h6.1 h6.2 (balconyCredit_bounds a.hasBalcony b.hasBalcony).1

theorem ulpExponent_half : Js.ulpExponent (1 / 2) = -53 := by
  unfold Js.ulpExponent
  rw [abs_of_pos (by norm_num), Js.log_eq_of (-1) (by norm_num) (by norm_num) (by norm_num)]
  norm_num

/-- No double lies above the double 0.6 and at or below the rational 3/5: a
double above the threshold of `findSimilarProperties` is above 3/5. -/
theorem above_threshold {v : ℚ} (hv : Js.Representable v) (h : Js.fl 0.6 < v) : 3 / 5 < v := by
  rw [fl_threshold] at h
  obtain ⟨m, e, hm, he, rfl⟩ := hv
  have hhalf : (1 : ℚ) / 2 ≤ m * 2 ^ e := by
    have : (1 : ℚ) / 2 ≤ 5404319552844595 / 9007199254740992 := by norm_num
    linarith
  have hexp := Js.ulpExponent_le (by norm_num : (0 : ℚ) < 1 / 2) hm he hhalf
  rw [ulpExponent_half] at hexp
  obtain ⟨j, hj⟩ := Js.exists_grid m e (-53) hexp
  rw [hj] at h ⊢
  have h53 : (2 : ℚ) ^ (-53 : ℤ) = 1 / 9007199254740992 := by norm_num
  rw [h53] at h ⊢
  have h1 : (5404319552844595 : ℚ) < j := by
    have := h
    rw [div_lt_iff₀ (by norm_num)] at this
    linarith
  have h2 : (5404319552844595 : ℤ) < j := by exact_mod_cast h1
  have h3 : (5404319552844596 : ℚ) ≤ j := by
    have : (5404319552844596 : ℤ) ≤ j := by omega
    exact_mod_cast this
  linarith

theorem areaCredit64_sixty : areaCredit64 60 60 = 0.20 := by
  have a1 : Js.Number.ofRat 60 = .finite 60 := ofRat_whole rfl (by norm_num) (by norm_num)
  have a2 : Js.Number.ofRat 0.1 = .finite (3602879701896397 / 36028797018963968) := by
    unfold Js.Number.ofRat
    rw [show (0.1 : ℚ) = 0.10 by norm_num, fl_tenth]
    norm_num
  have hdiff : areaDiff64 60 60 = .finite 0 := by
    simp only [areaDiff64, a1, Js.Number.sub, Js.Number.neg, Js.Number.add, Js.Number.abs,
      Js.Number.max, Js.Number.div]
    norm_num [Js.ofRat_zero]
  unfold areaCredit64
  simp only [hdiff, a2, Js.Number.lt]
  norm_num

theorem calculateSimilarity64_full (a b : PropertyData)
    (h1 : roomsCredit a.rooms b.rooms = 0.25) (h2 : areaCredit64 a.area b.area = 0.20)
    (h3 : buildingTypeCredit a.buildingType b.buildingType = 0.15)
    (h4 : conditionCredit a.condition b.condition = 0.15)
    (h5 : floorCredit a.floor b.floor = 0.10)
    (h6 : totalFloorsCredit a.totalFloors b.totalFloors = 0.10)
    (h7 : balconyCredit a.hasBalcony b.hasBalcony = 0.05) :
    calculateSimilarity64 a b = 1 := by
  unfold calculateSimilarity64
  rw [h1, h2, h3, h4, h5, h6, h7, addCredit_eq (by norm_num) fl_quarter sum_full_1,
    addCredit_eq (by norm_num) fl_fifth sum_full_2,
    addCredit_eq (by norm_num) fl_fifteen sum_full_3,
    addCredit_eq (by norm_num) fl_fifteen sum_full_4,
    addCredit_eq (by norm_num) fl_tenth sum_full_5,
    addCredit_eq (by norm_num) fl_tenth sum_full_6,
    addCredit_eq (by norm_num) fl_twentieth sum_full_7]

theorem calculateSimilarity64_twin :
    calculateSimilarity64 storedSubject storedTwin = 1 :=
  calculateSimilarity64_full _ _ (by simp [roomsCredit, storedSubject, storedTwin])
    areaCredit64_sixty (by simp [buildingTypeCredit, storedSubject, storedTwin])
    (by simp [conditionCredit, storedSubject, storedTwin])
    (by simp [floorCredit, storedSubject, storedTwin])
    (by simp [totalFloorsCredit, storedSubject, storedTwin])
    (by simp [balconyCredit, storedSubject, storedTwin])

theorem calculateSimilarity64_boundary :
    calculateSimilarity64 storedSubject storedBoundary =
      5404319552844596 / 9007199254740992 := by
  have h1 : roomsCredit storedSubject.rooms storedBoundary.rooms = 0.25 := by
    simp [roomsCredit, storedSubject, storedBoundary]
  have h2 : areaCredit64 storedSubject.area storedBoundary.area = 0.20 := areaCredit64_sixty
  have h3 : buildingTypeCredit storedSubject.buildingType storedBoundary.buildingType = 0 := by
    simp [buildingTypeCredit, storedSubject, storedBoundary, mapSubject, sampleProperty]
  have h4 : conditionCredit storedSubject.condition storedBoundary.condition = 0 := by
    simp [conditionCredit, storedSubject, storedBoundary, mapSubject, sampleProperty]
  have h5 : floorCredit storedSubject.floor storedBoundary.floor = 0.10 := by
    simp [floorCredit, storedSubject, storedBoundary]
  have h6 : totalFloorsCredit storedSubject.totalFloors storedBoundary.totalFloors = 0.05 := by
    simp [totalFloorsCredit, storedSubject, storedBoundary, mapSubject, sampleProperty]
  have h7 : balconyCredit storedSubject.hasBalcony storedBoundary.hasBalcony = 0 := by
    simp [balconyCredit, storedSubject, storedBoundary, mapSubject, sampleProperty]
  unfold calculateSimilarity64
  rw [h1, h2, h3, h4, h5, h6, h7]
  simp only [addCredit_zero]
  rw [addCredit_eq (by norm_num) fl_quarter sum_boundary_1,
    addCredit_eq (by norm_num) fl_fifth sum_boundary_2,
    addCredit_eq (by norm_num) fl_tenth sum_boundary_3,
    addCredit_eq (by norm_num) fl_twentieth sum_boundary_4]
  norm_num

theorem calculateSimilarity64_below :
    calculateSimilarity64 storedSubject storedBelow = Js.fl 0.6 := by
  have h1 : roomsCredit storedSubject.rooms storedBelow.rooms = 0.25 := by
    simp [roomsCredit, storedSubject, storedBelow]
  have h2 : areaCredit64 storedSubject.area storedBelow.area = 0.20 := areaCredit64_sixty
  have h3 : buildingTypeCredit storedSubject.buildingType storedBelow.buildingType = 0.15 := by
    simp [buildingTypeCredit, storedSubject, storedBelow]
  have h4 : conditionCredit storedSubject.condition storedBelow.condition = 0 := by
    simp [conditionCredit, storedSubject, storedBelow, mapSubject, sampleProperty]
  have h5 : floorCredit storedSubject.floor storedBelow.floor = 0 := by
    simp [floorCredit, storedSubject, storedBelow, mapSubject, sampleProperty]
  have h6 : totalFloorsCredit storedSubject.totalFloors storedBelow.totalFloors = 0 := by
    simp [totalFloorsCredit, storedSubject, storedBelow, mapSubject, sampleProperty]
  have h7 : balconyCredit storedSubject.hasBalcony storedBelow.hasBalcony = 0 := by
    simp [balconyCredit, storedSubject, storedBelow, mapSubject, sampleProperty]
  unfold calculateSimilarity64
  rw [h1, h2, h3, h4, h5, h6, h7]
  simp only [addCredit_zero]
  rw [addCredit_eq (by norm_num) fl_quarter sum_below_1,
    addCredit_eq (by norm_num) fl_fifth sum_below_2,
    addCredit_eq (by norm_num) fl_fifteen sum_below_3, fl_threshold]

end PropertyService

namespace Js

/-! ### Arrays and angles -/

theorem sliceTo_sublist {α : Type} (xs : List α) (stop : ℤ) :
    (sliceTo xs stop).Sublist xs := by
  unfold sliceTo
  split_ifs <;> exact List.take_sublist _ _

theorem sliceTo_zero {α : Type} (xs : List α) : sliceTo xs 0 = [] := by
  simp [sliceTo]

theorem length_sliceTo_le {α : Type} (xs : List α) (stop : ℤ) (h : 0 ≤ stop) :
    ((sliceTo xs stop).length : ℤ) ≤ stop := by
  unfold sliceTo
  rw [if_neg (not_lt.mpr h), List.length_take]
  have : ((min stop.toNat xs.length : ℕ) : ℤ) ≤ (stop.toNat : ℤ) := by
    exact_mod_cast Nat.min_le_left _ _
  rw [Int.toNat_of_nonneg h] at this
  exact this

theorem sliceTo_neg {α : Type} (xs : List α) (stop : ℤ) (h : stop < 0) :
    sliceTo xs stop = sliceTo xs (max ((xs.length : ℤ) + stop) 0) := by
  unfold sliceTo
  rw [if_pos h, if_neg (not_lt.mpr (le_max_right _ _))]
  congr 1
  rcases le_total ((xs.length : ℤ) + stop) 0 with h1 | h1
  · rw [max_eq_right h1, Int.toNat_of_nonpos h1]; rfl
  · rw [max_eq_left h1]

theorem atan2_zero_one : atan2 0 1 = 0 := by
  unfold atan2
  have h : (⟨1, 0⟩ : ℂ) = 1 := by
    apply Complex.ext <;> simp
  rw [h, Complex.arg_one]

/-- A stable sort leaves in place the elements that a test selects, when any
two of them are in order whichever comes first. -/
theorem filter_insertionSort_of_tied {α : Type} (r : α → α → Prop) [DecidableRel r]
    [IsTotal α r] [IsTrans α r] (p : α → Bool) (l : List α)
    (hp : ∀ a ∈ l, ∀ b ∈ l, p a = true → p b = true → r a b) :
    (l.insertionSort r).filter p = l.filter p := by
  have hsub : (l.filter p).Sublist (l.insertionSort r) := by
    apply List.sublist_insertionSort
    · rw [List.pairwise_iff_forall_sublist]
      intro a b hab
      have ha : a ∈ l.filter p := hab.subset (by simp)
      have hb : b ∈ l.filter p := hab.subset (by simp)
      rw [List.mem_filter] at ha hb
      exact hp a ha.1 b hb.1 ha.2 hb.2
    · exact List.filter_sublist l
  have hsub2 : (l.filter p).Sublist ((l.insertionSort r).filter p) := by
    have := hsub.filter p
    simpa using this
  have hperm : ((l.insertionSort r).filter p).Perm (l.filter p) :=
    (List.perm_insertionSort r l).filter p
  exact (hsub2.eq_of_length hperm.length_eq.symm).symm

end Js

namespace GeocodingService

/-! ### Distance and neighbours -/

theorem calculateDistance_comm (lat1 lon1 lat2 lon2 : ℝ) :
    calculateDistance lat1 lon1 lat2 lon2 = calculateDistance lat2 lon2 lat1 lon1 := by
  unfold calculateDistance
  have h1 : (lat1 - lat2) * Real.pi / 180 / 2 = -((lat2 - lat1) * Real.pi / 180 / 2) := by ring
  have h2 : (lon1 - lon2) * Real.pi / 180 / 2 = -((lon2 - lon1) * Real.pi / 180 / 2) := by ring
  simp only [h1, h2, Real.sin_neg]
  have h3 : Real.sin ((lat2 - lat1) * Real.pi / 180 / 2) *
        Real.sin ((lat2 - lat1) * Real.pi / 180 / 2) +
      Real.cos (lat1 * Real.pi / 180) * Real.cos (lat2 * Real.pi / 180) *
        Real.sin ((lon2 - lon1) * Real.pi / 180 / 2) *
        Real.sin ((lon2 - lon1) * Real.pi / 180 / 2) =
      -Real.sin ((lat2 - lat1) * Real.pi / 180 / 2) *
        -Real.sin ((lat2 - lat1) * Real.pi / 180 / 2) +
      Real.cos (lat2 * Real.pi / 180) * Real.cos (lat1 * Real.pi / 180) *
        -Real.sin ((lon2 - lon1) * Real.pi / 180 / 2) *
        -Real.sin ((lon2 - lon1) * Real.pi / 180 / 2) := by ring
  rw [h3]

theorem calculateDistance_self (lat lon : ℝ) : calculateDistance lat lon lat lon = 0 := by
  unfold calculateDistance
  simp [Js.atan2_zero_one]

/-- C18: `findNearbyProperties` returns the entries `{id, distance}` of the
candidates whose distance from the origin is at most `radiusMeters`, each
once and no other (a permutation of them), in order of non-decreasing
distance, the entries at any one distance in the order of the candidate
list; an empty candidate list gives an empty result. -/
theorem C18_findNearbyProperties_sorted_filter (latitude longitude : ℝ)
    (properties : List Candidate) (radiusMeters : ℝ) :
    (findNearbyProperties latitude longitude properties radiusMeters).Perm
        ((properties.map (toNearby latitude longitude)).filter
          (fun e => decide (e.distance ≤ radiusMeters))) ∧
      (findNearbyProperties latitude longitude properties radiusMeters).Pairwise
        (fun a b => a.distance ≤ b.distance) ∧
      (∀ d : ℝ,
        (findNearbyProperties latitude longitude properties radiusMeters).filter
            (fun e => decide (e.distance = d)) =
          ((properties.map (toNearby latitude longitude)).filter
            (fun e => decide (e.distance ≤ radiusMeters))).filter
              (fun e => decide (e.distance = d))) ∧
      findNearbyProperties latitude longitude [] radiusMeters = [] := by
  refine ⟨List.perm_insertionSort _ _, List.sorted_insertionSort byDistance _, ?_, rfl⟩
  intro d
  apply Js.filter_insertionSort_of_tied
  intro a _ b _ ha hb
  simp only [decide_eq_true_eq] at ha hb
  show a.distance ≤ b.distance
  rw [ha, hb]

/-- C20: over the reals `calculateDistance` is symmetric in its two points
and is zero when the two points are the same. -/
theorem C20_calculateDistance_symmetric_zero (lat1 lon1 lat2 lon2 : ℝ) :
    calculateDistance lat1 lon1 lat2 lon2 = calculateDistance lat2 lon2 lat1 lon1 ∧
      calculateDistance lat1 lon1 lat1 lon1 = 0 :=
  ⟨calculateDistance_comm lat1 lon1 lat2 lon2, calculateDistance_self lat1 lon1⟩

end GeocodingService

namespace PropertyService

open GeocodingService

/-! ### Comparable search -/

theorem roomsCredit_adjacent (r1 r2 : ℤ) (h : |r1 - r2| = 1) : roomsCredit r1 r2 = 0.15 := by
  unfold roomsCredit
  have hne : r1 ≠ r2 := by
    rintro rfl
    simp at h
  simp [hne, h]

/-- C11: for two records with a positive area that agree in every attribute
but `rooms`, the numbers of rooms differing by one, the similarity is the sum
of the seven weights minus 0.25 plus 0.15, that is 0.10 below the similarity
of the first record with itself. -/
theorem C11_adjacent_rooms (a b : PropertyData) (ha : 0 < a.area)
    (hb : b = { a with rooms := b.rooms }) (hrooms : |a.rooms - b.rooms| = 1) :
    calculateSimilarity a b = similarityWeights.sum - 0.25 + 0.15 ∧
      calculateSimilarity a b = calculateSimilarity a a - 0.10 := by
  have hsum : similarityWeights.sum = 1 := by norm_num [similarityWeights]
  have hself : calculateSimilarity a a = 1 := calculateSimilarity_self a ha
  have hab : calculateSimilarity a b = 0.90 := by
    rw [hb]
    unfold calculateSimilarity
    simp only []
    rw [areaCredit_self _ ha, roomsCredit_adjacent _ _ hrooms]
    simp [buildingTypeCredit, conditionCredit, floorCredit, totalFloorsCredit, balconyCredit]
    norm_num
  rw [hab, hsum, hself]
  constructor <;> norm_num

/-- C11 at the fixture: two rooms against three, 50 square metres both. -/
theorem C11_adjacent_rooms_witness :
    0 < twoRoomProperty.area ∧
      threeRoomProperty = { twoRoomProperty with rooms := threeRoomProperty.rooms } ∧
      |twoRoomProperty.rooms - threeRoomProperty.rooms| = 1 ∧
      twoRoomProperty.rooms = 2 ∧ threeRoomProperty.rooms = 3 ∧ twoRoomProperty.area = 50 ∧
      calculateSimilarity twoRoomProperty threeRoomProperty =
        similarityWeights.sum - 0.25 + 0.15 ∧
      calculateSimilarity twoRoomProperty threeRoomProperty =
        calculateSimilarity twoRoomProperty twoRoomProperty - 0.10 :=
  ⟨by norm_num [twoRoomProperty], rfl, by decide, rfl, rfl, rfl,
    C11_adjacent_rooms twoRoomProperty threeRoomProperty (by norm_num [twoRoomProperty]) rfl
      (by decide)⟩

theorem fetchRecords_some (store : Store) :
    ∀ (entries : List Nearby) (records : List PropertyData),
      fetchRecords store entries = some records →
        records.length = entries.length ∧
        ∀ p ∈ records, ∃ e ∈ entries, getSaved store (storeKey e.id) = some p := by
  intro entries
  induction entries with
  | nil =>
    intro records h
    simp only [fetchRecords, Option.some.injEq] at h
    subst h
    simp
  | cons e es ih =>
    intro records h
    rw [fetchRecords] at h
    cases hhead : getSaved store (storeKey e.id) with
    | none => simp [hhead] at h
    | some p =>
      cases htail : fetchRecords store es with
      | none => simp [hhead, htail] at h
      | some ps =>
        simp only [hhead, htail, Option.some.injEq] at h
        subst h
        obtain ⟨hlen, hmem⟩ := ih ps htail
        refine ⟨by simp [hlen], ?_⟩
        intro q hq
        rcases List.mem_cons.mp hq with rfl | hq
        · exact ⟨e, by simp, hhead⟩
        · obtain ⟨e2, he2, h2⟩ := hmem q hq
          exact ⟨e2, List.mem_cons_of_mem _ he2, h2⟩

theorem mem_rankSimilar (property : PropertyData) (records : List PropertyData)
    (x : SimilarProperty) (hx : x ∈ rankSimilar property records) :
    x.property ∈ records ∧ x.similarity = calculateSimilarity64 property x.property ∧
      x.distance = calculateDistanceToProperty property x.property ∧
      Js.fl 0.6 < x.similarity := by
  unfold rankSimilar at hx
  rw [List.mem_insertionSort, List.mem_map] at hx
  obtain ⟨p, hp, rfl⟩ := hx
  rw [List.mem_filter] at hp
  exact ⟨hp.1, rfl, rfl, by simpa using hp.2⟩

theorem length_rankSimilar_le (property : PropertyData) (records : List PropertyData) :
    (rankSimilar property records).length ≤ records.length := by
  unfold rankSimilar
  rw [List.length_insertionSort, List.length_map]
  exact List.length_filter_le _ _

theorem sorted_rankSimilar (property : PropertyData) (records : List PropertyData) :
    (rankSimilar property records).Pairwise (fun a b => a.similarity ≥ b.similarity) :=
  List.sorted_insertionSort bySimilarityDesc _

theorem rankSimilar_eq_nil (property : PropertyData) (records : List PropertyData)
    (h : ∀ p ∈ records, calculateSimilarity64 property p ≤ Js.fl 0.6) :
    rankSimilar property records = [] := by
  unfold rankSimilar
  have : records.filter (fun p => decide (calculateSimilarity64 property p > Js.fl 0.6)) =
      [] := by
    rw [List.filter_eq_nil_iff]
    intro p hp
    simpa using h p hp
  rw [this]
  rfl

theorem length_rankSimilar (property : PropertyData) (records : List PropertyData) :
    (rankSimilar property records).length =
      (records.filter
        (fun p => decide (calculateSimilarity64 property p > Js.fl 0.6))).length := by
  unfold rankSimilar
  rw [List.length_insertionSort, List.length_map]

theorem mem_of_getSaved (store : Store) (key : String) (p : PropertyData)
    (h : getSaved store key = some p) : (key, p) ∈ store := by
  unfold getSaved at h
  induction store with
  | nil => simp at h
  | cons entry rest ih =>
    obtain ⟨k, q⟩ := entry
    rw [List.lookup_cons] at h
    by_cases hk : key == k
    · simp only [hk, Option.some.injEq] at h
      have hk2 : key = k := by simpa using hk
      subst h
      subst hk2
      exact List.mem_cons_self _ _
    · simp only [hk] at h
      exact List.mem_cons_of_mem _ (ih h)

theorem getSaved_of_mem (store : Store) (hnodup : (store.map Prod.fst).Nodup) (key : String)
    (p : PropertyData) (h : (key, p) ∈ store) : getSaved store key = some p := by
  unfold getSaved
  induction store with
  | nil => simp at h
  | cons entry rest ih =>
    obtain ⟨k, q⟩ := entry
    rw [List.map_cons, List.nodup_cons] at hnodup
    rw [List.lookup_cons]
    rcases List.mem_cons.mp h with heq | hmem
    · cases heq
      simp
    · have hne : key ≠ k := by
        rintro rfl
        exact hnodup.1 (List.mem_map.mpr ⟨(key, p), hmem, rfl⟩)
      have hb : (key == k) = false := by simpa using hne
      simp only [hb]
      exact ih hnodup.2 hmem

theorem getSaved_own (store : Store) (hnodup : (store.map Prod.fst).Nodup)
    (hkeyed : ∀ entry ∈ store, entry.2.id = some entry.1) (p : PropertyData)
    (hp : p ∈ storeValues store) : getSaved store (storeKey p.id) = some p := by
  unfold storeValues at hp
  rw [List.mem_map] at hp
  obtain ⟨⟨k, q⟩, hkq, rfl⟩ := hp
  have hq := hkeyed (k, q) hkq
  simp only at hq ⊢
  rw [hq]
  exact getSaved_of_mem store hnodup k q hkq

theorem mem_nearbyOf (store : Store) (propertyId : String) (origin : Coordinates)
    (radiusMeters : ℝ) (e : Nearby) (he : e ∈ nearbyOf store propertyId origin radiusMeters) :
    e.distance ≤ radiusMeters ∧
      ∃ p ∈ storeValues store, p.id ≠ some propertyId ∧ e.id = p.id ∧
        ∃ c, p.coordinates = some c ∧
          e.distance = calculateDistance origin.latitude origin.longitude c.latitude
            c.longitude := by
  unfold nearbyOf findNearbyProperties at he
  rw [List.mem_insertionSort, List.mem_filter, List.mem_map] at he
  obtain ⟨⟨cand, hcand, rfl⟩, hdist⟩ := he
  rw [List.mem_filterMap] at hcand
  obtain ⟨p, hp, hpc⟩ := hcand
  unfold otherPropertiesWithCoordinates at hp
  rw [List.mem_filter] at hp
  obtain ⟨hpmem, hpf⟩ := hp
  simp only [Bool.and_eq_true, decide_eq_true_eq] at hpf
  refine ⟨by simpa using hdist, p, hpmem, hpf.1, ?_⟩
  unfold toCandidate at hpc
  cases hc : p.coordinates with
  | none => simp [hc] at hpc
  | some c =>
    simp only [hc, Option.map_some', Option.some.injEq] at hpc
    subst hpc
    exact ⟨rfl, c, rfl, rfl⟩

theorem mem_nearbyInRadius (store : Store) (latitude longitude radiusMeters : ℝ) (e : Nearby) :
    e ∈ nearbyInRadius store latitude longitude radiusMeters ↔
      ∃ p ∈ storeValues store, ∃ c, p.coordinates = some c ∧
        calculateDistance latitude longitude c.latitude c.longitude ≤ radiusMeters ∧
        e = ⟨p.id, calculateDistance latitude longitude c.latitude c.longitude⟩ := by
  unfold nearbyInRadius findNearbyProperties
  rw [List.mem_insertionSort, List.mem_filter, List.mem_map]
  constructor
  · rintro ⟨⟨cand, hcand, rfl⟩, hdist⟩
    rw [List.mem_filterMap] at hcand
    obtain ⟨p, hp, hpc⟩ := hcand
    rw [List.mem_filter] at hp
    unfold toCandidate at hpc
    cases hc : p.coordinates with
    | none => simp [hc] at hpc
    | some c =>
      simp only [hc, Option.map_some', Option.some.injEq] at hpc
      subst hpc
      exact ⟨p, hp.1, c, hc, by simpa [toNearby] using hdist, rfl⟩
  · rintro ⟨p, hp, c, hc, hdist, rfl⟩
    refine ⟨⟨⟨c.latitude, c.longitude, p.id⟩, ?_, rfl⟩, by simpa using hdist⟩
    rw [List.mem_filterMap]
    exact ⟨p, List.mem_filter.mpr ⟨hp, by simp [hc]⟩, by simp [toCandidate, hc]⟩

theorem findSimilarProperties_cases (remote : Remote) (store : Store) (clock : ℕ)
    (propertyId : String) (radiusMeters : ℝ) (maxResults : ℤ) :
    findSimilarProperties remote store clock propertyId radiusMeters maxResults = [] ∨
      ∃ property origin records,
        (getProperty remote store clock propertyId).1 = some property ∧
        property.coordinates = some origin ∧
        fetchRecords store
          (Js.sliceTo (nearbyOf store propertyId origin radiusMeters) maxResults) =
            some records ∧
        findSimilarProperties remote store clock propertyId radiusMeters maxResults =
          rankSimilar property records := by
  unfold findSimilarProperties
  cases hprop : (getProperty remote store clock propertyId).1 with
  | none => exact Or.inl rfl
  | some property =>
    cases hcoord : property.coordinates with
    | none => exact Or.inl (by simp only [hcoord])
    | some origin =>
      cases hrec : fetchRecords store
          (Js.sliceTo (nearbyOf store propertyId origin radiusMeters) maxResults) with
      | none => exact Or.inl (by simp only [hcoord, hrec])
      | some records =>
        exact Or.inr ⟨property, origin, records, rfl, hcoord, hrec, by simp only [hcoord, hrec]⟩

theorem findSimilarProperties_eq (remote : Remote) (store : Store) (clock : ℕ)
    (propertyId : String) (radiusMeters : ℝ) (maxResults : ℤ) (subject : PropertyData)
    (origin : Coordinates)
    (hsubject : (getProperty remote store clock propertyId).1 = some subject)
    (hcoord : subject.coordinates = some origin) :
    findSimilarProperties remote store clock propertyId radiusMeters maxResults =
      match fetchRecords store
          (Js.sliceTo (nearbyOf store propertyId origin radiusMeters) maxResults) with
      | none => []
      | some records => rankSimilar subject records := by
  unfold findSimilarProperties
  rw [hsubject]
  simp only [hcoord]

theorem findSimilarProperties_zero (remote : Remote) (store : Store) (clock : ℕ)
    (propertyId : String) (radiusMeters : ℝ) :
    findSimilarProperties remote store clock propertyId radiusMeters 0 = [] := by
  unfold findSimilarProperties
  cases (getProperty remote store clock propertyId).1 with
  | none => rfl
  | some property =>
    cases hcoord : property.coordinates with
    | none => simp only [hcoord]
    | some origin =>
      simp only [hcoord, Js.sliceTo_zero, fetchRecords]
      rfl

theorem mapStore_subject :
    (getProperty unreachableRemote mapStore 0 "s").1 = some mapSubject := by
  decide

theorem mapStore_nearby (radiusMeters : ℝ) (hr : 0 ≤ radiusMeters) :
    nearbyOf mapStore "s" ⟨50, 36⟩ radiusMeters = [⟨some "a", 0⟩, ⟨some "b", 0⟩] := by
  simp [nearbyOf, findNearbyProperties, otherPropertiesWithCoordinates, storeValues, mapStore,
    mapSubject, mapNeighbourA, mapNeighbourB, sampleProperty, toCandidate, toNearby,
    calculateDistance_self, hr, List.insertionSort, List.orderedInsert, byDistance]

theorem mapStore_similarity : calculateSimilarity64 mapSubject mapNeighbourA = 1 :=
  calculateSimilarity64_full _ _ (by simp [roomsCredit, mapSubject, mapNeighbourA])
    areaCredit64_sixty (by simp [buildingTypeCredit, mapSubject, mapNeighbourA])
    (by simp [conditionCredit, mapSubject, mapNeighbourA])
    (by simp [floorCredit, mapSubject, mapNeighbourA])
    (by simp [totalFloorsCredit, mapSubject, mapNeighbourA])
    (by simp [balconyCredit, mapSubject, mapNeighbourA])

theorem threshold_lt_one : Js.fl 0.6 < 1 := by
  rw [fl_threshold]
  norm_num

theorem savedStore_nearby (radiusMeters : ℝ) (hr : 0 ≤ radiusMeters) :
    nearbyOf savedStore "s" ⟨50, 36⟩ radiusMeters =
      [⟨some "a", 0⟩, ⟨some "u", 0⟩, ⟨some "v", 0⟩] := by
  simp [nearbyOf, findNearbyProperties, otherPropertiesWithCoordinates, storeValues, savedStore,
    storedSubject, storedTwin, storedBoundary, storedBelow, mapSubject, sampleProperty,
    toCandidate, toNearby, calculateDistance_self, hr, List.insertionSort, List.orderedInsert,
    byDistance]

theorem savedStore_distance (p : PropertyData) (hp : p.coordinates = some ⟨50, 36⟩) :
    calculateDistanceToProperty storedSubject p = ((0 : ℝ) : WithTop ℝ) := by
  have : calculateDistanceToProperty storedSubject p =
      ((calculateDistance ((50 : ℚ) : ℝ) ((36 : ℚ) : ℝ) ((50 : ℚ) : ℝ) ((36 : ℚ) : ℝ) : ℝ) :
        WithTop ℝ) := by
    simp only [calculateDistanceToProperty, hp]
    rfl
  rw [this, calculateDistance_self]

theorem savedStore_result :
    findSimilarProperties unreachableRemote savedStore 0 "s" 1000 10 =
      [⟨storedTwin, ((0 : ℝ) : WithTop ℝ), 1⟩,
        ⟨storedBoundary, ((0 : ℝ) : WithTop ℝ), 5404319552844596 / 9007199254740992⟩] := by
  rw [findSimilarProperties_eq unreachableRemote savedStore 0 "s" 1000 10 storedSubject
    ⟨50, 36⟩ (by decide) rfl, savedStore_nearby 1000 (by norm_num)]
  have hs : Js.sliceTo [(⟨some "a", 0⟩ : Nearby), ⟨some "u", 0⟩, ⟨some "v", 0⟩] 10 =
      [⟨some "a", 0⟩, ⟨some "u", 0⟩, ⟨some "v", 0⟩] := by
    simp [Js.sliceTo]
  have h1 : getSaved savedStore "a" = some storedTwin := by decide
  have h2 : getSaved savedStore "u" = some storedBoundary := by decide
  have h3 : getSaved savedStore "v" = some storedBelow := by decide
  have hf : fetchRecords savedStore
      [(⟨some "a", 0⟩ : Nearby), ⟨some "u", 0⟩, ⟨some "v", 0⟩] =
      some [storedTwin, storedBoundary, storedBelow] := by
    simp [fetchRecords, storeKey, h1, h2, h3]
  have d1 := savedStore_distance storedTwin rfl
  have d2 := savedStore_distance storedBoundary rfl
  rw [hs, hf]
  simp only [rankSimilar]
  rw [List.filter_cons_of_pos (by rw [calculateSimilarity64_twin]; simpa using threshold_lt_one),
    List.filter_cons_of_pos (by
      rw [calculateSimilarity64_boundary, fl_threshold]; norm_num),
    List.filter_cons_of_neg (by rw [calculateSimilarity64_below]; simp)]
  simp only [List.filter_nil, List.map_cons, List.map_nil, calculateSimilarity64_twin,
    calculateSimilarity64_boundary, d1, d2, List.insertionSort, List.orderedInsert]
  rw [if_pos (by show (1 : ℚ) ≥ 5404319552844596 / 9007199254740992; norm_num)]

/-- C12: in a store where each record is kept under its own id,
`findSimilarProperties` never returns the subject: no element of the result
has the id `propertyId`, whatever the radius and `maxResults`. -/
theorem C12_subject_not_returned (remote : Remote) (store : Store) (clock : ℕ)
    (propertyId : String) (radiusMeters : ℝ) (maxResults : ℤ)
    (hkeyed : ∀ entry ∈ store, entry.2.id = some entry.1) :
    ∀ x ∈ findSimilarProperties remote store clock propertyId radiusMeters maxResults,
      x.property.id ≠ some propertyId := by
  intro x hx
  rcases findSimilarProperties_cases remote store clock propertyId radiusMeters maxResults with
    h | ⟨property, origin, records, -, -, hrecords, h⟩
  · rw [h] at hx; simp at hx
  · rw [h] at hx
    obtain ⟨hmem, -, -, -⟩ := mem_rankSimilar property records x hx
    obtain ⟨e, he, hsaved⟩ := (fetchRecords_some store _ records hrecords).2 _ hmem
    have he2 := (Js.sliceTo_sublist _ maxResults).subset he
    obtain ⟨-, p, hp, hpid, heid, -⟩ := mem_nearbyOf store propertyId origin radiusMeters e he2
    unfold storeValues at hp
    rw [List.mem_map] at hp
    obtain ⟨⟨k, q⟩, hkq, rfl⟩ := hp
    have hq := hkeyed (k, q) hkq
    simp only at hpid heid hq
    have hx2 := hkeyed _ (mem_of_getSaved store _ _ hsaved)
    simp only at hx2
    rw [hx2, heid, hq]
    rw [hq] at hpid
    simpa [storeKey] using hpid

/-- C12 at the store `mapStore` and the subject `s`. -/
theorem C12_subject_not_returned_witness :
    (∀ entry ∈ mapStore, entry.2.id = some entry.1) ∧
      ∀ x ∈ findSimilarProperties unreachableRemote mapStore 0 "s" 1000 20,
        x.property.id ≠ some "s" :=
  ⟨by decide, C12_subject_not_returned unreachableRemote mapStore 0 "s" 1000 20 (by decide)⟩

/-- C13: every element that `findSimilarProperties` returns carries in
`similarity` the value of `calculateSimilarity(subject, element)`, and that
value is above the double 0.6 with which the method compares it, hence
strictly above 0.6; so when the record fetched for every entry within the
radius scores at most 0.6 the result is empty. -/
theorem C13_similarity_above_threshold (remote : Remote) (store : Store) (clock : ℕ)
    (propertyId : String) (radiusMeters : ℝ) (maxResults : ℤ) (subject : PropertyData)
    (hsubject : (getProperty remote store clock propertyId).1 = some subject) :
    (∀ x ∈ findSimilarProperties remote store clock propertyId radiusMeters maxResults,
        x.similarity = calculateSimilarity64 subject x.property ∧
          Js.fl 0.6 < x.similarity ∧ 0.6 < x.similarity) ∧
      ((∀ origin, subject.coordinates = some origin →
          ∀ e ∈ nearbyOf store propertyId origin radiusMeters,
            ∀ p, getSaved store (storeKey e.id) = some p →
              calculateSimilarity64 subject p ≤ 0.6) →
        findSimilarProperties remote store clock propertyId radiusMeters maxResults = []) := by
  rcases findSimilarProperties_cases remote store clock propertyId radiusMeters maxResults with
    h | ⟨property, origin, records, hprop, hcoord, hrecords, h⟩
  · rw [h]; simp
  · rw [hsubject] at hprop
    cases hprop
    rw [h]
    constructor
    · intro x hx
      obtain ⟨-, hs, -, hgt⟩ := mem_rankSimilar subject records x hx
      refine ⟨hs, hgt, ?_⟩
      have h2 := above_threshold (hs ▸ (calculateSimilarity64_double subject x.property).1) hgt
      norm_num at h2 ⊢
      exact h2
    · intro hall
      apply rankSimilar_eq_nil
      intro p hp
      obtain ⟨e, he, hsaved⟩ := (fetchRecords_some store _ records hrecords).2 _ hp
      have h1 := hall origin hcoord e ((Js.sliceTo_sublist _ maxResults).subset he) p hsaved
      by_contra hgt
      have h2 := above_threshold (calculateSimilarity64_double subject p).1 (not_le.mp hgt)
      norm_num at h1 h2
      linarith

/-- C13 at the store `savedStore` and the subject `s`: the record `a`, equal
to the subject, is returned with the similarity 1, the record `u` with the
similarity 0.6000000000000001, and the record `v`, whose similarity is the
double 0.6, is not returned. -/
theorem C13_similarity_above_threshold_witness :
    (getProperty unreachableRemote savedStore 0 "s").1 = some storedSubject ∧
      (∀ x ∈ findSimilarProperties unreachableRemote savedStore 0 "s" 1000 10,
        x.similarity = calculateSimilarity64 storedSubject x.property ∧
          Js.fl 0.6 < x.similarity ∧ 0.6 < x.similarity) ∧
      (findSimilarProperties unreachableRemote savedStore 0 "s" 1000 10).map
          (fun x => (x.property, x.similarity)) =
        [(storedTwin, 1), (storedBoundary, 5404319552844596 / 9007199254740992)] ∧
      calculateSimilarity64 storedSubject storedBelow = Js.fl 0.6 :=
  ⟨by decide,
    (C13_similarity_above_threshold unreachableRemote savedStore 0 "s" 1000 10 storedSubject
      (by decide)).1,
    by rw [savedStore_result]; rfl, calculateSimilarity64_below⟩

/-- C14: for a non-negative integer `maxResults`, `findSimilarProperties`
returns at most `maxResults` elements. -/
theorem C14_at_most_maxResults (remote : Remote) (store : Store) (clock : ℕ)
    (propertyId : String) (radiusMeters : ℝ) (maxResults : ℤ) (hmax : 0 ≤ maxResults) :
    ((findSimilarProperties remote store clock propertyId radiusMeters maxResults).length : ℤ) ≤
      maxResults := by
  rcases findSimilarProperties_cases remote store clock propertyId radiusMeters maxResults with
    h | ⟨property, origin, records, -, -, hrecords, h⟩
  · rw [h]; simpa using hmax
  · rw [h]
    have h1 := length_rankSimilar_le property records
    have h2 := (fetchRecords_some store _ records hrecords).1
    have h3 := Js.length_sliceTo_le (nearbyOf store propertyId origin radiusMeters)
      maxResults hmax
    rw [← h2] at h3
    have h4 : ((rankSimilar property records).length : ℤ) ≤ (records.length : ℤ) := by
      exact_mod_cast h1
    linarith

/-- C14 at the store `mapStore`, which holds two candidates, with
`maxResults` 1. -/
theorem C14_at_most_maxResults_witness :
    (0 : ℤ) ≤ 1 ∧
      ((findSimilarProperties unreachableRemote mapStore 0 "s" 1000 1).length : ℤ) ≤ 1 :=
  ⟨by norm_num, C14_at_most_maxResults unreachableRemote mapStore 0 "s" 1000 1 (by norm_num)⟩

/-- C15: the list that `findSimilarProperties` returns is sorted by
non-increasing similarity: for any two positions `i < j` of the result the
similarity at `i` is at least the similarity at `j`. -/
theorem C15_sorted_by_similarity (remote : Remote) (store : Store) (clock : ℕ)
    (propertyId : String) (radiusMeters : ℝ) (maxResults : ℤ) :
    (findSimilarProperties remote store clock propertyId radiusMeters maxResults).Pairwise
        (fun a b => a.similarity ≥ b.similarity) ∧
      ∀ (i j : ℕ) (hij : i < j)
        (hj : j < (findSimilarProperties remote store clock propertyId radiusMeters
          maxResults).length),
        ((findSimilarProperties remote store clock propertyId radiusMeters maxResults).get
            ⟨i, lt_trans hij hj⟩).similarity ≥
          ((findSimilarProperties remote store clock propertyId radiusMeters maxResults).get
            ⟨j, hj⟩).similarity := by
  have hsorted : (findSimilarProperties remote store clock propertyId radiusMeters
      maxResults).Pairwise (fun a b => a.similarity ≥ b.similarity) := by
    rcases findSimilarProperties_cases remote store clock propertyId radiusMeters maxResults with
      h | ⟨property, origin, records, -, -, -, h⟩
    · rw [h]; exact List.Pairwise.nil
    · rw [h]; exact sorted_rankSimilar _ _
  refine ⟨hsorted, ?_⟩
  intro i j hij hj
  exact (List.pairwise_iff_get.mp hsorted) ⟨i, lt_trans hij hj⟩ ⟨j, hj⟩ hij

/-- C16, as stated, fails: with `maxResults` −1 and two stored candidates at
the place of the subject, `findSimilarProperties` returns one element, not the
empty list. -/
theorem C16_negative_maxResults_counterexample :
    (-1 : ℤ) ≤ 0 ∧
      (findSimilarProperties unreachableRemote mapStore 0 "s" 1000 (-1)).length = 1 := by
  refine ⟨by norm_num, ?_⟩
  rw [findSimilarProperties_eq unreachableRemote mapStore 0 "s" 1000 (-1) mapSubject ⟨50, 36⟩
    mapStore_subject rfl, mapStore_nearby 1000 (by norm_num)]
  have hs : Js.sliceTo [(⟨some "a", 0⟩ : Nearby), ⟨some "b", 0⟩] (-1) = [⟨some "a", 0⟩] := by
    simp [Js.sliceTo]
  have hsaved : getSaved mapStore "a" = some mapNeighbourA := by decide
  have hf : fetchRecords mapStore [(⟨some "a", 0⟩ : Nearby)] = some [mapNeighbourA] := by
    simp [fetchRecords, storeKey, hsaved]
  rw [hs, hf]
  simp only [length_rankSimilar]
  rw [List.filter_cons_of_pos (by rw [mapStore_similarity]; simpa using threshold_lt_one)]
  rfl

/-- C16, amended: with `maxResults` 0 the result is empty, and with a
negative `maxResults` it is empty when the number of stored candidates within
the radius is at most `-maxResults`. -/
theorem C16_zero_and_negative_maxResults (remote : Remote) (store : Store) (clock : ℕ)
    (propertyId : String) (radiusMeters : ℝ) (maxResults : ℤ) (subject : PropertyData)
    (origin : Coordinates)
    (hsubject : (getProperty remote store clock propertyId).1 = some subject)
    (hcoord : subject.coordinates = some origin) (hneg : maxResults < 0) :
    findSimilarProperties remote store clock propertyId radiusMeters 0 = [] ∧
      (((nearbyOf store propertyId origin radiusMeters).length : ℤ) ≤ -maxResults →
        findSimilarProperties remote store clock propertyId radiusMeters maxResults = []) := by
  have h2 : findSimilarProperties remote store clock propertyId radiusMeters maxResults =
      findSimilarProperties remote store clock propertyId radiusMeters
        (max (((nearbyOf store propertyId origin radiusMeters).length : ℤ) + maxResults) 0) := by
    rw [findSimilarProperties_eq remote store clock propertyId radiusMeters maxResults subject
        origin hsubject hcoord,
      findSimilarProperties_eq remote store clock propertyId radiusMeters _ subject
        origin hsubject hcoord, ← Js.sliceTo_neg _ _ hneg]
  refine ⟨findSimilarProperties_zero remote store clock propertyId radiusMeters, ?_⟩
  intro hlen
  rw [h2, max_eq_right (by linarith)]
  exact findSimilarProperties_zero remote store clock propertyId radiusMeters

/-- C16, amended, at the store `mapStore` with `maxResults` −2, as many as
the candidates. -/
theorem C16_zero_and_negative_maxResults_witness :
    (getProperty unreachableRemote mapStore 0 "s").1 = some mapSubject ∧
      mapSubject.coordinates = some ⟨50, 36⟩ ∧ (-2 : ℤ) < 0 ∧
      findSimilarProperties unreachableRemote mapStore 0 "s" 1000 0 = [] ∧
      findSimilarProperties unreachableRemote mapStore 0 "s" 1000 (-2) = [] :=
  ⟨by decide, rfl, by norm_num,
    (C16_zero_and_negative_maxResults unreachableRemote mapStore 0 "s" 1000 (-2) mapSubject
      ⟨50, 36⟩ (by decide) rfl (by norm_num)).1,
    (C16_zero_and_negative_maxResults unreachableRemote mapStore 0 "s" 1000 (-2) mapSubject
      ⟨50, 36⟩ (by decide) rfl (by norm_num)).2
      (by rw [mapStore_nearby 1000 (by norm_num)]; norm_num)⟩

/-- C17: when the subject cannot be found, or its record has no coordinates,
`findSimilarProperties` returns the empty list, whatever the store, the
radius and `maxResults`. -/
theorem C17_missing_subject_gives_empty (remote : Remote) (store : Store) (clock : ℕ)
    (propertyId : String) (radiusMeters : ℝ) (maxResults : ℤ)
    (h : (getProperty remote store clock propertyId).1 = none ∨
      ∃ p, (getProperty remote store clock propertyId).1 = some p ∧ p.coordinates = none) :
    findSimilarProperties remote store clock propertyId radiusMeters maxResults = [] := by
  unfold findSimilarProperties
  rcases h with h | ⟨p, hp, hc⟩
  · rw [h]
  · rw [hp]
    simp only [hc]

/-- C17 at the store `sampleStore`: the id `absent` is not stored, and the
record of `prop_1` has no coordinates. -/
theorem C17_missing_subject_gives_empty_witness :
    (getProperty unreachableRemote sampleStore 0 "absent").1 = none ∧
      (getProperty unreachableRemote sampleStore 0 "prop_1").1 = some sampleProperty ∧
      sampleProperty.coordinates = none ∧
      findSimilarProperties unreachableRemote sampleStore 0 "absent" 1000 10 = [] ∧
      findSimilarProperties unreachableRemote sampleStore 0 "prop_1" 1000 10 = [] :=
  ⟨by decide, by decide, rfl,
    C17_missing_subject_gives_empty unreachableRemote sampleStore 0 "absent" 1000 10
      (Or.inl (by decide)),
    C17_missing_subject_gives_empty unreachableRemote sampleStore 0 "prop_1" 1000 10
      (Or.inr ⟨sampleProperty, by decide, rfl⟩)⟩

end PropertyService

namespace GeocodingService

/-! ### The haversine term -/

theorem calculateDistance_eq (lat1 lon1 lat2 lon2 : ℝ) :
    calculateDistance lat1 lon1 lat2 lon2 =
      6371000 * (2 * Js.atan2 (Real.sqrt (haversineTerm lat1 lon1 lat2 lon2))
        (Real.sqrt (1 - haversineTerm lat1 lon1 lat2 lon2))) := rfl

theorem haversine_expand (p1 p2 l : ℝ) :
    Real.sin ((p2 - p1) / 2) * Real.sin ((p2 - p1) / 2) +
        Real.cos p1 * Real.cos p2 * Real.sin (l / 2) * Real.sin (l / 2) =
      (1 - (Real.sin p1 * Real.sin p2 + Real.cos p1 * Real.cos p2 * Real.cos l)) / 2 := by
  have h1 := Real.sin_sq_eq_half_sub ((p2 - p1) / 2)
  have h2 := Real.sin_sq_eq_half_sub (l / 2)
  have e1 : 2 * ((p2 - p1) / 2) = p2 - p1 := by ring
  have e2 : 2 * (l / 2) = l := by ring
  rw [e1, Real.cos_sub] at h1
  rw [e2] at h2
  have h1' : Real.sin ((p2 - p1) / 2) * Real.sin ((p2 - p1) / 2) =
      1 / 2 - (Real.cos p2 * Real.cos p1 + Real.sin p2 * Real.sin p1) / 2 := by
    rw [← h1]; ring
  have h2' : Real.sin (l / 2) * Real.sin (l / 2) = 1 / 2 - Real.cos l / 2 := by
    rw [← h2]; ring
  rw [h1', mul_assoc (Real.cos p1 * Real.cos p2), h2']
  ring

theorem haversineTerm_bounds (lat1 lon1 lat2 lon2 : ℝ) :
    0 ≤ haversineTerm lat1 lon1 lat2 lon2 ∧ haversineTerm lat1 lon1 lat2 lon2 ≤ 1 := by
  unfold haversineTerm
  simp only []
  have e1 : (lat2 - lat1) * Real.pi / 180 / 2 =
      (lat2 * Real.pi / 180 - lat1 * Real.pi / 180) / 2 := by ring
  rw [e1, haversine_expand]
  set s1 := Real.sin (lat1 * Real.pi / 180)
  set s2 := Real.sin (lat2 * Real.pi / 180)
  set c1 := Real.cos (lat1 * Real.pi / 180)
  set c2 := Real.cos (lat2 * Real.pi / 180)
  set k := Real.cos ((lon2 - lon1) * Real.pi / 180)
  have hs1 : s1 ^ 2 + c1 ^ 2 = 1 := Real.sin_sq_add_cos_sq _
  have hs2 : s2 ^ 2 + c2 ^ 2 = 1 := Real.sin_sq_add_cos_sq _
  have hk1 : -1 ≤ k := Real.neg_one_le_cos _
  have hk2 : k ≤ 1 := Real.cos_le_one _
  have ha := mul_nonneg (by linarith : (0 : ℝ) ≤ 1 + k) (sq_nonneg (c1 - c2))
  have hb := mul_nonneg (by linarith : (0 : ℝ) ≤ 1 - k) (sq_nonneg (c1 + c2))
  have hc := mul_nonneg (by linarith : (0 : ℝ) ≤ 1 - k) (sq_nonneg (c1 - c2))
  have hd := mul_nonneg (by linarith : (0 : ℝ) ≤ 1 + k) (sq_nonneg (c1 + c2))
  constructor
  · nlinarith [sq_nonneg (s1 - s2)]
  · nlinarith [sq_nonneg (s1 + s2)]

theorem atan2_quadrant (y x : ℝ) (hy : 0 ≤ y) (hx : 0 ≤ x) :
    0 ≤ Js.atan2 y x ∧ Js.atan2 y x ≤ Real.pi / 2 := by
  unfold Js.atan2
  constructor
  · rw [Complex.arg_nonneg_iff]; exact hy
  · rw [Complex.arg_le_pi_div_two_iff]; exact Or.inl hx

/-- Over the reals, that is, were every operation exact, the haversine term
`a` of `calculateDistance` satisfies `0 ≤ a ≤ 1`, so `a` and `1 - a`, the arguments
of the two square roots, lie between 0 and 1, the two square roots are never
both zero, and the distance returned lies between 0 and `π × 6371000`. -/
theorem haversineTerm_distance_bounds (lat1 lon1 lat2 lon2 : ℝ) :
    haversineTerm lat1 lon1 lat2 lon2 ∈ Set.Icc (0 : ℝ) 1 ∧
      1 - haversineTerm lat1 lon1 lat2 lon2 ∈ Set.Icc (0 : ℝ) 1 ∧
      ¬ (Real.sqrt (haversineTerm lat1 lon1 lat2 lon2) = 0 ∧
        Real.sqrt (1 - haversineTerm lat1 lon1 lat2 lon2) = 0) ∧
      calculateDistance lat1 lon1 lat2 lon2 =
        6371000 * (2 * Js.atan2 (Real.sqrt (haversineTerm lat1 lon1 lat2 lon2))
          (Real.sqrt (1 - haversineTerm lat1 lon1 lat2 lon2))) ∧
      0 ≤ calculateDistance lat1 lon1 lat2 lon2 ∧
      calculateDistance lat1 lon1 lat2 lon2 ≤ Real.pi * 6371000 := by
  obtain ⟨h0, h1⟩ := haversineTerm_bounds lat1 lon1 lat2 lon2
  have hq := atan2_quadrant (Real.sqrt (haversineTerm lat1 lon1 lat2 lon2))
    (Real.sqrt (1 - haversineTerm lat1 lon1 lat2 lon2)) (Real.sqrt_nonneg _) (Real.sqrt_nonneg _)
  refine ⟨⟨h0, h1⟩, ⟨by linarith, by linarith⟩, ?_, calculateDistance_eq _ _ _ _, ?_, ?_⟩
  · rintro ⟨ha, hb⟩
    rw [Real.sqrt_eq_zero h0] at ha
    rw [Real.sqrt_eq_zero (by linarith)] at hb
    linarith
  · rw [calculateDistance_eq]
    have := hq.1
    positivity
  · rw [calculateDistance_eq]
    nlinarith [hq.2]

/-! ### The haversine term in double-precision arithmetic -/

/-- C21: in the double-precision arithmetic of the code the haversine term
is not always at most 1. At `calculateDistance(87.5, 0, -87.5, 180)`, with a
library whose sine and cosine return the binary64 values nearest to the exact
ones at the arguments passed, the term `a` is `1 + 2^-52`, the test `a <= 1`
is false, `1 - a` is negative, its square root is `NaN`, and the method
returns `NaN`. -/
theorem C21_haversine_term_exceeds_one (math : Js.MathLibrary)
    (hsin : math.sin (-(6877731147805427 / 4503599627370496)) =
      -(8998626396882423 / 9007199254740992))
    (hcos1 : math.cos (6877731147805427 / 4503599627370496) =
      3143108106954521 / 72057594037927936)
    (hcos2 : math.cos (-(6877731147805427 / 4503599627370496)) =
      3143108106954521 / 72057594037927936)
    (hsin2 : math.sin (884279719003555 / 562949953421312) = 1) :
    haversineTerm64 math (.ofRat 87.5) (.ofRat 0) (.ofRat (-87.5)) (.ofRat 180) =
        .finite (1 + 1 / 2 ^ 52) ∧
      (haversineTerm64 math (.ofRat 87.5) (.ofRat 0) (.ofRat (-87.5)) (.ofRat 180)).le
        (.ofRat 1) = false ∧
      (Js.Number.ofRat 1).sub
        (haversineTerm64 math (.ofRat 87.5) (.ofRat 0) (.ofRat (-87.5)) (.ofRat 180)) =
        .finite (-(1 / 2 ^ 52)) ∧
      ((Js.Number.ofRat 1).sub
        (haversineTerm64 math (.ofRat 87.5) (.ofRat 0) (.ofRat (-87.5)) (.ofRat 180))).sqrt
        math = .nan ∧
      calculateDistance64 math (.ofRat 87.5) (.ofRat 0) (.ofRat (-87.5)) (.ofRat 180) = .nan := by
  have e2 : Js.Number.ofRat 0 = .finite 0 := Js.ofRat_zero
  have e1 : Js.Number.ofRat 87.5 = .finite 87.5 := by
    exact Js.ofRat_eq_of_pos (6) (6157265115545600) (by norm_num [Js.PI]) (by norm_num [Js.PI]) (by norm_num [Js.PI])
      (by norm_num [Js.PI]) (by norm_num [Js.PI]) (by norm_num [Js.PI]) (by norm_num [Js.PI])
  have e3 : Js.Number.ofRat (-87.5) = .finite (-87.5) := by
    exact Js.ofRat_eq_of_neg (6) (-6157265115545600) (by norm_num [Js.PI]) (by norm_num [Js.PI]) (by norm_num [Js.PI])
      (by norm_num [Js.PI]) (by norm_num [Js.PI]) (by norm_num [Js.PI]) (by norm_num [Js.PI]) (by norm_num [Js.PI])
  have e4 : Js.Number.ofRat 180 = .finite 180 := by
    exact Js.ofRat_eq_of_pos (7) (6333186975989760) (by norm_num [Js.PI]) (by norm_num [Js.PI]) (by norm_num [Js.PI])
      (by norm_num [Js.PI]) (by norm_num [Js.PI]) (by norm_num [Js.PI]) (by norm_num [Js.PI])
  have e5 : Js.Number.ofRat 2 = .finite 2 := by
    exact Js.ofRat_eq_of_pos (1) (4503599627370496) (by norm_num [Js.PI]) (by norm_num [Js.PI]) (by norm_num [Js.PI])
      (by norm_num [Js.PI]) (by norm_num [Js.PI]) (by norm_num [Js.PI]) (by norm_num [Js.PI])
  have e6 : Js.Number.ofRat 1 = .finite 1 := by
    exact Js.ofRat_eq_of_pos (0) (4503599627370496) (by norm_num [Js.PI]) (by norm_num [Js.PI]) (by norm_num [Js.PI])
      (by norm_num [Js.PI]) (by norm_num [Js.PI]) (by norm_num [Js.PI]) (by norm_num [Js.PI])
  have e7 : Js.Number.ofRat 6371000 = .finite 6371000 := by
    exact Js.ofRat_eq_of_pos (22) (6840809160704000) (by norm_num [Js.PI]) (by norm_num [Js.PI]) (by norm_num [Js.PI])
      (by norm_num [Js.PI]) (by norm_num [Js.PI]) (by norm_num [Js.PI]) (by norm_num [Js.PI])
  have p1 : (Js.Number.finite 87.5).mul (Js.Number.finite Js.PI) = .finite (4835904713300691 / 17592186044416) := by
    show Js.Number.ofRat (87.5 * Js.PI) = _
    exact Js.ofRat_eq_of_pos (8) (4835904713300691) (by norm_num [Js.PI]) (by norm_num [Js.PI]) (by norm_num [Js.PI])
      (by norm_num [Js.PI]) (by norm_num [Js.PI]) (by norm_num [Js.PI]) (by norm_num [Js.PI])
  have p2 : (Js.Number.finite (4835904713300691 / 17592186044416)).div (Js.Number.finite 180) = .finite (6877731147805427 / 4503599627370496) := by
    rw [Js.Number.div_finite _ _ (by norm_num)]
    exact Js.ofRat_eq_of_pos (0) (6877731147805427) (by norm_num [Js.PI]) (by norm_num [Js.PI]) (by norm_num [Js.PI])
      (by norm_num [Js.PI]) (by norm_num [Js.PI]) (by norm_num [Js.PI]) (by norm_num [Js.PI])
  have p3 : (Js.Number.finite (-87.5)).mul (Js.Number.finite Js.PI) = .finite (-(4835904713300691 / 17592186044416)) := by
    show Js.Number.ofRat ((-87.5) * Js.PI) = _
    exact Js.ofRat_eq_of_neg (8) (-4835904713300691) (by norm_num [Js.PI]) (by norm_num [Js.PI]) (by norm_num [Js.PI])
      (by norm_num [Js.PI]) (by norm_num [Js.PI]) (by norm_num [Js.PI]) (by norm_num [Js.PI]) (by norm_num [Js.PI])
  have p4 : (Js.Number.finite (-(4835904713300691 / 17592186044416))).div (Js.Number.finite 180) = .finite (-(6877731147805427 / 4503599627370496)) := by
    rw [Js.Number.div_finite _ _ (by norm_num)]
    exact Js.ofRat_eq_of_neg (0) (-6877731147805427) (by norm_num [Js.PI]) (by norm_num [Js.PI]) (by norm_num [Js.PI])
      (by norm_num [Js.PI]) (by norm_num [Js.PI]) (by norm_num [Js.PI]) (by norm_num [Js.PI]) (by norm_num [Js.PI])
  have p5 : (Js.Number.finite (-87.5)).sub (Js.Number.finite 87.5) = .finite (-175) := by
    show Js.Number.ofRat ((-87.5) + -87.5) = _
    exact Js.ofRat_eq_of_neg (7) (-6157265115545600) (by norm_num [Js.PI]) (by norm_num [Js.PI]) (by norm_num [Js.PI])
      (by norm_num [Js.PI]) (by norm_num [Js.PI]) (by norm_num [Js.PI]) (by norm_num [Js.PI]) (by norm_num [Js.PI])
  have p6 : (Js.Number.finite (-175)).mul (Js.Number.finite Js.PI) = .finite (-(4835904713300691 / 8796093022208)) := by
    show Js.Number.ofRat ((-175) * Js.PI) = _
    exact Js.ofRat_eq_of_neg (9) (-4835904713300691) (by norm_num [Js.PI]) (by norm_num [Js.PI]) (by norm_num [Js.PI])
      (by norm_num [Js.PI]) (by norm_num [Js.PI]) (by norm_num [Js.PI]) (by norm_num [Js.PI]) (by norm_num [Js.PI])
  have p7 : (Js.Number.finite (-(4835904713300691 / 8796093022208))).div (Js.Number.finite 180) = .finite (-(6877731147805427 / 2251799813685248)) := by
    rw [Js.Number.div_finite _ _ (by norm_num)]
    exact Js.ofRat_eq_of_neg (1) (-6877731147805427) (by norm_num [Js.PI]) (by norm_num [Js.PI]) (by norm_num [Js.PI])
      (by norm_num [Js.PI]) (by norm_num [Js.PI]) (by norm_num [Js.PI]) (by norm_num [Js.PI]) (by norm_num [Js.PI])
  have p8 : (Js.Number.finite 180).sub (Js.Number.finite 0) = .finite 180 := by
    show Js.Number.ofRat (180 + -0) = _
    exact Js.ofRat_eq_of_pos (7) (6333186975989760) (by norm_num [Js.PI]) (by norm_num [Js.PI]) (by norm_num [Js.PI])
      (by norm_num [Js.PI]) (by norm_num [Js.PI]) (by norm_num [Js.PI]) (by norm_num [Js.PI])
  have p9 : (Js.Number.finite 180).mul (Js.Number.finite Js.PI) = .finite (4974073419394997 / 8796093022208) := by
    show Js.Number.ofRat (180 * Js.PI) = _
    exact Js.ofRat_eq_of_pos (9) (4974073419394997) (by norm_num [Js.PI]) (by norm_num [Js.PI]) (by norm_num [Js.PI])
      (by norm_num [Js.PI]) (by norm_num [Js.PI]) (by norm_num [Js.PI]) (by norm_num [Js.PI])
  have p10 : (Js.Number.finite (4974073419394997 / 8796093022208)).div (Js.Number.finite 180) = .finite (884279719003555 / 281474976710656) := by
    rw [Js.Number.div_finite _ _ (by norm_num)]
    exact Js.ofRat_eq_of_pos (1) (7074237752028440) (by norm_num [Js.PI]) (by norm_num [Js.PI]) (by norm_num [Js.PI])
      (by norm_num [Js.PI]) (by norm_num [Js.PI]) (by norm_num [Js.PI]) (by norm_num [Js.PI])
  have p11 : (Js.Number.finite (-(6877731147805427 / 2251799813685248))).div (Js.Number.finite 2) = .finite (-(6877731147805427 / 4503599627370496)) := by
    rw [Js.Number.div_finite _ _ (by norm_num)]
    exact Js.ofRat_eq_of_neg (0) (-6877731147805427) (by norm_num [Js.PI]) (by norm_num [Js.PI]) (by norm_num [Js.PI])
      (by norm_num [Js.PI]) (by norm_num [Js.PI]) (by norm_num [Js.PI]) (by norm_num [Js.PI]) (by norm_num [Js.PI])
  have p12 : (Js.Number.finite (884279719003555 / 281474976710656)).div (Js.Number.finite 2) = .finite (884279719003555 / 562949953421312) := by
    rw [Js.Number.div_finite _ _ (by norm_num)]
    exact Js.ofRat_eq_of_pos (0) (7074237752028440) (by norm_num [Js.PI]) (by norm_num [Js.PI]) (by norm_num [Js.PI])
      (by norm_num [Js.PI]) (by norm_num [Js.PI]) (by norm_num [Js.PI]) (by norm_num [Js.PI])
  have q1 : (Js.Number.finite (-(8998626396882423 / 9007199254740992))).mul (Js.Number.finite (-(8998626396882423 / 9007199254740992))) = .finite (4495030849242473 / 4503599627370496) := by
    show Js.Number.ofRat ((-(8998626396882423 / 9007199254740992)) * (-(8998626396882423 / 9007199254740992))) = _
    exact Js.ofRat_eq_of_pos (-1) (8990061698484946) (by norm_num [Js.PI]) (by norm_num [Js.PI]) (by norm_num [Js.PI])
      (by norm_num [Js.PI]) (by norm_num [Js.PI]) (by norm_num [Js.PI]) (by norm_num [Js.PI])
  have q2 : (Js.Number.finite (3143108106954521 / 72057594037927936)).mul (Js.Number.finite (3143108106954521 / 72057594037927936)) = .finite (4387214401548093 / 2305843009213693952) := by
    show Js.Number.ofRat ((3143108106954521 / 72057594037927936) * (3143108106954521 / 72057594037927936)) = _
    exact Js.ofRat_eq_of_pos (-10) (8774428803096186) (by norm_num [Js.PI]) (by norm_num [Js.PI]) (by norm_num [Js.PI])
      (by norm_num [Js.PI]) (by norm_num [Js.PI]) (by norm_num [Js.PI]) (by norm_num [Js.PI])
  have q3 : (Js.Number.finite (4387214401548093 / 2305843009213693952)).mul (Js.Number.finite 1) = .finite (4387214401548093 / 2305843009213693952) := by
    show Js.Number.ofRat ((4387214401548093 / 2305843009213693952) * 1) = _
    exact Js.ofRat_eq_of_pos (-10) (8774428803096186) (by norm_num [Js.PI]) (by norm_num [Js.PI]) (by norm_num [Js.PI])
      (by norm_num [Js.PI]) (by norm_num [Js.PI]) (by norm_num [Js.PI]) (by norm_num [Js.PI])
  have q4 : (Js.Number.finite (4387214401548093 / 2305843009213693952)).mul (Js.Number.finite 1) = .finite (4387214401548093 / 2305843009213693952) := by
    show Js.Number.ofRat ((4387214401548093 / 2305843009213693952) * 1) = _
    exact Js.ofRat_eq_of_pos (-10) (8774428803096186) (by norm_num [Js.PI]) (by norm_num [Js.PI]) (by norm_num [Js.PI])
      (by norm_num [Js.PI]) (by norm_num [Js.PI]) (by norm_num [Js.PI]) (by norm_num [Js.PI])
  have q5 : (Js.Number.finite (4495030849242473 / 4503599627370496)).add (Js.Number.finite (4387214401548093 / 2305843009213693952)) = .finite (4503599627370497 / 4503599627370496) := by
    show Js.Number.ofRat ((4495030849242473 / 4503599627370496) + (4387214401548093 / 2305843009213693952)) = _
    exact Js.ofRat_eq_of_pos (0) (4503599627370497) (by norm_num [Js.PI]) (by norm_num [Js.PI]) (by norm_num [Js.PI])
      (by norm_num [Js.PI]) (by norm_num [Js.PI]) (by norm_num [Js.PI]) (by norm_num [Js.PI])
  have q6 : (Js.Number.finite 1).sub (Js.Number.finite (4503599627370497 / 4503599627370496)) = .finite (-(1 / 4503599627370496)) := by
    show Js.Number.ofRat (1 + -(4503599627370497 / 4503599627370496)) = _
    exact Js.ofRat_eq_of_neg (-52) (-4503599627370496) (by norm_num [Js.PI]) (by norm_num [Js.PI]) (by norm_num [Js.PI])
      (by norm_num [Js.PI]) (by norm_num [Js.PI]) (by norm_num [Js.PI]) (by norm_num [Js.PI]) (by norm_num [Js.PI])
  have ha : haversineTerm64 math (.ofRat 87.5) (.ofRat 0) (.ofRat (-87.5)) (.ofRat 180) =
      .finite (4503599627370497 / 4503599627370496) := by
    simp only [haversineTerm64, e1, e2, e3, e4, e5, p1, p2, p3, p4, p5, p6, p7, p8, p9, p10, p11,
      p12, Js.Number.sin_finite, Js.Number.cos_finite, hsin, hcos1, hcos2, hsin2, q1, q2, q3, q4,
      q5]
  have hs1 : (Js.Number.finite (4503599627370497 / 4503599627370496)).sqrt math =
      .finite (math.sqrt (4503599627370497 / 4503599627370496)) := by
    simp only [Js.Number.sqrt]
    rw [if_neg (by norm_num)]
  have hs2 : (Js.Number.finite (-(1 / 4503599627370496))).sqrt math = .nan := by
    simp only [Js.Number.sqrt]
    rw [if_pos (by norm_num)]
  have hd : calculateDistance64 math (.ofRat 87.5) (.ofRat 0) (.ofRat (-87.5)) (.ofRat 180) =
      .nan := by
    simp only [calculateDistance64, ha, e5, e6, e7, q6, hs1, hs2]
    rfl
  have hv : (4503599627370497 / 4503599627370496 : ℚ) = 1 + 1 / 2 ^ 52 := by norm_num
  have hw : (-(1 / 4503599627370496) : ℚ) = -(1 / 2 ^ 52) := by norm_num
  refine ⟨by rw [ha, hv], ?_, by rw [ha, e6, q6, hw], by rw [ha, e6, q6, hs2], hd⟩
  rw [ha, e6]
  simp only [Js.Number.le, decide_eq_false_iff_not]
  norm_num

theorem C21_haversine_term_exceeds_one_witness :
    (sampleLibrary.sin (-(6877731147805427 / 4503599627370496)) =
        -(8998626396882423 / 9007199254740992) ∧
      sampleLibrary.cos (6877731147805427 / 4503599627370496) =
        3143108106954521 / 72057594037927936 ∧
      sampleLibrary.cos (-(6877731147805427 / 4503599627370496)) =
        3143108106954521 / 72057594037927936 ∧
      sampleLibrary.sin (884279719003555 / 562949953421312) = 1) ∧
    haversineTerm64 sampleLibrary (.ofRat 87.5) (.ofRat 0) (.ofRat (-87.5)) (.ofRat 180) =
      .finite (1 + 1 / 2 ^ 52) ∧
    calculateDistance64 sampleLibrary (.ofRat 87.5) (.ofRat 0) (.ofRat (-87.5)) (.ofRat 180) =
      .nan :=
  have h := C21_haversine_term_exceeds_one sampleLibrary (by norm_num [sampleLibrary])
    (by norm_num [sampleLibrary]) (by norm_num [sampleLibrary]) (by norm_num [sampleLibrary])
  ⟨⟨by norm_num [sampleLibrary], by norm_num [sampleLibrary], by norm_num [sampleLibrary],
    by norm_num [sampleLibrary]⟩, h.1, h.2.2.2.2⟩

end GeocodingService

namespace PropertyService

open GeocodingService

/-! ### Failure, invalid areas, monotonicity -/

/-- C22: when the remote valuation request fails and `getProperty` yields
`null`, `getValuation` settles, with two units of fuel or more, by rejecting
with an `Error`: no valuation is returned. -/
theorem C22_missing_record_fails (remote : Remote) (store : Store) (clock : ℕ) (propertyId : String) (fuel : ℕ)
    (hremote : remote.valuation clock propertyId = none)
    (hnull : (getProperty remote store (clock + 1) propertyId).1 = none) :
    getValuation remote store (fuel + 2) clock propertyId =
      some (.error "Дані про нерухомість не знайдені", clock + 2) := by
  rw [getValuation, hremote]
  simp only []
  rw [getLocalValuation]
  have h2 : (getProperty remote store (clock + 1) propertyId).2 = clock + 2 := by
    unfold getProperty
    split <;> rfl
  have h3 : getProperty remote store (clock + 1) propertyId = (none, clock + 2) := by
    rw [← hnull, ← h2]
  rw [h3]

theorem areaCredit_zero_of_nonpos (a1 a2 : ℚ) (h : a1 ≤ 0 ∨ a2 ≤ 0) (hmax : 0 ≤ max a1 a2) :
    areaCredit a1 a2 = 0 := by
  unfold areaCredit areaDiff
  by_cases h0 : max a1 a2 = 0
  · simp [h0]
  · have hpos : 0 < max a1 a2 := lt_of_le_of_ne hmax (Ne.symm h0)
    have hge : max a1 a2 ≤ |a1 - a2| := by
      rcases h with h | h
      · have h2 : max a1 a2 = a2 := by
          rcases le_total a1 a2 with h3 | h3
          · exact max_eq_right h3
          · exfalso
            rw [max_eq_left h3] at hpos
            linarith
        rw [h2, abs_sub_comm]
        exact le_trans (by linarith) (le_abs_self _)
      · have h2 : max a1 a2 = a1 := by
          rcases le_total a1 a2 with h3 | h3
          · exfalso
            rw [max_eq_right h3] at hpos
            linarith
          · exact max_eq_left h3
        rw [h2]
        exact le_trans (by linarith) (le_abs_self _)
    have hq : 1 ≤ |a1 - a2| / max a1 a2 := by
      rw [le_div_iff₀ hpos]
      linarith
    simp only [h0, if_false]
    rw [if_neg (by norm_num; linarith), if_neg (by norm_num; linarith),
      if_neg (by norm_num; linarith)]

theorem areaCredit_of_neg (a1 a2 : ℚ) (h1 : a1 < 0) (h2 : a2 < 0) :
    areaCredit a1 a2 = 0.20 := by
  unfold areaCredit areaDiff
  have hmax : max a1 a2 < 0 := max_lt h1 h2
  have hq : |a1 - a2| / max a1 a2 ≤ 0 :=
    div_nonpos_of_nonneg_of_nonpos (abs_nonneg _) hmax.le
  simp only [hmax.ne, if_false]
  rw [if_pos (by norm_num; linarith)]

/-- C30: for all integers `floor` and `totalFloors`, `getFloorScore` is 1.00
exactly when `4 ≤ floor ≤ totalFloors − 3`; so no floor of a building of fewer
than 7 storeys gets 1.00, and every result is one of 0.80, 0.85, 0.90, 0.95,
1.00. -/
theorem C30_full_floor_score (floor totalFloors : ℤ) :
    (getFloorScore floor totalFloors = 1.00 ↔ 4 ≤ floor ∧ floor ≤ totalFloors - 3) ∧
      (totalFloors < 7 → getFloorScore floor totalFloors ≠ 1.00) ∧
      getFloorScore floor totalFloors ∈ ({0.80, 0.85, 0.90, 0.95, 1.00} : Set ℚ) := by
  have hiff : getFloorScore floor totalFloors = 1.00 ↔ 4 ≤ floor ∧ floor ≤ totalFloors - 3 := by
    unfold getFloorScore
    split_ifs with h1 h2 h3 h4
    · constructor
      · intro h; norm_num at h
      · rintro ⟨h5, -⟩; omega
    · constructor
      · intro h; norm_num at h
      · rintro ⟨-, h6⟩; omega
    · constructor
      · intro h; norm_num at h
      · rintro ⟨h5, -⟩; omega
    · constructor
      · intro h; norm_num at h
      · rintro ⟨-, h6⟩; omega
    · constructor
      · intro _; constructor <;> omega
      · intro _; norm_num
  refine ⟨hiff, ?_, ?_⟩
  · intro h7 h
    have := hiff.mp h
    omega
  · unfold getFloorScore
    split_ifs <;> simp <;> norm_num

theorem round_mono (x y : ℚ) (h : x ≤ y) : Js.round x ≤ Js.round y := by
  unfold Js.round
  exact Int.floor_mono (by linarith)

theorem specConditionMultiplier_mono (c1 c2 : Condition) (h : c2.rank ≤ c1.rank) :
    specConditionMultiplier c2 ≤ specConditionMultiplier c1 := by
  cases c1 <;> cases c2 <;> simp [Condition.rank] at h <;>
    simp [specConditionMultiplier] <;> norm_num

/-- C29: for two records of the same city and district with non-negative
areas, the first with an area at least that of the second and a condition at
least as good in the order excellent > good > fair > poor, the fallback
estimate of the first is at least that of the second. -/
theorem C29_estimate_monotone (id1 id2 : String) (p1 p2 : PropertyData) (hcity : p1.city = p2.city)
    (hdistrict : p1.district = p2.district) (harea2 : 0 ≤ p2.area) (harea : p2.area ≤ p1.area)
    (hcondition : p2.condition.rank ≤ p1.condition.rank) :
    ∃ v1 v2 : ℤ, (localValuation id1 p1).estimatedValue = some v1 ∧
      (localValuation id2 p2).estimatedValue = some v2 ∧ v2 ≤ v1 := by
  refine ⟨_, _, localValuation_estimatedValue id1 p1, localValuation_estimatedValue id2 p2, ?_⟩
  apply round_mono
  rw [hcity, hdistrict]
  have hb := getBasePricePerSqm_pos p2.city p2.district
  have hm := specConditionMultiplier_mono p1.condition p2.condition hcondition
  have hm2 := specConditionMultiplier_pos p2.condition
  have h1 : p2.area * getBasePricePerSqm p2.city p2.district ≤
      p1.area * getBasePricePerSqm p2.city p2.district :=
    mul_le_mul_of_nonneg_right harea hb.le
  have h2 : 0 ≤ p1.area * getBasePricePerSqm p2.city p2.district :=
    mul_nonneg (le_trans harea2 harea) hb.le
  calc p2.area * getBasePricePerSqm p2.city p2.district * specConditionMultiplier p2.condition
      ≤ p1.area * getBasePricePerSqm p2.city p2.district * specConditionMultiplier p2.condition :=
        mul_le_mul_of_nonneg_right h1 hm2.le
    _ ≤ p1.area * getBasePricePerSqm p2.city p2.district * specConditionMultiplier p1.condition :=
        mul_le_mul_of_nonneg_left hm h2

/-- C22 at the store `sampleStore`, which has no record of id `absent`, with
every remote request failing. -/
theorem C22_missing_record_fails_witness :
    unreachableRemote.valuation 0 "absent" = none ∧
      (getProperty unreachableRemote sampleStore 1 "absent").1 = none ∧
      getValuation unreachableRemote sampleStore 2 0 "absent" =
        some (.error "Дані про нерухомість не знайдені", 2) :=
  ⟨rfl, by decide, C22_missing_record_fails unreachableRemote sampleStore 0 "absent" 0 rfl
    (by decide)⟩

/-- C25, as stated, fails: both areas being −5, hence non-positive, the area
comparison contributes the full 0.20 and the score is 1, not the sum 0.80 of
the other six contributions. -/
theorem C25_negative_areas_counterexample :
    (negativeAreaProperty.area ≤ 0 ∨ negativeAreaProperty.area ≤ 0) ∧
      areaCredit negativeAreaProperty.area negativeAreaProperty.area = 0.20 ∧
      calculateSimilarity negativeAreaProperty negativeAreaProperty = 1 ∧
      calculateSimilarity negativeAreaProperty negativeAreaProperty ≠
        0 + roomsCredit negativeAreaProperty.rooms negativeAreaProperty.rooms
          + buildingTypeCredit negativeAreaProperty.buildingType
              negativeAreaProperty.buildingType
          + conditionCredit negativeAreaProperty.condition negativeAreaProperty.condition
          + floorCredit negativeAreaProperty.floor negativeAreaProperty.floor
          + totalFloorsCredit negativeAreaProperty.totalFloors negativeAreaProperty.totalFloors
          + balconyCredit negativeAreaProperty.hasBalcony negativeAreaProperty.hasBalcony := by
  have harea : areaCredit negativeAreaProperty.area negativeAreaProperty.area = 0.20 :=
    areaCredit_of_neg _ _ (by norm_num [negativeAreaProperty]) (by norm_num [negativeAreaProperty])
  have hsim : calculateSimilarity negativeAreaProperty negativeAreaProperty = 1 := by
    unfold calculateSimilarity
    rw [harea]
    simp [roomsCredit, buildingTypeCredit, conditionCredit, floorCredit, totalFloorsCredit,
      balconyCredit]
    norm_num
  refine ⟨Or.inl (by norm_num [negativeAreaProperty]), harea, hsim, ?_⟩
  rw [hsim]
  simp [roomsCredit, buildingTypeCredit, conditionCredit, floorCredit, totalFloorsCredit,
    balconyCredit]
  norm_num

/-- C25, amended: for every pair of records in which one area is non-positive
and the larger of the two areas is not negative, the area comparison of
`calculateSimilarity` contributes 0 and the score is the sum of the other six
contributions. -/
theorem C25_invalid_area_no_credit (a b : PropertyData) (h : a.area ≤ 0 ∨ b.area ≤ 0)
    (hmax : 0 ≤ max a.area b.area) :
    areaCredit a.area b.area = 0 ∧
      calculateSimilarity a b =
        0 + roomsCredit a.rooms b.rooms
          + buildingTypeCredit a.buildingType b.buildingType
          + conditionCredit a.condition b.condition
          + floorCredit a.floor b.floor
          + totalFloorsCredit a.totalFloors b.totalFloors
          + balconyCredit a.hasBalcony b.hasBalcony := by
  have h0 := areaCredit_zero_of_nonpos a.area b.area h hmax
  refine ⟨h0, ?_⟩
  unfold calculateSimilarity
  rw [h0, add_zero]

/-- C25, amended, at an area of −5 against an area of 60. -/
theorem C25_invalid_area_no_credit_witness :
    (negativeAreaProperty.area ≤ 0 ∨ sampleProperty.area ≤ 0) ∧
      0 ≤ max negativeAreaProperty.area sampleProperty.area ∧
      areaCredit negativeAreaProperty.area sampleProperty.area = 0 :=
  ⟨Or.inl (by norm_num [negativeAreaProperty]),
    by norm_num [negativeAreaProperty, sampleProperty],
    (C25_invalid_area_no_credit negativeAreaProperty sampleProperty
      (Or.inl (by norm_num [negativeAreaProperty]))
      (by norm_num [negativeAreaProperty, sampleProperty])).1⟩

/-- C29 at a record of 70 square metres in excellent condition against
`sampleProperty`, 60 square metres in good condition. -/
theorem C29_estimate_monotone_witness :
    ({ sampleProperty with area := 70, condition := .excellent } : PropertyData).city =
        sampleProperty.city ∧
      (0 : ℚ) ≤ sampleProperty.area ∧
      sampleProperty.area ≤
        ({ sampleProperty with area := 70, condition := .excellent } : PropertyData).area ∧
      sampleProperty.condition.rank ≤ Condition.excellent.rank ∧
      ∃ v1 v2 : ℤ,
        (localValuation "prop_3"
          { sampleProperty with area := 70, condition := .excellent }).estimatedValue =
            some v1 ∧
        (localValuation "prop_1" sampleProperty).estimatedValue = some v2 ∧ v2 ≤ v1 :=
  ⟨rfl, by norm_num [sampleProperty], by norm_num [sampleProperty], by decide,
    C29_estimate_monotone "prop_3" "prop_1"
      { sampleProperty with area := 70, condition := .excellent } sampleProperty rfl rfl
      (by norm_num [sampleProperty]) (by norm_num [sampleProperty]) (by decide)⟩

/-! ### Saving -/

theorem getSaved_setEntry_self (store : Store) (key : String) (value : PropertyData) :
    getSaved (setEntry store key value) key = some value := by
  unfold getSaved setEntry
  induction store with
  | nil => simp [List.lookup]
  | cons entry rest ih =>
    obtain ⟨k, q⟩ := entry
    by_cases hk : k = key
    · subst hk
      simp [List.lookup]
    · have hk2 : (k == key) = false := by simpa using hk
      have hk3 : (key == k) = false := by simpa using (Ne.symm hk)
      simp only [List.any_cons, hk2, Bool.false_or, List.map_cons, hk, if_false,
        List.cons_append] at ih ⊢
      split_ifs at ih ⊢ with hany
      · simp only [List.lookup_cons, hk3]
        exact ih
      · simp only [List.lookup_cons, hk3]
        exact ih

theorem getSaved_setEntry_other (store : Store) (key other : String) (value : PropertyData)
    (hne : other ≠ key) :
    getSaved (setEntry store key value) other = getSaved store other := by
  unfold getSaved setEntry
  have hb : (other == key) = false := by simpa using hne
  induction store with
  | nil => simp [List.lookup, hb]
  | cons entry rest ih =>
    obtain ⟨k, q⟩ := entry
    by_cases hk : k = key
    · subst hk
      have h1 : List.lookup other (List.map (fun entry : String × PropertyData =>
          if entry.1 = k then (k, value) else entry) rest) = List.lookup other rest := by
        clear ih
        induction rest with
        | nil => rfl
        | cons e2 r2 ih2 =>
          obtain ⟨k2, q2⟩ := e2
          by_cases hk2 : k2 = k
          · subst hk2
            simp [List.lookup_cons, hb, ih2]
          · simp only [List.map_cons, hk2, if_false, List.lookup_cons, ih2]
      simp [List.lookup_cons, hb, h1]
    · have hk2 : (k == key) = false := by simpa using hk
      simp only [List.any_cons, hk2, Bool.false_or, List.map_cons, hk, if_false,
        List.cons_append] at ih ⊢
      split_ifs at ih ⊢ with hany
      · simp only [List.lookup_cons]
        rw [ih]
      · simp only [List.lookup_cons]
        rw [ih]

theorem keys_setEntry (store : Store) (key : String) (value : PropertyData) (k : String)
    (hk : k ∈ store.map Prod.fst) : k ∈ (setEntry store key value).map Prod.fst := by
  unfold setEntry
  split_ifs with hany
  · rw [List.mem_map] at hk ⊢
    obtain ⟨⟨k1, q⟩, hmem, rfl⟩ := hk
    by_cases h : k1 = key
    · exact ⟨(key, value), List.mem_map.mpr ⟨(k1, q), hmem, by simp [h]⟩, h.symm⟩
    · exact ⟨(k1, q), List.mem_map.mpr ⟨(k1, q), hmem, by simp [h]⟩, rfl⟩
  · rw [List.map_append, List.mem_append]
    exact Or.inl hk

theorem length_setEntry (store : Store) (key : String) (value : PropertyData) :
    store.length ≤ (setEntry store key value).length := by
  unfold setEntry
  split_ifs <;> simp


theorem saveId_of_present (p : PropertyData) (generatedId id : String) (hid : p.id = some id)
    (hne : id ≠ "") : saveId p generatedId = id := by
  simp [saveId, hid, hne]

theorem saveCoordinates_of_present (geocode : Geocoder) (p : PropertyData) (c : Coordinates)
    (hc : p.coordinates = some c) : saveCoordinates geocode p = some c := by
  simp [saveCoordinates, hc]

theorem saveCoordinates_of_failure (geocode : Geocoder) (p : PropertyData)
    (hc : p.coordinates = none) (hgeo : ∀ address, geocode address p.city = none) :
    saveCoordinates geocode p = none := by
  simp [saveCoordinates, hc, hgeo]

theorem fullAddressOr_of_present (p : PropertyData) (alternative full : String)
    (hfull : p.fullAddress = some full) (hne : full ≠ "") :
    fullAddressOr p alternative = full := by
  simp [fullAddressOr, hfull, hne]

/-- C23, as stated, fails: `sampleProperty` has no full address; saved into an
empty store (the geocoder finds nothing) and read back from the local store,
it comes back with its address as full address, so the record read is not the
input with at most other coordinates. -/
theorem C23_fullAddress_counterexample :
    ∃ store r, saveProperty noGeocoder [] sampleProperty "prop_new" true =
        .ok ("prop_1", store) ∧
      (getProperty unreachableRemote store 0 "prop_1").1 = some r ∧
      sampleProperty.fullAddress = none ∧ r.fullAddress = some "вул. Сумська, 1" ∧
      r ≠ { sampleProperty with coordinates := r.coordinates } := by
  refine ⟨[("prop_1", propertyToSave noGeocoder sampleProperty "prop_1")],
    propertyToSave noGeocoder sampleProperty "prop_1", rfl, by decide, rfl, by decide,
    by decide⟩

/-- C23, amended: after `saveProperty(p)` has returned the id `k`, a
`getProperty(k)` served from the local store returns `p` with the id `k`, with
the coordinates that the save settled and with the full address defaulted to
the address; `k` is the id of `p` when it has a non-empty one, the full address
is that of `p` when it has a non-empty one, the coordinates are those of `p`
when it has some, so a record with an id and a full address comes back equal
in all fields except the coordinates. -/
theorem C23_round_trip (geocode : Geocoder) (store : Store) (p : PropertyData)
    (generatedId : String) (remote : Remote) (clock : ℕ)
    (hremote : remote.property clock (saveId p generatedId) = none) :
    ∃ k stored r, saveProperty geocode store p generatedId true = .ok (k, stored) ∧
      (getProperty remote stored clock k).1 = some r ∧
      r = { p with
        id := some k
        coordinates := r.coordinates
        fullAddress := some (fullAddressOr p p.address) } ∧
      (∀ id, p.id = some id → id ≠ "" → k = id) ∧
      (∀ full, p.fullAddress = some full → full ≠ "" → r.fullAddress = p.fullAddress) ∧
      (∀ c, p.coordinates = some c → r.coordinates = p.coordinates) ∧
      (∀ id full, p.id = some id → id ≠ "" → p.fullAddress = some full → full ≠ "" →
        r = { p with coordinates := r.coordinates }) := by
  refine ⟨saveId p generatedId, _, propertyToSave geocode p (saveId p generatedId), rfl, ?_,
    rfl, ?_, ?_, ?_, ?_⟩
  · simp only [getProperty, hremote]
    exact getSaved_setEntry_self _ _ _
  · intro id hid hne
    exact saveId_of_present p generatedId id hid hne
  · intro full hfull hne
    simp only [propertyToSave]
    rw [fullAddressOr_of_present p _ full hfull hne, hfull]
  · intro c hc
    simp only [propertyToSave]
    rw [saveCoordinates_of_present geocode p c hc, hc]
  · intro id full hid hne hfull hne2
    simp only [propertyToSave]
    rw [saveId_of_present p generatedId id hid hne, fullAddressOr_of_present p _ full hfull hne2,
      ← hid, ← hfull]

/-- C23, amended, at the record `sampleProperty`, the empty store and a
geocoder that finds nothing. -/
theorem C23_round_trip_witness :
    unreachableRemote.property 0 (saveId sampleProperty "prop_new") = none ∧
      ∃ k stored r, saveProperty noGeocoder [] sampleProperty "prop_new" true =
          .ok (k, stored) ∧
        (getProperty unreachableRemote stored 0 k).1 = some r ∧
        r = { sampleProperty with
          id := some k
          coordinates := r.coordinates
          fullAddress := some (fullAddressOr sampleProperty sampleProperty.address) } :=
  ⟨rfl, by
    obtain ⟨k, stored, r, h1, h2, h3, -⟩ :=
      C23_round_trip noGeocoder [] sampleProperty "prop_new" unreachableRemote 0 rfl
    exact ⟨k, stored, r, h1, h2, h3⟩⟩

theorem keys_setEntry_eq (store : Store) (key : String) (value : PropertyData)
    (hany : store.any (fun entry => entry.1 == key) = true) :
    (setEntry store key value).map Prod.fst = store.map Prod.fst := by
  unfold setEntry
  rw [if_pos hany, List.map_map]
  apply List.map_congr_left
  intro entry _
  by_cases h : entry.1 = key
  · simp [h]
  · simp [h]

theorem nodup_keys_setEntry (store : Store) (key : String) (value : PropertyData)
    (h : (store.map Prod.fst).Nodup) : ((setEntry store key value).map Prod.fst).Nodup := by
  by_cases hany : store.any (fun entry => entry.1 == key) = true
  · rw [keys_setEntry_eq store key value hany]
    exact h
  · unfold setEntry
    rw [if_neg hany, List.map_append]
    have hnot : key ∉ store.map Prod.fst := by
      intro hmem
      apply hany
      rw [List.mem_map] at hmem
      obtain ⟨entry, hentry, rfl⟩ := hmem
      rw [List.any_eq_true]
      exact ⟨entry, hentry, by simp⟩
    rw [List.nodup_append]
    refine ⟨h, by simp, ?_⟩
    intro a ha hb
    simp only [List.map_cons, List.map_nil, List.mem_singleton] at hb
    subst hb
    exact hnot ha

theorem keyed_setEntry (store : Store) (key : String) (value : PropertyData)
    (hkeyed : ∀ entry ∈ store, entry.2.id = some entry.1) (hvalue : value.id = some key) :
    ∀ entry ∈ setEntry store key value, entry.2.id = some entry.1 := by
  intro entry hentry
  unfold setEntry at hentry
  split_ifs at hentry with hany
  · rw [List.mem_map] at hentry
    obtain ⟨old, hold, rfl⟩ := hentry
    by_cases h : old.1 = key
    · simp [h, hvalue]
    · simpa [h] using hkeyed old hold
  · rw [List.mem_append] at hentry
    rcases hentry with h | h
    · exact hkeyed entry h
    · simp only [List.mem_singleton] at h
      subst h
      exact hvalue

theorem saveProperty_ok (geocode : Geocoder) (store : Store) (p : PropertyData)
    (generatedId propertyId : String) (stored : Store)
    (h : saveProperty geocode store p generatedId true = .ok (propertyId, stored)) :
    propertyId = saveId p generatedId ∧
      stored = setEntry store propertyId (propertyToSave geocode p propertyId) := by
  simp only [saveProperty, if_true, Except.ok.injEq, Prod.mk.injEq] at h
  obtain ⟨h1, h2⟩ := h
  subst h1
  exact ⟨rfl, h2.symm⟩

/-- In the local storage every record is kept under its own id, and no key
occurs twice. -/
theorem reachable_keyed (store : Store) (h : Reachable store) :
    (store.map Prod.fst).Nodup ∧ ∀ entry ∈ store, entry.2.id = some entry.1 := by
  induction h with
  | empty => exact ⟨List.nodup_nil, by simp⟩
  | save geocode contents readOk p generatedId propertyId stored _ hsave ih =>
    obtain ⟨-, rfl⟩ := saveProperty_ok _ _ _ _ _ _ hsave
    have hread : ((getSavedProperties contents readOk).map Prod.fst).Nodup ∧
        ∀ entry ∈ getSavedProperties contents readOk, entry.2.id = some entry.1 := by
      unfold getSavedProperties
      split_ifs
      · exact ih
      · exact ⟨List.nodup_nil, by simp⟩
    exact ⟨nodup_keys_setEntry _ _ _ hread.1, keyed_setEntry _ _ _ hread.2 rfl⟩

theorem reachable_savedStore : Reachable savedStore := by
  have h1 : Reachable [("s", storedSubject)] :=
    Reachable.save noGeocoder [] true storedSubject "prop_new" "s" _ Reachable.empty rfl
  have h2 : Reachable [("s", storedSubject), ("a", storedTwin)] :=
    Reachable.save noGeocoder _ true storedTwin "prop_new" "a" _ h1 rfl
  have h3 : Reachable [("s", storedSubject), ("a", storedTwin), ("u", storedBoundary)] :=
    Reachable.save noGeocoder _ true storedBoundary "prop_new" "u" _ h2 rfl
  exact Reachable.save noGeocoder _ true storedBelow "prop_new" "v" _ h3 rfl

theorem fetchRecords_eq_filterMap (store : Store) :
    ∀ entries : List Nearby, (∀ e ∈ entries, (fetched store e).isSome) →
      fetchRecords store entries = some (entries.filterMap (fetched store)) := by
  intro entries
  induction entries with
  | nil => intro _; rfl
  | cons e es ih =>
    intro h
    have hhead := h e (List.mem_cons_self _ _)
    have htail := ih (fun x hx => h x (List.mem_cons_of_mem _ hx))
    obtain ⟨p, hp⟩ := Option.isSome_iff_exists.mp hhead
    have hp2 : getSaved store (storeKey e.id) = some p := hp
    rw [fetchRecords, hp2, htail, List.filterMap_cons, hp]

theorem fetched_nearbyOf (store : Store) (hnodup : (store.map Prod.fst).Nodup)
    (hkeyed : ∀ entry ∈ store, entry.2.id = some entry.1) (propertyId : String)
    (origin : Coordinates) (radiusMeters : ℝ) (e : Nearby)
    (he : e ∈ nearbyOf store propertyId origin radiusMeters) :
    ∃ p c, fetched store e = some p ∧ p ∈ storeValues store ∧ p.id ≠ some propertyId ∧
      p.id = e.id ∧ p.coordinates = some c ∧
      e.distance = calculateDistance origin.latitude origin.longitude c.latitude c.longitude ∧
      e.distance ≤ radiusMeters := by
  obtain ⟨hdist, p, hp, hpid, heid, c, hc, hd⟩ :=
    mem_nearbyOf store propertyId origin radiusMeters e he
  refine ⟨p, c, ?_, hp, hpid, heid.symm, hc, hd, hdist⟩
  unfold fetched
  rw [heid]
  exact getSaved_own store hnodup hkeyed p hp

theorem record_of_id (store : Store) (hnodup : (store.map Prod.fst).Nodup)
    (hkeyed : ∀ entry ∈ store, entry.2.id = some entry.1) (p : PropertyData) (k : String)
    (hp : p ∈ storeValues store) (hid : p.id = some k) : getSaved store k = some p := by
  have h := getSaved_own store hnodup hkeyed p hp
  rwa [hid] at h

theorem findSimilarProperties_stored (remote : Remote) (store : Store) (clock : ℕ)
    (propertyId : String) (radiusMeters : ℝ) (maxResults : ℤ)
    (hnodup : (store.map Prod.fst).Nodup)
    (hkeyed : ∀ entry ∈ store, entry.2.id = some entry.1) :
    ∀ x ∈ findSimilarProperties remote store clock propertyId radiusMeters maxResults,
      x.property ∈ storeValues store ∧ ∃ c, x.property.coordinates = some c := by
  intro x hx
  rcases findSimilarProperties_cases remote store clock propertyId radiusMeters maxResults with
    h | ⟨property, origin, records, -, -, hrecords, h⟩
  · rw [h] at hx; simp at hx
  · rw [h] at hx
    obtain ⟨hmem, -, -, -⟩ := mem_rankSimilar property records x hx
    obtain ⟨e, he, hsaved⟩ := (fetchRecords_some store _ records hrecords).2 _ hmem
    obtain ⟨p, c, hp, hpmem, -, -, hc, -⟩ := fetched_nearbyOf store hnodup hkeyed propertyId
      origin radiusMeters e ((Js.sliceTo_sublist _ maxResults).subset he)
    unfold fetched at hp
    rw [hsaved] at hp
    cases hp
    exact ⟨hpmem, c, hc⟩

theorem getPropertiesInRadius_stored (store : Store) (latitude longitude radiusMeters : ℝ)
    (limit : ℤ) (hnodup : (store.map Prod.fst).Nodup)
    (hkeyed : ∀ entry ∈ store, entry.2.id = some entry.1) :
    ∀ r ∈ getPropertiesInRadius store latitude longitude radiusMeters limit,
      ∃ p c, r = some p ∧ p ∈ storeValues store ∧ p.coordinates = some c := by
  intro r hr
  unfold getPropertiesInRadius at hr
  rw [List.mem_map] at hr
  obtain ⟨e, he, rfl⟩ := hr
  have he2 : e ∈ nearbyInRadius store latitude longitude radiusMeters :=
    (Js.sliceTo_sublist _ limit).subset he
  obtain ⟨p, hp, c, hc, -, rfl⟩ := (mem_nearbyInRadius store _ _ _ e).mp he2
  exact ⟨p, c, getSaved_own store hnodup hkeyed p hp, hp, hc⟩

/-- C24: the local storage holding what `saveProperty` has written, when the
record `p` has no coordinates and the geocoder finds nothing, `saveProperty`
fails only if writing the storage fails; when it succeeds it returns the id of
the record and has stored, under that id, the record `p` with that id, with no
coordinates and with its full address defaulted to its address; no element
that `findSimilarProperties` or `getPropertiesInRadius` then returns has that
id; and a record `q` that has coordinates is saved in the same way whatever
the geocoder, the stored record carrying the coordinates of `q`. -/
theorem C24_geocoding_failure (geocode : Geocoder) (contents : Store) (readOk : Bool)
    (p q : PropertyData) (generatedId : String) (c : Coordinates)
    (hstore : Reachable contents) (hp : p.coordinates = none)
    (hgeo : ∀ address, geocode address p.city = none) (hq : q.coordinates = some c) :
    ∃ k stored,
      k = saveId p generatedId ∧ (∀ id, p.id = some id → id ≠ "" → k = id) ∧
      (∀ writeOk, saveProperty geocode (getSavedProperties contents readOk) p generatedId
          writeOk =
        if writeOk then .ok (k, stored)
        else .error "Не вдалося зберегти дані про нерухомість") ∧
      getSaved stored k =
        some { p with
          id := some k
          coordinates := none
          fullAddress := some (fullAddressOr p p.address) } ∧
      (∀ (remote : Remote) (clock : ℕ) (subjectId : String) (radiusMeters : ℝ)
          (maxResults : ℤ),
        ∀ x ∈ findSimilarProperties remote stored clock subjectId radiusMeters maxResults,
          x.property.id ≠ some k) ∧
      (∀ (latitude longitude radiusMeters : ℝ) (limit : ℤ),
        ∀ r ∈ getPropertiesInRadius stored latitude longitude radiusMeters limit,
          ∃ x, r = some x ∧ x.id ≠ some k) ∧
      (∀ (other : Geocoder) (writeOk : Bool),
        saveProperty other (getSavedProperties contents readOk) q generatedId writeOk =
          saveProperty geocode (getSavedProperties contents readOk) q generatedId writeOk) ∧
      ∀ other : Geocoder,
        getSaved (setEntry (getSavedProperties contents readOk) (saveId q generatedId)
            (propertyToSave other q (saveId q generatedId))) (saveId q generatedId) =
          some { q with
            id := some (saveId q generatedId)
            coordinates := some c
            fullAddress := some (fullAddressOr q q.address) } := by
  have hr : propertyToSave geocode p (saveId p generatedId) =
      { p with
        id := some (saveId p generatedId)
        coordinates := none
        fullAddress := some (fullAddressOr p p.address) } := by
    simp only [propertyToSave, saveCoordinates_of_failure geocode p hp hgeo]
  have hsaved : getSaved (setEntry (getSavedProperties contents readOk) (saveId p generatedId)
      (propertyToSave geocode p (saveId p generatedId))) (saveId p generatedId) =
      some (propertyToSave geocode p (saveId p generatedId)) := getSaved_setEntry_self _ _ _
  have hreach : Reachable (setEntry (getSavedProperties contents readOk) (saveId p generatedId)
      (propertyToSave geocode p (saveId p generatedId))) :=
    Reachable.save geocode contents readOk p generatedId _ _ hstore rfl
  obtain ⟨hnodup, hkeyed⟩ := reachable_keyed _ hreach
  have hnone : (propertyToSave geocode p (saveId p generatedId)).coordinates = none := by
    rw [hr]
  refine ⟨saveId p generatedId, _, rfl, ?_, ?_, by rw [← hr]; exact hsaved, ?_, ?_, ?_, ?_⟩
  · intro id hid hne
    exact saveId_of_present p generatedId id hid hne
  · intro writeOk
    cases writeOk <;> simp [saveProperty]
  · intro remote clock subjectId radiusMeters maxResults x hx hid
    obtain ⟨hmem, c2, hc2⟩ := findSimilarProperties_stored remote _ clock subjectId radiusMeters
      maxResults hnodup hkeyed x hx
    have h2 := record_of_id _ hnodup hkeyed x.property _ hmem hid
    rw [hsaved] at h2
    rw [← Option.some.inj h2, hnone] at hc2
    cases hc2
  · intro latitude longitude radiusMeters limit r hr2
    obtain ⟨x, c2, rfl, hmem, hc2⟩ := getPropertiesInRadius_stored _ latitude longitude
      radiusMeters limit hnodup hkeyed r hr2
    refine ⟨x, rfl, ?_⟩
    intro hid
    have h2 := record_of_id _ hnodup hkeyed x _ hmem hid
    rw [hsaved] at h2
    rw [← Option.some.inj h2, hnone] at hc2
    cases hc2
  · intro other writeOk
    have h1 : propertyToSave other q (saveId q generatedId) =
        propertyToSave geocode q (saveId q generatedId) := by
      simp only [propertyToSave, saveCoordinates_of_present _ q c hq]
    simp only [saveProperty, h1]
  · intro other
    rw [getSaved_setEntry_self]
    simp only [propertyToSave, saveCoordinates_of_present _ q c hq]

/-- C24 at the store `savedStore`, read successfully, at `sampleProperty`,
which has no coordinates, with a geocoder that finds nothing, and at
`mapSubject`, which has coordinates: the save returns the id `prop_1`, and no
element of a later search has that id. -/
theorem C24_geocoding_failure_witness :
    Reachable savedStore ∧ sampleProperty.coordinates = none ∧
      (∀ address, noGeocoder address sampleProperty.city = none) ∧
      mapSubject.coordinates = some ⟨50, 36⟩ ∧
      ∃ k stored, k = "prop_1" ∧
        saveProperty noGeocoder (getSavedProperties savedStore true) sampleProperty "prop_new"
          true = .ok (k, stored) ∧
        getSaved stored k =
          some { sampleProperty with
            id := some k
            coordinates := none
            fullAddress := some "вул. Сумська, 1" } ∧
        ∀ x ∈ findSimilarProperties unreachableRemote stored 0 "s" 1000 10,
          x.property.id ≠ some k :=
  ⟨reachable_savedStore, rfl, fun _ => rfl, rfl, by
    obtain ⟨k, stored, hk, -, hsave, hget, hsim, -⟩ :=
      C24_geocoding_failure noGeocoder savedStore true sampleProperty mapSubject "prop_new"
        ⟨50, 36⟩ reachable_savedStore rfl (fun _ => rfl) rfl
    have hk2 : k = "prop_1" := by rw [hk]; decide
    refine ⟨k, stored, hk2, by simpa using hsave true, ?_, hsim unreachableRemote 0 "s" 1000 10⟩
    rw [hget]
    rfl⟩

/-- With the storage read and written successfully, `saveProperty` of a
record whose id `k` is present returns `k`; afterwards the entry under `k` is
the new record, the entry under every other key is what it was, and no key is
lost. -/
theorem saveProperty_replaces_entry (geocode : Geocoder) (store : Store) (p : PropertyData)
    (generatedId k : String) (hid : p.id = some k) (hk : k ≠ "") :
    saveProperty geocode store p generatedId true =
        .ok (k, setEntry store k (propertyToSave geocode p k)) ∧
      getSaved (setEntry store k (propertyToSave geocode p k)) k =
        some (propertyToSave geocode p k) ∧
      (∀ other, other ≠ k →
        getSaved (setEntry store k (propertyToSave geocode p k)) other = getSaved store other) ∧
      (∀ key ∈ store.map Prod.fst,
        key ∈ (setEntry store k (propertyToSave geocode p k)).map Prod.fst) ∧
      store.length ≤ (setEntry store k (propertyToSave geocode p k)).length := by
  refine ⟨?_, getSaved_setEntry_self _ _ _, fun other hne => getSaved_setEntry_other _ _ _ _ hne,
    fun key hkey => keys_setEntry _ _ _ _ hkey, length_setEntry _ _ _⟩
  simp only [saveProperty, saveId_of_present p generatedId k hid hk, if_true]

/-- C26: a save is expected to leave every entry under another key as it
was. With the four records of `savedStore` in the local storage, saving the
record of id `a` while reading the storage fails does not: `getSavedProperties`
returns the empty object, `saveProperty` writes back the new entry alone, and
the records under `s`, `u` and `v` are gone. When the read succeeds the same
save leaves the storage as it was. -/
theorem C26_failed_read_drops_entries :
    Reachable savedStore ∧ storedTwin.id = some "a" ∧
      saveProperty noGeocoder (getSavedProperties savedStore false) storedTwin "prop_new" true =
        .ok ("a", [("a", storedTwin)]) ∧
      getSaved savedStore "s" = some storedSubject ∧
      getSaved savedStore "u" = some storedBoundary ∧
      getSaved savedStore "v" = some storedBelow ∧
      getSaved [("a", storedTwin)] "s" = none ∧
      getSaved [("a", storedTwin)] "u" = none ∧
      getSaved [("a", storedTwin)] "v" = none ∧
      saveProperty noGeocoder (getSavedProperties savedStore true) storedTwin "prop_new" true =
        .ok ("a", savedStore) :=
  ⟨reachable_savedStore, rfl, rfl, by decide, by decide, by decide, by decide, by decide,
    by decide, rfl⟩

/-! ### Comparable search in a store keyed by id -/

theorem findSimilarProperties_keyed (remote : Remote) (store : Store) (clock : ℕ)
    (propertyId : String) (radiusMeters : ℝ) (maxResults : ℤ) (subject : PropertyData)
    (origin : Coordinates) (hnodup : (store.map Prod.fst).Nodup)
    (hkeyed : ∀ entry ∈ store, entry.2.id = some entry.1)
    (hsubject : (getProperty remote store clock propertyId).1 = some subject)
    (hcoord : subject.coordinates = some origin) :
    findSimilarProperties remote store clock propertyId radiusMeters maxResults =
      rankSimilar subject
        ((Js.sliceTo (nearbyOf store propertyId origin radiusMeters) maxResults).filterMap
          (fetched store)) := by
  rw [findSimilarProperties_eq remote store clock propertyId radiusMeters maxResults subject
    origin hsubject hcoord, fetchRecords_eq_filterMap]
  intro e he
  obtain ⟨p, c, hp, -⟩ := fetched_nearbyOf store hnodup hkeyed propertyId origin radiusMeters e
    ((Js.sliceTo_sublist _ maxResults).subset he)
  rw [hp]
  rfl

/-- C27: the local storage holding what `saveProperty` has written, for a
non-negative `maxResults`, the ids that `findSimilarProperties` returns are
the ids among the first `maxResults` entries of the nearest-first list whose
record earns from `calculateSimilarity` a value above the double 0.6; every
returned element has coordinates within the radius and carries the distance
that `calculateDistance` gives; and a candidate whose id is not among those
first entries is not returned. -/
theorem C27_truncation_before_gate (remote : Remote) (store : Store) (clock : ℕ) (propertyId : String)
    (radiusMeters : ℝ) (maxResults : ℤ) (subject : PropertyData) (origin : Coordinates)
    (hstore : Reachable store)
    (hsubject : (getProperty remote store clock propertyId).1 = some subject)
    (hcoord : subject.coordinates = some origin) (hmax : 0 ≤ maxResults) :
    (∀ k : String,
      (∃ x ∈ findSimilarProperties remote store clock propertyId radiusMeters maxResults,
          x.property.id = some k) ↔
        ∃ e ∈ (nearbyOf store propertyId origin radiusMeters).take maxResults.toNat,
          e.id = some k ∧ ∃ p, getSaved store k = some p ∧ calculateSimilarity64 subject p > Js.fl 0.6) ∧
      (∀ x ∈ findSimilarProperties remote store clock propertyId radiusMeters maxResults,
        ∃ c, x.property.coordinates = some c ∧
          calculateDistance origin.latitude origin.longitude c.latitude c.longitude ≤
            radiusMeters ∧
          x.distance = ((calculateDistance origin.latitude origin.longitude c.latitude
            c.longitude : ℝ) : WithTop ℝ)) ∧
      (∀ p ∈ otherPropertiesWithCoordinates store propertyId,
        (∀ e ∈ (nearbyOf store propertyId origin radiusMeters).take maxResults.toNat,
          e.id ≠ p.id) →
        ∀ x ∈ findSimilarProperties remote store clock propertyId radiusMeters maxResults,
          x.property ≠ p) := by
  obtain ⟨hnodup, hkeyed⟩ := reachable_keyed store hstore
  have hres := findSimilarProperties_keyed remote store clock propertyId radiusMeters maxResults
    subject origin hnodup hkeyed hsubject hcoord
  have hslice : Js.sliceTo (nearbyOf store propertyId origin radiusMeters) maxResults =
      (nearbyOf store propertyId origin radiusMeters).take maxResults.toNat := by
    unfold Js.sliceTo
    rw [if_neg (not_lt.mpr hmax)]
  rw [hslice] at hres
  have hmem : ∀ x ∈ findSimilarProperties remote store clock propertyId radiusMeters maxResults,
      ∃ e ∈ (nearbyOf store propertyId origin radiusMeters).take maxResults.toNat,
        fetched store e = some x.property ∧
        x.similarity = calculateSimilarity64 subject x.property ∧
        x.distance = calculateDistanceToProperty subject x.property ∧ Js.fl 0.6 < x.similarity := by
    intro x hx
    rw [hres] at hx
    obtain ⟨h1, h2, h3, h4⟩ := mem_rankSimilar subject _ x hx
    rw [List.mem_filterMap] at h1
    obtain ⟨e, he, hfe⟩ := h1
    exact ⟨e, he, hfe, h2, h3, h4⟩
  have hids : ∀ k : String,
      (∃ x ∈ findSimilarProperties remote store clock propertyId radiusMeters maxResults,
          x.property.id = some k) ↔
        ∃ e ∈ (nearbyOf store propertyId origin radiusMeters).take maxResults.toNat,
          e.id = some k ∧ ∃ p, getSaved store k = some p ∧
            calculateSimilarity64 subject p > Js.fl 0.6 := by
    intro k
    constructor
    · rintro ⟨x, hx, hxid⟩
      obtain ⟨e, he, hfe, hsim, -, hgt⟩ := hmem x hx
      obtain ⟨p, c, hp, -, -, hpid, -⟩ := fetched_nearbyOf store hnodup hkeyed propertyId origin
        radiusMeters e (List.mem_of_mem_take he)
      rw [hfe] at hp
      cases hp
      have hek : e.id = some k := by rw [← hpid, hxid]
      refine ⟨e, he, hek, x.property, ?_, ?_⟩
      · have := hfe
        unfold fetched at this
        rw [hek] at this
        exact this
      · rw [← hsim]; exact hgt
    · rintro ⟨e, he, hek, p, hp, hgt⟩
      have hfe : fetched store e = some p := by
        unfold fetched
        rw [hek]
        exact hp
      obtain ⟨p2, c, hp2, -, -, hpid, -⟩ := fetched_nearbyOf store hnodup hkeyed propertyId
        origin radiusMeters e (List.mem_of_mem_take he)
      rw [hfe] at hp2
      cases hp2
      refine ⟨⟨p, calculateDistanceToProperty subject p, calculateSimilarity64 subject p⟩, ?_, ?_⟩
      · rw [hres]
        unfold rankSimilar
        rw [List.mem_insertionSort, List.mem_map]
        refine ⟨p, List.mem_filter.mpr ⟨List.mem_filterMap.mpr ⟨e, he, hfe⟩, ?_⟩, rfl⟩
        simpa using hgt
      · simp only
        rw [hpid, hek]
  refine ⟨hids, ?_, ?_⟩
  · intro x hx
    obtain ⟨e, he, hfe, -, hdist, -⟩ := hmem x hx
    obtain ⟨p, c, hp, -, -, -, hc, hd, hr⟩ := fetched_nearbyOf store hnodup hkeyed propertyId
      origin radiusMeters e (List.mem_of_mem_take he)
    rw [hfe] at hp
    cases hp
    refine ⟨c, hc, by rw [← hd]; exact hr, ?_⟩
    rw [hdist]
    simp only [calculateDistanceToProperty, hcoord, hc]
  · intro p hp hnot x hx hxp
    obtain ⟨e, he, hfe, -⟩ := hmem x hx
    obtain ⟨p2, c, hp2, -, -, hpid, -⟩ := fetched_nearbyOf store hnodup hkeyed propertyId
      origin radiusMeters e (List.mem_of_mem_take he)
    rw [hfe] at hp2
    cases hp2
    exact hnot e he (by rw [← hpid, hxp])

/-- C28: the local storage holding what `saveProperty` has written, of two
elements of the list that `findSimilarProperties` returns with the same
similarity, the earlier one has a distance at most that of the later one. -/
theorem C28_ties_by_distance (remote : Remote) (store : Store) (clock : ℕ) (propertyId : String)
    (radiusMeters : ℝ) (maxResults : ℤ)
    (hstore : Reachable store) :
    (findSimilarProperties remote store clock propertyId radiusMeters maxResults).Pairwise
      (fun x y => x.similarity = y.similarity → x.distance ≤ y.distance) := by
  obtain ⟨hnodup, hkeyed⟩ := reachable_keyed store hstore
  rcases findSimilarProperties_cases remote store clock propertyId radiusMeters maxResults with
    h | ⟨subject, origin, records, hsubject, hcoord, -, -⟩
  · rw [h]; exact List.Pairwise.nil
  rw [findSimilarProperties_keyed remote store clock propertyId radiusMeters maxResults
    subject origin hnodup hkeyed hsubject hcoord]
  set entries := Js.sliceTo (nearbyOf store propertyId origin radiusMeters) maxResults
    with hentries
  have hsub : entries.Sublist (nearbyOf store propertyId origin radiusMeters) :=
    Js.sliceTo_sublist _ _
  have hsortedEntries : entries.Pairwise (fun a b => a.distance ≤ b.distance) :=
    (List.sorted_insertionSort byDistance _ : List.Pairwise byDistance _).sublist hsub
  have hdist : ∀ e ∈ entries, ∀ p, fetched store e = some p →
      calculateDistanceToProperty subject p = ((e.distance : ℝ) : WithTop ℝ) := by
    intro e he p hp
    obtain ⟨p2, c, hp2, -, -, -, hc, hd, -⟩ := fetched_nearbyOf store hnodup hkeyed propertyId
      origin radiusMeters e (hsub.subset he)
    rw [hp] at hp2
    cases hp2
    simp only [calculateDistanceToProperty, hcoord, hc, hd]
  have hrecords : (entries.filterMap (fetched store)).Pairwise
      (fun p q => calculateDistanceToProperty subject p ≤
        calculateDistanceToProperty subject q) := by
    rw [List.pairwise_filterMap]
    refine hsortedEntries.imp_of_mem ?_
    intro a b ha hb hab p hp q hq
    rw [hdist a ha p hp, hdist b hb q hq]
    exact_mod_cast hab
  unfold rankSimilar
  set unsorted := ((entries.filterMap (fetched store)).filter
      (fun p => decide (calculateSimilarity64 subject p > Js.fl 0.6))).map
    (fun p => (⟨p, calculateDistanceToProperty subject p, calculateSimilarity64 subject p⟩ :
      SimilarProperty)) with hunsorted
  have hunsortedPairwise : unsorted.Pairwise (fun x y => x.distance ≤ y.distance) := by
    rw [hunsorted, List.pairwise_map]
    exact hrecords.sublist (List.filter_sublist _)
  rw [List.pairwise_iff_forall_sublist]
  intro x y hxy hsim
  have hstable := Js.filter_insertionSort_of_tied bySimilarityDesc
    (fun z => decide (z.similarity = y.similarity)) unsorted (by
      intro a _ b _ ha hb
      simp only [decide_eq_true_eq] at ha hb
      show a.similarity ≥ b.similarity
      rw [ha, hb])
  have h1 : ([x, y] : List SimilarProperty).Sublist
      ((unsorted.insertionSort bySimilarityDesc).filter
        (fun z => decide (z.similarity = y.similarity))) := by
    have := hxy.filter (fun z => decide (z.similarity = y.similarity))
    simpa [hsim] using this
  rw [hstable] at h1
  have h2 : ([x, y] : List SimilarProperty).Sublist unsorted :=
    h1.trans (List.filter_sublist _)
  exact (List.pairwise_iff_forall_sublist.mp hunsortedPairwise) h2

/-- C27 at the store `savedStore` with `maxResults` 1: only the nearest
candidate, the record `a`, passes on to the similarity test, and the record
`u`, which scores above the threshold as well, is not returned. -/
theorem C27_truncation_before_gate_witness :
    Reachable savedStore ∧
      (getProperty unreachableRemote savedStore 0 "s").1 = some storedSubject ∧
      storedSubject.coordinates = some ⟨50, 36⟩ ∧ (0 : ℤ) ≤ 1 ∧
      (∀ x ∈ findSimilarProperties unreachableRemote savedStore 0 "s" 1000 1,
        ∃ c, x.property.coordinates = some c ∧
          calculateDistance ((50 : ℚ) : ℝ) ((36 : ℚ) : ℝ) c.latitude c.longitude ≤ 1000 ∧
          x.distance = ((calculateDistance ((50 : ℚ) : ℝ) ((36 : ℚ) : ℝ) c.latitude
            c.longitude : ℝ) : WithTop ℝ)) ∧
      (∀ x ∈ findSimilarProperties unreachableRemote savedStore 0 "s" 1000 1,
        x.property ≠ storedBoundary) ∧
      calculateSimilarity64 storedSubject storedBoundary > Js.fl 0.6 :=
  ⟨reachable_savedStore, by decide, rfl, by norm_num,
    (C27_truncation_before_gate unreachableRemote savedStore 0 "s" 1000 1 storedSubject ⟨50, 36⟩
      reachable_savedStore (by decide) rfl (by norm_num)).2.1,
    (C27_truncation_before_gate unreachableRemote savedStore 0 "s" 1000 1 storedSubject ⟨50, 36⟩
      reachable_savedStore (by decide) rfl (by norm_num)).2.2 storedBoundary (by decide) (by
        rw [savedStore_nearby 1000 (by norm_num)]
        intro e he
        simp only [Int.toNat_one, List.take_succ_cons, List.take_zero, List.mem_singleton] at he
        subst he
        decide),
    by rw [calculateSimilarity64_boundary, fl_threshold]; norm_num⟩

/-- C28 at the store `savedStore`. -/
theorem C28_ties_by_distance_witness :
    Reachable savedStore ∧
      (findSimilarProperties unreachableRemote savedStore 0 "s" 1000 10).Pairwise
        (fun x y => x.similarity = y.similarity → x.distance ≤ y.distance) :=
  ⟨reachable_savedStore,
    C28_ties_by_distance unreachableRemote savedStore 0 "s" 1000 10 reachable_savedStore⟩

theorem savedStore_inRadius :
    getPropertiesInRadius savedStore 50 36 1000 2 = [some storedSubject, some storedTwin] := by
  have h : nearbyInRadius savedStore 50 36 1000 =
      [⟨some "s", 0⟩, ⟨some "a", 0⟩, ⟨some "u", 0⟩, ⟨some "v", 0⟩] := by
    have h50 : ((50 : ℚ) : ℝ) = 50 := by norm_num
    have h36 : ((36 : ℚ) : ℝ) = 36 := by norm_num
    simp [nearbyInRadius, findNearbyProperties, storeValues, savedStore, storedSubject,
      storedTwin, storedBoundary, storedBelow, mapSubject, sampleProperty, toCandidate,
      toNearby, calculateDistance_self, List.insertionSort, List.orderedInsert, byDistance]
  have h1 : getSaved savedStore "s" = some storedSubject := by decide
  have h2 : getSaved savedStore "a" = some storedTwin := by decide
  show (Js.sliceTo (nearbyInRadius savedStore 50 36 1000) 2).map
    (fun entry => getSaved savedStore (storeKey entry.id)) = _
  rw [h]
  simp [Js.sliceTo, storeKey, h1, h2]

/-- C19: the local storage holding what `saveProperty` has written, for a
non-negative integer `limit`, `getPropertiesInRadius` returns at most `limit`
elements, each a stored record with coordinates within `radiusMeters` of the
origin, in order of non-decreasing distance; and a stored record within the
radius that is left out is no nearer than any returned record. -/
theorem C19_nearest_within_radius (store : Store) (latitude longitude radiusMeters : ℝ) (limit : ℤ)
    (hstore : Reachable store) (hlimit : 0 ≤ limit) :
    ((getPropertiesInRadius store latitude longitude radiusMeters limit).length : ℤ) ≤ limit ∧
      (∀ r ∈ getPropertiesInRadius store latitude longitude radiusMeters limit,
        ∃ p c, r = some p ∧ p ∈ storeValues store ∧ p.coordinates = some c ∧
          calculateDistance latitude longitude c.latitude c.longitude ≤ radiusMeters) ∧
      (getPropertiesInRadius store latitude longitude radiusMeters limit).Pairwise
        (fun a b => distanceFromOrigin latitude longitude a ≤
          distanceFromOrigin latitude longitude b) ∧
      (∀ p ∈ storeValues store, ∀ c, p.coordinates = some c →
        calculateDistance latitude longitude c.latitude c.longitude ≤ radiusMeters →
        some p ∉ getPropertiesInRadius store latitude longitude radiusMeters limit →
        ∀ r ∈ getPropertiesInRadius store latitude longitude radiusMeters limit,
          distanceFromOrigin latitude longitude r ≤
            distanceFromOrigin latitude longitude (some p)) := by
  obtain ⟨hnodup, hkeyed⟩ := reachable_keyed store hstore
  have hres : getPropertiesInRadius store latitude longitude radiusMeters limit =
      ((nearbyInRadius store latitude longitude radiusMeters).take limit.toNat).map
        (fun entry => getSaved store (storeKey entry.id)) := by
    unfold getPropertiesInRadius nearbyInRadius Js.sliceTo
    rw [if_neg (not_lt.mpr hlimit)]
  have hlook : ∀ e ∈ nearbyInRadius store latitude longitude radiusMeters,
      ∃ p c, getSaved store (storeKey e.id) = some p ∧ p ∈ storeValues store ∧
        p.coordinates = some c ∧
        calculateDistance latitude longitude c.latitude c.longitude ≤ radiusMeters ∧
        e.distance = calculateDistance latitude longitude c.latitude c.longitude := by
    intro e he
    obtain ⟨p, hp, c, hc, hdist, rfl⟩ := (mem_nearbyInRadius store _ _ _ e).mp he
    exact ⟨p, c, getSaved_own store hnodup hkeyed p hp, hp, hc, hdist, rfl⟩
  have hdistance : ∀ e ∈ nearbyInRadius store latitude longitude radiusMeters,
      distanceFromOrigin latitude longitude (getSaved store (storeKey e.id)) =
        ((e.distance : ℝ) : WithTop ℝ) := by
    intro e he
    obtain ⟨p, c, hsaved, -, hc, -, hd⟩ := hlook e he
    simp [distanceFromOrigin, hsaved, hc, hd]
  have hsorted : (nearbyInRadius store latitude longitude radiusMeters).Pairwise
      (fun a b => a.distance ≤ b.distance) :=
    List.sorted_insertionSort byDistance _
  refine ⟨?_, ?_, ?_, ?_⟩
  · rw [hres, List.length_map, List.length_take]
    have : ((min limit.toNat (nearbyInRadius store latitude longitude radiusMeters).length : ℕ) :
        ℤ) ≤ (limit.toNat : ℤ) := by exact_mod_cast Nat.min_le_left _ _
    rw [Int.toNat_of_nonneg hlimit] at this
    exact this
  · intro r hr
    rw [hres, List.mem_map] at hr
    obtain ⟨e, he, rfl⟩ := hr
    obtain ⟨p, c, hsaved, hp, hc, hdist, -⟩ := hlook e (List.mem_of_mem_take he)
    exact ⟨p, c, hsaved, hp, hc, hdist⟩
  · rw [hres, List.pairwise_map]
    refine ((hsorted.sublist (List.take_sublist _ _)).imp_of_mem ?_)
    intro a b ha hb hab
    rw [hdistance a (List.mem_of_mem_take ha), hdistance b (List.mem_of_mem_take hb)]
    exact_mod_cast hab
  · intro p hp c hc hdist hnot r hr
    rw [hres] at hnot hr
    rw [List.mem_map] at hr
    obtain ⟨x, hx, rfl⟩ := hr
    have hep : (⟨p.id, calculateDistance latitude longitude c.latitude c.longitude⟩ : Nearby) ∈
        nearbyInRadius store latitude longitude radiusMeters :=
      (mem_nearbyInRadius store _ _ _ _).mpr ⟨p, hp, c, hc, hdist, rfl⟩
    have hsavedp := getSaved_own store hnodup hkeyed p hp
    have hnotTake : (⟨p.id, calculateDistance latitude longitude c.latitude c.longitude⟩ :
        Nearby) ∉ (nearbyInRadius store latitude longitude radiusMeters).take limit.toNat := by
      intro hin
      exact hnot (List.mem_map.mpr ⟨_, hin, hsavedp⟩)
    have hdrop : (⟨p.id, calculateDistance latitude longitude c.latitude c.longitude⟩ :
        Nearby) ∈ (nearbyInRadius store latitude longitude radiusMeters).drop limit.toNat := by
      have := hep
      rw [← List.take_append_drop limit.toNat
        (nearbyInRadius store latitude longitude radiusMeters), List.mem_append] at this
      exact this.resolve_left hnotTake
    have hrel := List.Sorted.rel_of_mem_take_of_mem_drop hsorted hx hdrop
    rw [hdistance x (List.mem_of_mem_take hx)]
    simp only [distanceFromOrigin, Option.bind, hc]
    exact_mod_cast hrel

/-- C19 at the store `savedStore` with `limit` 2: of the four records at the
origin two are returned. -/
theorem C19_nearest_within_radius_witness :
    Reachable savedStore ∧ (0 : ℤ) ≤ 2 ∧
      ((getPropertiesInRadius savedStore 50 36 1000 2).length : ℤ) ≤ 2 ∧
      (∀ r ∈ getPropertiesInRadius savedStore 50 36 1000 2,
        ∃ p c, r = some p ∧ p ∈ storeValues savedStore ∧ p.coordinates = some c ∧
          calculateDistance 50 36 c.latitude c.longitude ≤ 1000) ∧
      getPropertiesInRadius savedStore 50 36 1000 2 = [some storedSubject, some storedTwin] :=
  ⟨reachable_savedStore, by norm_num,
    (C19_nearest_within_radius savedStore 50 36 1000 2 reachable_savedStore (by norm_num)).1,
    (C19_nearest_within_radius savedStore 50 36 1000 2 reachable_savedStore (by norm_num)).2.1,
    savedStore_inRadius⟩

end PropertyService
